import Mathlib

/-!
Dell Gateway 5000 IO tool: the report protocol layer of `canctl.c`.

A shallow embedding of `src/src/canctl.c` (with the constants of
`src/inc/canctl.h`).  The HID channel behind a file descriptor is a
`Channel`: three functions on an abstract device state that stand for the
system calls `write(2)`, `select(2)` and `read(2)`.  The program state is a
`World`: the process-wide `_timeout_ms`, the device state, and a ghost trace
of the system calls made so far.

C arrays of `unsigned char` are functions from the index to the byte.  The
automatic array `buf` of a command is not initialised by the C code, so each
command takes its indeterminate initial contents as the argument `stack`
(`canctl_get_firmware_version` clears its array first and needs none).

From `src/src/main.c` the two self-tests, one turn of the interactive write
mode and the choice of the device after `--path` are embedded, and from
`src/inc/args.h` the `--timeout` case of the parser.  Functions of the C
library (`random`, `strtol`) are parameters.
-/

namespace CanCtl

/-! ## Constants of `canctl.h` -/

def GPIO_OUT_READ_PIN_TYPE : Nat := 0xb0
def GPIO_OUT_SET_PIN_TYPE : Nat := 0xb0
def GPIO_OUT_READ_PIN_DATA : Nat := 0xb1
def GPIO_OUT_SET_PIN_DATA : Nat := 0xb1
def GPIO_OUT_GET_BOARD_ID : Nat := 0xb2
def GPIO_OUT_GET_IOM_SKU : Nat := 0xb3

def GPIO_IN_READ_PIN_TYPE : Nat := 0xb0
def GPIO_IN_SET_PIN_TYPE : Nat := 0xb0
def GPIO_IN_READ_PIN_DATA : Nat := 0xb1
def GPIO_IN_SET_PIN_DATA : Nat := 0xb1
def GPIO_IN_GET_BOARD_ID : Nat := 0xb2
def GPIO_IN_GET_IOM_SKU : Nat := 0xb3

def CANBUS_OUT_SEND_DATA : Nat := 0xca
def CANBUS_OUT_ERROR_STATUS : Nat := 0xce
def CANBUS_OUT_GET_CONFIG : Nat := 0xcc
def CANBUS_OUT_SET_CONFIG : Nat := 0xcf
def CANBUS_OUT_FW_VERSION : Nat := 0xec
def CANBUS_OUT_USB_TEST : Nat := 0xda
def CANBUS_OUT_CAN_TEST : Nat := 0xca
def CANBUS_OUT_LED_OFF : Nat := 0xdd
def CANBUS_OUT_LED_ON : Nat := 0xde
def CANBUS_OUT_LED_NORMAL : Nat := 0xdf

def CANBUS_IN_RECV_DATA : Nat := 0xca
def CANBUS_IN_ERROR_STATUS : Nat := 0xce
def CANBUS_IN_GET_CONFIG : Nat := 0xcc
def CANBUS_IN_SET_CONFIG : Nat := 0xcf
def CANBUS_IN_FW_VERSION : Nat := 0xec
def CANBUS_IN_USB_TEST : Nat := 0xda
def CANBUS_IN_CAN_TEST : Nat := 0xca
def CANBUS_IN_LED_OFF : Nat := 0xdd
def CANBUS_IN_LED_ON : Nat := 0xde
def CANBUS_IN_LED_NORMAL : Nat := 0xdf

def CANBUS_MSG_SIZE : Nat := 64
def CANBUS_FIRMWARE_SIZE : Nat := 3
def CANBUS_ERROR_STATE_SIZE : Nat := 3
def CANBUS_DEFAULT_TIMEOUT_MS : Int := 10000
def CANBUS_MAX_BPS : Nat := 1000000
def GPIO_PIN_COUNT : Nat := 8

def GPIO_READ_PIN_TYPE_CMD : Nat := 0x01
def GPIO_SET_PIN_TYPE_CMD : Nat := 0x02
def GPIO_SET_PIN_TYPE_RESPONSE : Nat := 0x00
def GPIO_READ_PIN_TYPE_RESPONSE : Nat := 0x01
def GPIO_READ_PIN_DATA_CMD : Nat := 0x01
def GPIO_SET_PIN_DATA_CMD : Nat := 0x02
def GPIO_SET_PIN_DATA_RESPONSE : Nat := 0x00

def PIN_DATA : Int := 1
def PIN_TYPE : Int := 0
def GET_IOM : Int := 1
def GET_BOARD_ID : Int := 0

/-! The types `canbus_led_t` and `canbus_cfg_t` are C enumerations, that is, `int`s. -/

def CANBUS_LED_OFF : Int := 0
def CANBUS_LED_ON : Int := 1
def CANBUS_LED_NORMAL : Int := 2
def CANBUS_LED_UNKNOWN : Int := 3

def CANBUS_CFG_ERROR : Int := -1
def CANBUS_CFG_NORMAL : Int := 0x00
def CANBUS_CFG_DISABLE : Int := 0x01
def CANBUS_CFG_LOOPBACK : Int := 0x02
def CANBUS_CFG_LISTEN_ONLY : Int := 0x03
def CANBUS_CFG_CONFIGURATION : Int := 0x04
def CANBUS_CFG_RESERVED_1 : Int := 0x05
def CANBUS_CFG_RESERVED_2 : Int := 0x06
def CANBUS_CFG_LISTEN_ALL_MESSAGE : Int := 0x07
def CANBUS_CFG_UNKNOWN : Int := 0x08

/-- The nine enumerators `CANBUS_CFG_NORMAL .. CANBUS_CFG_UNKNOWN` of
`canbus_cfg_t` (the error value `CANBUS_CFG_ERROR` apart). -/
def cfgEnumerators : List Int :=
  [CANBUS_CFG_NORMAL, CANBUS_CFG_DISABLE, CANBUS_CFG_LOOPBACK, CANBUS_CFG_LISTEN_ONLY,
   CANBUS_CFG_CONFIGURATION, CANBUS_CFG_RESERVED_1, CANBUS_CFG_RESERVED_2,
   CANBUS_CFG_LISTEN_ALL_MESSAGE, CANBUS_CFG_UNKNOWN]

/-! ## Memory: arrays of `unsigned char` -/

/-- An array of `unsigned char`, as the map from an index to the byte there. -/
abbrev Buf := Nat → Nat

/-- Conversion of a C `int` to `unsigned char`. -/
def toByte (x : Int) : Nat := (x % 256).toNat

/-- The assignment `buf[i] = v` to an `unsigned char` element. -/
def setb (buf : Buf) (i v : Nat) : Buf := fun j => if j = i then v % 256 else buf j

/-- The array after `memset(buf, 0, sizeof(buf))`. -/
def zeroed : Buf := fun _ => 0

/-- The first `len` bytes of `buf`: what `write(fd, buf, len)` hands over. -/
def frameOf (buf : Buf) (len : Nat) : List Nat := (List.range len).map buf

/-- The array after `read(2)` stored the bytes `d` at its start. -/
def store (buf : Buf) (d : List Nat) : Buf :=
  fun j => if j < d.length then d.getD j 0 % 256 else buf j

/-- Wrap-around of a C `int` (32 bits, two's complement). -/
def int32 (x : Int) : Int := (x + 2147483648) % 4294967296 - 2147483648

/-! ## The channel and the program state -/

/-- What `select(2)` on the one descriptor reports: a negative return, zero
(timeout), or a positive return with the descriptor set or not in `rdset`. -/
inductive SelectOutcome
  | error
  | timeout
  | ready (isset : Bool)
  deriving DecidableEq, Repr

/-- The device behind a file descriptor.  `write s frame` is `write(2)` of the
bytes `frame`: the return value and the next device state.  `select s tv` is
`select(2)` with the bound `tv` (seconds, microseconds; `none` for a NULL
pointer).  `read s len` is `read(2)` of at most `len` bytes: `none` for the
return value -1, else the bytes delivered. -/
structure Channel (σ : Type) where
  write : σ → List Nat → Int × σ
  select : σ → Option (Int × Int) → SelectOutcome × σ
  read : σ → Nat → Option (List Nat) × σ

/-- One system call, as recorded in the ghost trace. -/
inductive Syscall
  | write (frame : List Nat) (rc : Int)
  | select (tv : Option (Int × Int))
  | read (len : Nat)
  deriving DecidableEq, Repr

/-- The program state: the static `_timeout_ms`, the device, and the ghost
trace of system calls (oldest first). -/
structure World (σ : Type) where
  timeout_ms : Int
  dev : σ
  trace : List Syscall

/-- The state at program start: `_timeout_ms = CANBUS_DEFAULT_TIMEOUT_MS`. -/
def World.init {σ : Type} (d : σ) : World σ :=
  { timeout_ms := CANBUS_DEFAULT_TIMEOUT_MS, dev := d, trace := [] }

/-- The frames handed to `write(2)` so far, oldest first. -/
def framesWritten {σ : Type} (w : World σ) : List (List Nat) :=
  w.trace.filterMap fun e =>
    match e with
    | Syscall.write f _ => some f
    | _ => none

def sys_write {σ : Type} (ch : Channel σ) (w : World σ) (frame : List Nat) : Int × World σ :=
  let r := ch.write w.dev frame
  (r.1, { w with dev := r.2, trace := w.trace ++ [Syscall.write frame r.1] })

def sys_select {σ : Type} (ch : Channel σ) (w : World σ) (tv : Option (Int × Int)) :
    SelectOutcome × World σ :=
  let r := ch.select w.dev tv
  (r.1, { w with dev := r.2, trace := w.trace ++ [Syscall.select tv] })

def sys_read {σ : Type} (ch : Channel σ) (w : World σ) (len : Nat) :
    Option (List Nat) × World σ :=
  let r := ch.read w.dev len
  (r.1, { w with dev := r.2, trace := w.trace ++ [Syscall.read len] })

/-! ## `canctl.c` -/

def canctl_set_timeout_ms {σ : Type} (w : World σ) (ms : Int) : World σ :=
  { w with timeout_ms := ms }

def canctl_get_timeout_ms {σ : Type} (w : World σ) : Int := w.timeout_ms

/-- The function `canctl_write(fd, buf, len)`; `buf = none` is the NULL pointer. -/
def canctl_write {σ : Type} (ch : Channel σ) (w : World σ) (buf : Option Buf) (len : Nat) :
    Int × World σ :=
  match buf with
  | none => (-1, w)
  | some b => sys_write ch w (frameOf b len)

/-- The function `canctl_read(fd, buf, len)`; `buf = none` is the NULL pointer.  Returns the
return value, the array afterwards and the next state. -/
def canctl_read {σ : Type} (ch : Channel σ) (w : World σ) (buf : Option Buf) (len : Nat) :
    Int × Option Buf × World σ :=
  let tv : Int × Int := (0, int32 (w.timeout_ms * 1000))
  let tvptr : Option (Int × Int) := if w.timeout_ms < 0 then none else some tv
  match buf with
  | none => (-1, none, w)
  | some b =>
    if len > CANBUS_MSG_SIZE then (-1, some b, w)
    else
      match sys_select ch w tvptr with
      | (SelectOutcome.error, w1) => (-1, some b, w1)
      | (SelectOutcome.timeout, w1) => (0, some b, w1)
      | (SelectOutcome.ready true, w1) =>
        match sys_read ch w1 len with
        | (none, w2) => (-1, some b, w2)
        | (some d, w2) => (((d.take len).length : Int), some (store b (d.take len)), w2)
      | (SelectOutcome.ready false, w1) => (-1, some b, w1)

/-- The array a command looks at after `canctl_read(fd, buf, sizeof(buf))`. -/
def bufAfter {σ : Type} (r : Int × Option Buf × World σ) : Buf := r.2.1.getD zeroed

/-- The function `canctl_get_firmware_version(fd)`: `none` is NULL, else the static `fw`. -/
def canctl_get_firmware_version {σ : Type} (ch : Channel σ) (w : World σ) :
    Option (List Nat) × World σ :=
  let fw : Buf := zeroed
  let buf : Buf := zeroed
  let buf := setb buf 0 CANBUS_OUT_FW_VERSION
  let buf := setb buf 1 0
  let wr := canctl_write ch w (some buf) 2
  if wr.1 ≠ 2 then (none, wr.2)
  else
    let buf : Buf := zeroed
    let rd := canctl_read ch wr.2 (some buf) CANBUS_MSG_SIZE
    if rd.1 < 0 then (none, rd.2.2)
    else
      let buf := bufAfter rd
      if buf 0 ≠ CANBUS_IN_FW_VERSION then (none, rd.2.2)
      else
        let fw : Buf := fun j => if j < CANBUS_FIRMWARE_SIZE then buf (1 + j) else fw j
        (some (frameOf fw CANBUS_FIRMWARE_SIZE), rd.2.2)

/-- The function `canctl_get_config(fd)`. -/
def canctl_get_config {σ : Type} (ch : Channel σ) (w : World σ) (stack : Buf) :
    Int × World σ :=
  let buf : Buf := stack
  let buf := setb buf 0 CANBUS_OUT_GET_CONFIG
  let buf := setb buf 1 0
  let wr := canctl_write ch w (some buf) 2
  if wr.1 ≠ 2 then (-1, wr.2)
  else
    let buf : Buf := zeroed
    let rd := canctl_read ch wr.2 (some buf) CANBUS_MSG_SIZE
    if rd.1 < 0 then (-1, rd.2.2)
    else
      let buf := bufAfter rd
      if buf 0 ≠ CANBUS_IN_GET_CONFIG then (-1, rd.2.2)
      else
        let cfg : Int := (buf 1 : Int)
        (cfg, rd.2.2)

/-- The function `canctl_set_config(fd, cfg, speed)`; `speed` is an `unsigned int`. -/
def canctl_set_config {σ : Type} (ch : Channel σ) (w : World σ) (stack : Buf)
    (cfg : Int) (speed : Nat) : Int × World σ :=
  let buf : Buf := stack
  let buf := setb buf 0 CANBUS_OUT_SET_CONFIG
  let buf := setb buf 1 (toByte cfg)
  let len : Nat := 2
  let bl : Buf × Nat :=
    if cfg = CANBUS_CFG_CONFIGURATION then
      let buf := setb buf 2 ((speed >>> 24) &&& 0xff)
      let buf := setb buf 3 ((speed >>> 16) &&& 0xff)
      let buf := setb buf 4 ((speed >>> 8) &&& 0xff)
      let buf := setb buf 5 ((speed >>> 0) &&& 0xff)
      (buf, 6)
    else (buf, len)
  let buf := bl.1
  let len := bl.2
  let wr := canctl_write ch w (some buf) len
  if wr.1 ≠ (len : Int) then (-1, wr.2)
  else
    let buf : Buf := zeroed
    let rd := canctl_read ch wr.2 (some buf) CANBUS_MSG_SIZE
    if rd.1 < 0 then (-1, rd.2.2)
    else
      let buf := bufAfter rd
      if buf 0 ≠ CANBUS_IN_SET_CONFIG then (-1, rd.2.2)
      else (0, rd.2.2)

/-- The function `canctl_set_led(fd, mode)`. -/
def canctl_set_led {σ : Type} (ch : Channel σ) (w : World σ) (stack : Buf) (mode : Int) :
    Int × World σ :=
  let rpt? : Option Nat :=
    if mode = CANBUS_LED_OFF then some CANBUS_OUT_LED_OFF
    else if mode = CANBUS_LED_ON then some CANBUS_OUT_LED_ON
    else if mode = CANBUS_LED_NORMAL then some CANBUS_OUT_LED_NORMAL
    else none
  match rpt? with
  | none => (-1, w)
  | some rpt =>
    let buf : Buf := stack
    let buf := setb buf 0 rpt
    let buf := setb buf 1 0
    let wr := canctl_write ch w (some buf) 2
    if wr.1 ≠ 2 then (-1, wr.2)
    else
      let buf : Buf := zeroed
      let rd := canctl_read ch wr.2 (some buf) CANBUS_MSG_SIZE
      if rd.1 < 0 then (-1, rd.2.2)
      else
        let buf := bufAfter rd
        if buf 0 ≠ rpt then (-1, rd.2.2)
        else (0, rd.2.2)

/-- The function `canctl_config_to_string(cfg)`. -/
def canctl_config_to_string (cfg : Int) : String :=
  if cfg = CANBUS_CFG_NORMAL then "Normal"
  else if cfg = CANBUS_CFG_DISABLE then "Disabled"
  else if cfg = CANBUS_CFG_LOOPBACK then "Loopback"
  else if cfg = CANBUS_CFG_LISTEN_ONLY then "Listen Only"
  else if cfg = CANBUS_CFG_CONFIGURATION then "Configuration"
  else if cfg = CANBUS_CFG_RESERVED_1 then "Reserved"
  else if cfg = CANBUS_CFG_RESERVED_2 then "Reserved"
  else if cfg = CANBUS_CFG_LISTEN_ALL_MESSAGE then "Listen All Messages"
  else if cfg = CANBUS_CFG_UNKNOWN then "Unknown"
  else "Error"

/-- The function `canctl_get_error_state(fd)`: `none` is NULL, else the static `estate`. -/
def canctl_get_error_state {σ : Type} (ch : Channel σ) (w : World σ) (stack : Buf) :
    Option (List Nat) × World σ :=
  let buf : Buf := stack
  let buf := setb buf 0 CANBUS_OUT_ERROR_STATUS
  let buf := setb buf 1 0
  let wr := canctl_write ch w (some buf) 2
  if wr.1 ≠ 2 then (none, wr.2)
  else
    let buf : Buf := zeroed
    let rd := canctl_read ch wr.2 (some buf) CANBUS_MSG_SIZE
    if rd.1 < 0 then (none, rd.2.2)
    else
      let buf := bufAfter rd
      if buf 0 ≠ CANBUS_IN_ERROR_STATUS then (none, rd.2.2)
      else
        let estate : Buf := fun j => buf (1 + j)
        (some (frameOf estate CANBUS_ERROR_STATE_SIZE), rd.2.2)

/-- The function `gpio_set_pin(fd, op_type, pin_types)`; `buf` has `GPIO_PIN_COUNT+2` bytes. -/
def gpio_set_pin {σ : Type} (ch : Channel σ) (w : World σ) (stack : Buf)
    (op_type : Int) (pin_types : Buf) : Int × World σ :=
  let buf : Buf := stack
  let buf := setb buf 0 (if op_type = PIN_TYPE then GPIO_OUT_SET_PIN_TYPE else GPIO_OUT_SET_PIN_DATA)
  let buf := setb buf 1 (if op_type = PIN_TYPE then GPIO_SET_PIN_TYPE_CMD else GPIO_SET_PIN_DATA_CMD)
  let buf := setb buf 2 (pin_types 0)
  let buf := setb buf 3 (pin_types 1)
  let buf := setb buf 4 (pin_types 2)
  let buf := setb buf 5 (pin_types 3)
  let buf := setb buf 6 (pin_types 4)
  let buf := setb buf 7 (pin_types 5)
  let buf := setb buf 8 (pin_types 6)
  let buf := setb buf 9 (pin_types 7)
  let wr := canctl_write ch w (some buf) 10
  if wr.1 ≠ 10 then (-1, wr.2)
  else
    let buf : Buf := zeroed
    let rd := canctl_read ch wr.2 (some buf) (GPIO_PIN_COUNT + 2)
    if rd.1 < 0 then (-1, rd.2.2)
    else
      let buf := bufAfter rd
      if (if op_type = PIN_TYPE then buf 0 ≠ GPIO_IN_SET_PIN_TYPE
          else buf 0 ≠ GPIO_IN_SET_PIN_DATA) then (-1, rd.2.2)
      else if (if op_type = PIN_TYPE then buf 1 ≠ GPIO_SET_PIN_TYPE_RESPONSE
          else buf 1 ≠ GPIO_SET_PIN_DATA_RESPONSE) then (-1, rd.2.2)
      else (0, rd.2.2)

/-- The function `gpio_read_pin(fd, op_type, pin_types)`: the return value, the caller's
array `pin_types` afterwards, and the next state. -/
def gpio_read_pin {σ : Type} (ch : Channel σ) (w : World σ) (stack : Buf)
    (op_type : Int) (pin_types : Buf) : Int × Buf × World σ :=
  let buf : Buf := stack
  let buf := setb buf 0 (if op_type = PIN_TYPE then GPIO_OUT_READ_PIN_TYPE else GPIO_OUT_READ_PIN_DATA)
  let buf := setb buf 1 (if op_type = PIN_TYPE then GPIO_READ_PIN_TYPE_CMD else GPIO_READ_PIN_DATA_CMD)
  let wr := canctl_write ch w (some buf) 2
  if wr.1 ≠ 2 then (-1, pin_types, wr.2)
  else
    let buf : Buf := zeroed
    let rd := canctl_read ch wr.2 (some buf) (GPIO_PIN_COUNT + 2)
    if rd.1 < 0 then (-1, pin_types, rd.2.2)
    else
      let buf := bufAfter rd
      if (if op_type = PIN_TYPE then buf 0 ≠ GPIO_IN_READ_PIN_TYPE
          else buf 0 ≠ GPIO_IN_READ_PIN_DATA) then (-1, pin_types, rd.2.2)
      else if (if op_type = PIN_TYPE then buf 1 ≠ GPIO_READ_PIN_TYPE_RESPONSE
          else buf 1 ≠ GPIO_READ_PIN_DATA_CMD) then (-1, pin_types, rd.2.2)
      else
        let pin_types := setb pin_types 0 (buf 2)
        let pin_types := setb pin_types 1 (buf 3)
        let pin_types := setb pin_types 2 (buf 4)
        let pin_types := setb pin_types 3 (buf 5)
        let pin_types := setb pin_types 4 (buf 6)
        let pin_types := setb pin_types 5 (buf 7)
        let pin_types := setb pin_types 6 (buf 8)
        let pin_types := setb pin_types 7 (buf 9)
        (0, pin_types, rd.2.2)

/-- The function `gpio_get_iom_or_sku(fd, op_select, outbuf)`: the return value, the
caller's `outbuf` afterwards, and the next state. -/
def gpio_get_iom_or_sku {σ : Type} (ch : Channel σ) (w : World σ) (stack : Buf)
    (op_select : Int) (outbuf : Buf) : Int × Buf × World σ :=
  let buf : Buf := stack
  let buf := setb buf 0 (if op_select = GET_IOM then GPIO_OUT_GET_IOM_SKU else GPIO_IN_GET_BOARD_ID)
  let buf := setb buf 1 0
  let wr := canctl_write ch w (some buf) 2
  if wr.1 ≠ 2 then (-1, outbuf, wr.2)
  else
    let buf : Buf := zeroed
    let rd := canctl_read ch wr.2 (some buf) CANBUS_MSG_SIZE
    if rd.1 < 0 then (-1, outbuf, rd.2.2)
    else
      let buf := bufAfter rd
      if (if op_select = GET_IOM then buf 0 ≠ GPIO_IN_GET_IOM_SKU
          else buf 0 ≠ GPIO_IN_GET_BOARD_ID) then (-1, outbuf, rd.2.2)
      else
        let outbuf := setb outbuf 0 (buf 1)
        (0, outbuf, rd.2.2)

/-! ## Specification vocabulary and fixtures -/

/-- What the `canctl_read` of a command returns when it follows the write of
`frame`: the read is into the zeroed array, for `len` bytes. -/
def reply {σ : Type} (ch : Channel σ) (w : World σ) (frame : List Nat) (len : Nat) :
    Int × Option Buf × World σ :=
  canctl_read ch (sys_write ch w frame).2 (some zeroed) len

/-- The response a command looks at: the array after that `canctl_read`. -/
def replyBuf {σ : Type} (ch : Channel σ) (w : World σ) (frame : List Nat) (len : Nat) : Buf :=
  bufAfter (reply ch w frame len)

/-- The channel accepts the write of `frame` whole, and the `canctl_read` of
`len` bytes that follows returns 0: the wait timed out, or the read delivered
no byte.  In both cases nothing is stored into the array. -/
def Silent {σ : Type} (ch : Channel σ) (w : World σ) (frame : List Nat) (len : Nat) : Prop :=
  (sys_write ch w frame).1 = (frame.length : Int) ∧ (reply ch w frame len).1 = 0

/-- A scripted device: it accepts every frame whole and delivers the queued
responses, one per read; with nothing queued the wait times out. -/
def scripted : Channel (List (List Nat)) where
  write := fun q f => ((f.length : Int), q)
  select := fun q _ => (if q.isEmpty then SelectOutcome.timeout else SelectOutcome.ready true, q)
  read := fun q _ => (q.head?, q.tail)

/-- The modes of `canbus_cfg_t` that `canctl.h` does not mark "never valid":
Normal, Disable, Loopback, Listen Only, Configuration, Listen All Messages. -/
def validMode (cfg : Int) : Prop :=
  cfg = CANBUS_CFG_NORMAL ∨ cfg = CANBUS_CFG_DISABLE ∨ cfg = CANBUS_CFG_LOOPBACK ∨
    cfg = CANBUS_CFG_LISTEN_ONLY ∨ cfg = CANBUS_CFG_CONFIGURATION ∨
    cfg = CANBUS_CFG_LISTEN_ALL_MESSAGE

/-- State of the faithful CAN fixture: the stored mode byte and the report
waiting to be read. -/
structure CanFixture where
  mode : Nat
  pending : Option (List Nat)

/-- The faithful CAN fixture: it accepts every frame whole; it stores byte 1 of
each 0xCF frame and answers it with an 0xCF report; it answers an 0xCC frame
with `[0xCC, stored mode]`.  The wait succeeds when a report is pending. -/
def canFixture : Channel CanFixture where
  write := fun s f =>
    if f.getD 0 0 = 0xcf then
      ((f.length : Int), { mode := f.getD 1 0, pending := some [0xcf] })
    else if f.getD 0 0 = 0xcc then
      ((f.length : Int), { s with pending := some [0xcc, s.mode] })
    else ((f.length : Int), s)
  select := fun s _ =>
    (if s.pending.isSome then SelectOutcome.ready true else SelectOutcome.timeout, s)
  read := fun s _ => (s.pending, { s with pending := none })

/-- State of the faithful GPIO fixture: the 8 stored bytes of each kind and the
report waiting to be read. -/
structure GpioFixture where
  types : List Nat
  datas : List Nat
  pending : Option (List Nat)

/-- The faithful GPIO fixture: it accepts every frame whole.  A set frame
(subcommand 0x02) with identifier 0xB0 or 0xB1 has its bytes 2..9 stored for
that kind and is answered with `[id, 0x00]`; a read frame (subcommand 0x01) is
answered with `[id, 0x01]` followed by the 8 bytes stored for that kind. -/
def gpioFixture : Channel GpioFixture where
  write := fun s f =>
    let id := f.getD 0 0
    let sub := f.getD 1 0
    if id = 0xb0 ∧ sub = 0x02 then
      ((f.length : Int), { s with types := (f.drop 2).take 8, pending := some [id, 0x00] })
    else if id = 0xb1 ∧ sub = 0x02 then
      ((f.length : Int), { s with datas := (f.drop 2).take 8, pending := some [id, 0x00] })
    else if id = 0xb0 ∧ sub = 0x01 then
      ((f.length : Int), { s with pending := some ([id, 0x01] ++ s.types) })
    else if id = 0xb1 ∧ sub = 0x01 then
      ((f.length : Int), { s with pending := some ([id, 0x01] ++ s.datas) })
    else ((f.length : Int), s)
  select := fun s _ =>
    (if s.pending.isSome then SelectOutcome.ready true else SelectOutcome.timeout, s)
  read := fun s _ => (s.pending, { s with pending := none })

/-- A channel that accepts at most `n` bytes of each frame and never has
anything to read. -/
def accepting (n : Nat) : Channel Unit where
  write := fun s f => (((min f.length n : Nat) : Int), s)
  select := fun s _ => (SelectOutcome.timeout, s)
  read := fun s _ => (none, s)

/-- A device that echoes: it accepts every frame whole and delivers it back
on the next read. -/
def echoFixture : Channel (Option (List Nat)) where
  write := fun _ f => ((f.length : Int), some f)
  select := fun s _ =>
    (if s.isSome then SelectOutcome.ready true else SelectOutcome.timeout, s)
  read := fun s _ => (s, none)

/-- The faithful CAN fixture with loopback: as `canFixture`, and an 0xCA frame
written while the stored mode is Loopback (2) is echoed back as it is. -/
def loopbackFixture : Channel CanFixture where
  write := fun s f =>
    if f.getD 0 0 = 0xcf then
      ((f.length : Int), { mode := f.getD 1 0, pending := some [0xcf] })
    else if f.getD 0 0 = 0xcc then
      ((f.length : Int), { s with pending := some [0xcc, s.mode] })
    else if f.getD 0 0 = 0xca ∧ s.mode = 2 then
      ((f.length : Int), { s with pending := some f })
    else ((f.length : Int), s)
  select := fun s _ =>
    (if s.pending.isSome then SelectOutcome.ready true else SelectOutcome.timeout, s)
  read := fun s _ => (s.pending, { s with pending := none })

/-! ## The self-tests of `main.c` -/

/-- A line the self-tests print: the error lines and the success line (the
informational lines "Writing ..", "Received ..", "Checking validity" are left
out).
* `problem`: "ERROR: A problem occurred: %s" with `strerror(errno)`;
* `wroteUnexpected e n`: "ERROR: Wrote an unexected number of bytes: expected e, wrote n";
* `readUnexpected e n`: "ERROR: Read an unexpected number of bytes: expected e, read n";
* `mismatch i e r`: "ERROR: Index [i]: expected e, received r";
* `success`: "Success. Bytes are valid.";
* `configProblem s`: "ERROR: A problem occurred setting the configuration to s". -/
inductive Msg
  | problem
  | wroteUnexpected (expected : Nat) (wrote : Int)
  | readUnexpected (expected : Nat) (read : Int)
  | mismatch (i expected received : Nat)
  | success
  | configProblem (cfg : String)
  deriving DecidableEq, Repr

/-- The comparison loop `for (i = ..; i < n; i++) if (buf_tx[i] != buf_rx[i])
{ report; return; }`, with `k` iterations left from index `i`: the index
reported, or `none` when the loop runs to its end. -/
def compareLoop (buf_tx buf_rx : Buf) : Nat → Nat → Option Nat
  | 0, _ => none
  | k + 1, i => if buf_tx i ≠ buf_rx i then some i else compareLoop buf_tx buf_rx k (i + 1)

/-- The local `num_bins` of `mnu_usb_self_test`. -/
def num_bins : Nat := 256

/-- The local `num_rand = (unsigned long) RAND_MAX + 1`; the platform's
`RAND_MAX` is a parameter. -/
def num_rand (RAND_MAX : Nat) : Nat := RAND_MAX + 1

/-- The local `bin_size = num_rand / num_bins`. -/
def bin_size (RAND_MAX : Nat) : Nat := num_rand RAND_MAX / num_bins

/-- The local `defect = num_rand % num_bins`. -/
def defect (RAND_MAX : Nat) : Nat := num_rand RAND_MAX % num_bins

/-- The loop `do { x = random(); } while (num_rand - defect <= x)` on the
values `random()` returns next: the `x` it ends with and the values left, or
`none` when all the values given are rejected. -/
def usb_draw (RAND_MAX : Nat) : List Nat → Option (Nat × List Nat)
  | [] => none
  | x :: rest =>
    if num_rand RAND_MAX - defect RAND_MAX ≤ x then usb_draw RAND_MAX rest else some (x, rest)

/-- The loop `for (i = ..; i < sizeof(buf_tx); i++)` of `mnu_usb_self_test`
with `k` iterations left from index `i`: each stores
`(unsigned char)(x / bin_size)` at `buf_tx[i]`. -/
def usb_fill (RAND_MAX : Nat) : Nat → Nat → Buf → List Nat → Option (Buf × List Nat)
  | 0, _, buf_tx, draws => some (buf_tx, draws)
  | k + 1, i, buf_tx, draws =>
    match usb_draw RAND_MAX draws with
    | none => none
    | some (x, rest) => usb_fill RAND_MAX k (i + 1) (setb buf_tx i (x / bin_size RAND_MAX)) rest

/-- The second half of `mnu_usb_self_test`, from "// Write" on, for the array
`buf_tx` filled before: the lines printed and the next state. -/
def usb_self_test_exchange {σ : Type} (ch : Channel σ) (w : World σ) (buf_tx : Buf) :
    List Msg × World σ :=
  let wr := canctl_write ch w (some buf_tx) CANBUS_MSG_SIZE
  if wr.1 < 0 then ([Msg.problem], wr.2)
  else if wr.1 ≠ (CANBUS_MSG_SIZE : Int) then ([Msg.wroteUnexpected CANBUS_MSG_SIZE wr.1], wr.2)
  else
    let buf_rx : Buf := zeroed
    let rd := canctl_read ch wr.2 (some buf_rx) CANBUS_MSG_SIZE
    if rd.1 < 0 then ([Msg.problem], rd.2.2)
    else if rd.1 ≠ (CANBUS_MSG_SIZE : Int) then
      ([Msg.readUnexpected CANBUS_MSG_SIZE rd.1], rd.2.2)
    else
      let buf_rx := bufAfter rd
      match compareLoop buf_tx buf_rx rd.1.toNat 0 with
      | some i => ([Msg.mismatch i (buf_tx i) (buf_rx i)], rd.2.2)
      | none => ([Msg.success], rd.2.2)

/-- The function `mnu_usb_self_test()`, on the values `random()` returns;
`none` when these run out before the 63 bytes are drawn. -/
def mnu_usb_self_test {σ : Type} (ch : Channel σ) (w : World σ) (RAND_MAX : Nat)
    (draws : List Nat) : Option (List Msg × World σ) :=
  let buf_tx : Buf := zeroed
  let buf_tx := setb buf_tx 0 CANBUS_OUT_USB_TEST
  match usb_fill RAND_MAX (CANBUS_MSG_SIZE - 1) 1 buf_tx draws with
  | none => none
  | some (buf_tx, _) => some (usb_self_test_exchange ch w buf_tx)

/-- The array `buf_tx` of `mnu_can_loopback_test` after its 16 assignments. -/
def loopback_buf_tx : Buf :=
  let buf_tx : Buf := zeroed
  let buf_tx := setb buf_tx 0 CANBUS_OUT_SEND_DATA
  let buf_tx := setb buf_tx 1 0x01
  let buf_tx := setb buf_tx 2 0x1d
  let buf_tx := setb buf_tx 3 0x1f
  let buf_tx := setb buf_tx 4 0xff
  let buf_tx := setb buf_tx 5 0xff
  let buf_tx := setb buf_tx 6 0xff
  let buf_tx := setb buf_tx 7 0x08
  let buf_tx := setb buf_tx 8 0x08
  let buf_tx := setb buf_tx 9 0x07
  let buf_tx := setb buf_tx 10 0x06
  let buf_tx := setb buf_tx 11 0x05
  let buf_tx := setb buf_tx 12 0x04
  let buf_tx := setb buf_tx 13 0x03
  let buf_tx := setb buf_tx 14 0x02
  let buf_tx := setb buf_tx 15 0x01
  buf_tx

/-- Steps 5 and 6 of `mnu_can_loopback_test` (write the data frame, read it
back, compare the first `txlen` bytes): the line printed, `Msg.success` when
the check passes, and the next state. -/
def loopback_data_check {σ : Type} (ch : Channel σ) (w : World σ) : Msg × World σ :=
  let buf_tx := loopback_buf_tx
  let txlen : Nat := 16
  let wr := canctl_write ch w (some buf_tx) txlen
  if wr.1 < 0 then (Msg.problem, wr.2)
  else if wr.1 ≠ (txlen : Int) then (Msg.wroteUnexpected txlen wr.1, wr.2)
  else
    let buf_rx : Buf := zeroed
    let rd := canctl_read ch wr.2 (some buf_rx) CANBUS_MSG_SIZE
    if rd.1 < 0 then (Msg.problem, rd.2.2)
    else if rd.1 < (txlen : Int) then (Msg.readUnexpected txlen rd.1, rd.2.2)
    else
      let buf_rx := bufAfter rd
      match compareLoop buf_tx buf_rx txlen 0 with
      | some i => (Msg.mismatch i (buf_tx i) (buf_rx i), rd.2.2)
      | none => (Msg.success, rd.2.2)

/-- The function `mnu_can_loopback_test()`: the lines printed and the next
state.  `stack k` is the indeterminate array of the k-th `canctl_set_config`. -/
def mnu_can_loopback_test {σ : Type} (ch : Channel σ) (w : World σ) (stack : Nat → Buf) :
    List Msg × World σ :=
  let r1 := canctl_set_config ch w (stack 0) CANBUS_CFG_CONFIGURATION CANBUS_MAX_BPS
  if r1.1 < 0 then
    ([Msg.configProblem (canctl_config_to_string CANBUS_CFG_CONFIGURATION)], r1.2)
  else
    let r2 := canctl_set_config ch r1.2 (stack 1) CANBUS_CFG_LOOPBACK CANBUS_MAX_BPS
    if r2.1 < 0 then
      ([Msg.configProblem (canctl_config_to_string CANBUS_CFG_LOOPBACK)], r2.2)
    else
      let d := loopback_data_check ch r2.2
      if d.1 ≠ Msg.success then ([d.1], d.2)
      else
        let r3 := canctl_set_config ch d.2 (stack 2) CANBUS_CFG_CONFIGURATION CANBUS_MAX_BPS
        if r3.1 < 0 then
          ([Msg.success, Msg.configProblem (canctl_config_to_string CANBUS_CFG_CONFIGURATION)],
            r3.2)
        else
          let r4 := canctl_set_config ch r3.2 (stack 3) CANBUS_CFG_NORMAL CANBUS_MAX_BPS
          if r4.1 < 0 then
            ([Msg.success, Msg.configProblem (canctl_config_to_string CANBUS_CFG_NORMAL)], r4.2)
          else ([Msg.success], r4.2)

/-- The faithful CAN fixture with an echo `g`: as `loopbackFixture`, but the
answer to an 0xCA frame `f` written in Loopback mode is `g f`. -/
def loopbackFixtureWith (g : List Nat → List Nat) : Channel CanFixture where
  write := fun s f =>
    if f.getD 0 0 = 0xcf then
      ((f.length : Int), { mode := f.getD 1 0, pending := some [0xcf] })
    else if f.getD 0 0 = 0xcc then
      ((f.length : Int), { s with pending := some [0xcc, s.mode] })
    else if f.getD 0 0 = 0xca ∧ s.mode = 2 then
      ((f.length : Int), { s with pending := some (g f) })
    else ((f.length : Int), s)
  select := fun s _ =>
    (if s.pending.isSome then SelectOutcome.ready true else SelectOutcome.timeout, s)
  read := fun s _ => (s.pending, { s with pending := none })

/-- A device that acknowledges every 0xCF frame without changing its mode: it
answers 0xCC with `[0xCC, mode]`, and echoes an 0xCA frame in whatever mode it
is. -/
def ackOnlyFixture : Channel CanFixture where
  write := fun s f =>
    if f.getD 0 0 = 0xcf then ((f.length : Int), { s with pending := some [0xcf] })
    else if f.getD 0 0 = 0xcc then
      ((f.length : Int), { s with pending := some [0xcc, s.mode] })
    else if f.getD 0 0 = 0xca then ((f.length : Int), { s with pending := some f })
    else ((f.length : Int), s)
  select := fun s _ =>
    (if s.pending.isSome then SelectOutcome.ready true else SelectOutcome.timeout, s)
  read := fun s _ => (s.pending, { s with pending := none })

/-- Between `w` and `w2` only frames whose length is in `lens` were written. -/
def SendsOnly {σ : Type} (lens : List Nat) (w w2 : World σ) : Prop :=
  ∃ fs : List (List Nat), framesWritten w2 = framesWritten w ++ fs ∧
    ∀ f, f ∈ fs → f.length ∈ lens

/-! ## The error state flags of `canctl.h` and their display -/

def CANBUS_ESTATE_TXRX_WARN : Nat := 0x1
def CANBUS_ESTATE_RX_WARN : Nat := 0x2
def CANBUS_ESTATE_TX_WARN : Nat := 0x4
def CANBUS_ESTATE_RX_PASSIVE : Nat := 0x8
def CANBUS_ESTATE_TX_PASSIVE : Nat := 0x10
def CANBUS_ESTATE_TX_OFF : Nat := 0x20

/-- The macro `GET_ESTATE_STR(byte, flag)`. -/
def GET_ESTATE_STR (byte flag : Nat) : String :=
  if (byte &&& flag) = flag then "yes" else "no"

/-! ## Interactive write mode of `main.c` -/

/-- The tokens the calls `strtok(userinput, " ")`, `strtok(NULL, " ")`, ..
return in turn: the maximal runs of characters other than the space.  `cur`
is the run being read, in reverse. -/
def strtokLoop : List Char → List Char → List (List Char)
  | [], cur => if cur.isEmpty then [] else [cur.reverse]
  | c :: rest, cur =>
    if c = Char.ofNat 32 then
      if cur.isEmpty then strtokLoop rest [] else cur.reverse :: strtokLoop rest []
    else strtokLoop rest (c :: cur)

/-- The loop `for (i = ..; i < sizeof(msg); i++)` of `mnu_write`, with `k`
iterations left from index `i`, on the tokens still to come: the final `i`,
`msg` and `msg_valid`.  `strtol16 tok` stands for `strtol(tok, &endptr, 16)` of
the C library: the number returned and `endptr - tok`. -/
def mnu_write_parse (strtol16 : List Char → Int × Nat) :
    Nat → Nat → Buf → List (List Char) → Nat × Buf × Bool
  | 0, i, msg, _ => (i, msg, true)
  | _ + 1, i, msg, [] => (i, msg, true)
  | k + 1, i, msg, tok :: rest =>
    let tok := tok.takeWhile fun c => c ≠ Char.ofNat 13 ∧ c ≠ Char.ofNat 10
    let r := strtol16 tok
    if r.2 = 0 ∨ r.1 > 255 ∨ r.1 < 0 then (i, msg, false)
    else mnu_write_parse strtol16 k (i + 1) (setb msg i (toByte r.1)) rest

/-- One turn of the loop of `mnu_write` when stdin is readable, on the
characters `input` typed before the newline: `none` with the state unchanged
when the message is not valid, else the return value of `canctl_write` and the
next state. -/
def mnu_write_turn {σ : Type} (ch : Channel σ) (w : World σ)
    (strtol16 : List Char → Int × Nat) (input : List Char) : Option Int × World σ :=
  let userinput := (input.take (CANBUS_MSG_SIZE * 2 - 1)).takeWhile fun c => c ≠ Char.ofNat 0
  let msg : Buf := zeroed
  let r := mnu_write_parse strtol16 CANBUS_MSG_SIZE 0 msg (strtokLoop userinput [])
  if r.2.2 = false then (none, w)
  else
    let wr := canctl_write ch w (some r.2.1) r.1
    (some wr.1, wr.2)

/-! ## Argument parsing (`args.h`) and device selection (`main`) -/

/-- The constant `LONG_MIN` of the C library, for a 64-bit `long`. -/
def LONG_MIN : Int := -9223372036854775808

/-- The constant `LONG_MAX` of the C library, for a 64-bit `long`. -/
def LONG_MAX : Int := 9223372036854775807

/-- The lines `case 't'` of `parser` prints. -/
inductive ParserWarning
  | overflow
  | invalidEntry
  deriving DecidableEq, Repr

/-- The `case 't'` of `parser`: the value left in `cfg->timeout_ms` and the
warnings printed.  `num` is what `strtol(arg, &endptr, 10)` returns and
`arg_eq_endptr` tells whether `arg == endptr`.  The last assignment is not
part of the `if` before it: that `if` has no braces. -/
def parser_timeout (num : Int) (arg_eq_endptr : Bool) : Int × List ParserWarning :=
  let timeout_ms := num
  let s1 : Int × List ParserWarning :=
    if timeout_ms = LONG_MIN ∨ timeout_ms = LONG_MAX then
      (CANBUS_DEFAULT_TIMEOUT_MS, [ParserWarning.overflow])
    else (timeout_ms, [])
  let out := if arg_eq_endptr then s1.2 ++ [ParserWarning.invalidEntry] else s1.2
  let timeout_ms := CANBUS_DEFAULT_TIMEOUT_MS
  (timeout_ms, out)

/-- The start of `main` with `--timeout MSEC` given:
`canctl_set_timeout_ms(cfg.timeout_ms)`, a `long` passed as an `int`. -/
def main_set_timeout {σ : Type} (w : World σ) (num : Int) (arg_eq_endptr : Bool) : World σ :=
  canctl_set_timeout_ms w (int32 (parser_timeout num arg_eq_endptr).1)

/-- The lines the `switch (ans)` of `main` prints after `--path`. -/
inductive ChoiceLine
  | canChosen
  | gpioChosen
  | pleaseChoose
  deriving DecidableEq, Repr

/-- The `switch (ans)` of `main` after `open(cfg.path)` gave `fd`: the values of
`fd_can` and `fd_gpio` afterwards and the lines printed.  `ans` is the
character code `getchar()` returned ('1' is 49, '2' is 50).  No case of the
switch ends with `break`, so each falls through to the next. -/
def choose_device (fd : Int) (ans : Int) (fd_can fd_gpio : Int) :
    Int × Int × List ChoiceLine :=
  if ans = 49 then
    let fd_can := fd
    let fd_gpio := fd
    (fd_can, fd_gpio, [ChoiceLine.canChosen, ChoiceLine.gpioChosen, ChoiceLine.pleaseChoose])
  else if ans = 50 then
    let fd_gpio := fd
    (fd_can, fd_gpio, [ChoiceLine.gpioChosen, ChoiceLine.pleaseChoose])
  else (fd_can, fd_gpio, [ChoiceLine.pleaseChoose])

end CanCtl

namespace CanCtl

/-! ## Basic facts about arrays and the transport -/

theorem frameOf_setb_two (s : Buf) (a b : Nat) :
    frameOf (setb (setb s 0 a) 1 b) 2 = [a % 256, b % 256] := by
  simp [frameOf, setb, List.range, List.range.loop]

theorem store_zeroed_lt (d : List Nat) (j : Nat) : store zeroed d j < 256 := by
  unfold store zeroed
  split
  · exact Nat.mod_lt _ (by norm_num)
  · norm_num

/-- Every byte of the response a command looks at is a byte. -/
theorem replyBuf_lt {σ : Type} (ch : Channel σ) (w : World σ) (frame : List Nat) (len j : Nat) :
    replyBuf ch w frame len j < 256 := by
  unfold replyBuf reply bufAfter canctl_read
  dsimp only
  split
  · simp [zeroed]
  · rcases h : sys_select ch (sys_write ch w frame).2
        (if (sys_write ch w frame).2.timeout_ms < 0 then none
          else some (0, int32 ((sys_write ch w frame).2.timeout_ms * 1000))) with ⟨o, w1⟩
    rcases o with _ | _ | b
    · simp [zeroed]
    · simp [zeroed]
    · cases b
      · simp [zeroed]
      · rcases h2 : sys_read ch w1 len with ⟨r, w2⟩
        cases r
        · simp [h2, zeroed]
        · simp only [h2, Option.getD_some]
          exact store_zeroed_lt _ _

theorem canctl_get_config_eq {σ : Type} (ch : Channel σ) (w : World σ) (stack : Buf) :
    canctl_get_config ch w stack =
      if (sys_write ch w [0xcc, 0]).1 ≠ 2 then (-1, (sys_write ch w [0xcc, 0]).2)
      else if (reply ch w [0xcc, 0] 64).1 < 0 then (-1, (reply ch w [0xcc, 0] 64).2.2)
      else if replyBuf ch w [0xcc, 0] 64 0 ≠ 0xcc then (-1, (reply ch w [0xcc, 0] 64).2.2)
      else ((replyBuf ch w [0xcc, 0] 64 1 : Int), (reply ch w [0xcc, 0] 64).2.2) := by
  simp only [canctl_get_config, canctl_write, frameOf_setb_two, reply, replyBuf,
    CANBUS_OUT_GET_CONFIG, CANBUS_IN_GET_CONFIG, CANBUS_MSG_SIZE]

theorem frameOf_setb_six (s : Buf) (a b c d e f : Nat) :
    frameOf (setb (setb (setb (setb (setb (setb s 0 a) 1 b) 2 c) 3 d) 4 e) 5 f) 6 =
      [a % 256, b % 256, c % 256, d % 256, e % 256, f % 256] := by
  simp [frameOf, setb, List.range, List.range.loop]

theorem frameOf_setb_ten (s : Buf) (a b v0 v1 v2 v3 v4 v5 v6 v7 : Nat) :
    frameOf (setb (setb (setb (setb (setb (setb (setb (setb (setb (setb s 0 a) 1 b)
      2 v0) 3 v1) 4 v2) 5 v3) 6 v4) 7 v5) 8 v6) 9 v7) 10 =
      [a % 256, b % 256, v0 % 256, v1 % 256, v2 % 256, v3 % 256, v4 % 256, v5 % 256,
        v6 % 256, v7 % 256] := by
  simp [frameOf, setb, List.range, List.range.loop]

/-- The three ways `canctl_read` on a non-NULL array can end: an error or a
timeout with the array untouched, or `d.length ≤ len` bytes `d` stored. -/
theorem canctl_read_cases {σ : Type} (ch : Channel σ) (w : World σ) (b : Buf) (len : Nat) :
    ((canctl_read ch w (some b) len).2.1 = some b ∧
        ((canctl_read ch w (some b) len).1 = -1 ∨ (canctl_read ch w (some b) len).1 = 0)) ∨
      ∃ d : List Nat, d.length ≤ len ∧ (canctl_read ch w (some b) len).1 = (d.length : Int) ∧
        (canctl_read ch w (some b) len).2.1 = some (store b d) := by
  unfold canctl_read
  dsimp only
  split
  · simp
  · split
    · simp
    · simp
    · split
      · simp
      · rename_i d w2 _
        right
        exact ⟨d.take len, by simp, rfl, rfl⟩
    · simp

/-- A `canctl_read` that returns 0 has stored nothing: the zeroed array is
still all zero. -/
theorem replyBuf_of_zero {σ : Type} (ch : Channel σ) (w : World σ) (frame : List Nat)
    (len : Nat) (h : (reply ch w frame len).1 = 0) (j : Nat) :
    replyBuf ch w frame len j = 0 := by
  unfold replyBuf bufAfter
  unfold reply at h ⊢
  rcases canctl_read_cases ch (sys_write ch w frame).2 zeroed len with ⟨hb, _⟩ | ⟨d, _, hrc, hb⟩
  · simp [hb, zeroed]
  · rw [hrc] at h
    simp only [Nat.cast_eq_zero, List.length_eq_zero] at h
    simp [hb, h, store, zeroed]

/-! ## Each command as one exchange: the frame written, then the response -/

theorem canctl_get_firmware_version_eq {σ : Type} (ch : Channel σ) (w : World σ) :
    canctl_get_firmware_version ch w =
      if (sys_write ch w [0xec, 0]).1 ≠ 2 then (none, (sys_write ch w [0xec, 0]).2)
      else if (reply ch w [0xec, 0] 64).1 < 0 then (none, (reply ch w [0xec, 0] 64).2.2)
      else if replyBuf ch w [0xec, 0] 64 0 ≠ 0xec then (none, (reply ch w [0xec, 0] 64).2.2)
      else (some [replyBuf ch w [0xec, 0] 64 1, replyBuf ch w [0xec, 0] 64 2,
              replyBuf ch w [0xec, 0] 64 3], (reply ch w [0xec, 0] 64).2.2) := by
  simp only [canctl_get_firmware_version, canctl_write, frameOf_setb_two, reply, replyBuf,
    CANBUS_OUT_FW_VERSION, CANBUS_IN_FW_VERSION, CANBUS_MSG_SIZE, CANBUS_FIRMWARE_SIZE]
  simp [frameOf, List.range, List.range.loop]

theorem canctl_set_config_eq_other {σ : Type} (ch : Channel σ) (w : World σ) (stack : Buf)
    (cfg : Int) (speed : Nat) (h : cfg ≠ CANBUS_CFG_CONFIGURATION) :
    canctl_set_config ch w stack cfg speed =
      if (sys_write ch w [0xcf, toByte cfg % 256]).1 ≠ 2 then
        (-1, (sys_write ch w [0xcf, toByte cfg % 256]).2)
      else if (reply ch w [0xcf, toByte cfg % 256] 64).1 < 0 then
        (-1, (reply ch w [0xcf, toByte cfg % 256] 64).2.2)
      else if replyBuf ch w [0xcf, toByte cfg % 256] 64 0 ≠ 0xcf then
        (-1, (reply ch w [0xcf, toByte cfg % 256] 64).2.2)
      else (0, (reply ch w [0xcf, toByte cfg % 256] 64).2.2) := by
  simp only [canctl_set_config, h, if_false, canctl_write, frameOf_setb_two, reply, replyBuf,
    CANBUS_OUT_SET_CONFIG, CANBUS_IN_SET_CONFIG, CANBUS_MSG_SIZE]
  simp

/-- The frame `canctl_set_config` builds in Configuration mode. -/
theorem canctl_set_config_eq_configuration {σ : Type} (ch : Channel σ) (w : World σ)
    (stack : Buf) (speed : Nat) (f : List Nat)
    (hf : f = [0xcf, 0x04, ((speed >>> 24) &&& 0xff) % 256, ((speed >>> 16) &&& 0xff) % 256,
      ((speed >>> 8) &&& 0xff) % 256, ((speed >>> 0) &&& 0xff) % 256]) :
    canctl_set_config ch w stack CANBUS_CFG_CONFIGURATION speed =
      if (sys_write ch w f).1 ≠ 6 then (-1, (sys_write ch w f).2)
      else if (reply ch w f 64).1 < 0 then (-1, (reply ch w f 64).2.2)
      else if replyBuf ch w f 64 0 ≠ 0xcf then (-1, (reply ch w f 64).2.2)
      else (0, (reply ch w f 64).2.2) := by
  subst hf
  simp only [canctl_set_config, if_true, canctl_write, frameOf_setb_six, reply, replyBuf,
    CANBUS_OUT_SET_CONFIG, CANBUS_IN_SET_CONFIG, CANBUS_MSG_SIZE]
  simp [toByte, CANBUS_CFG_CONFIGURATION]

theorem canctl_set_led_eq {σ : Type} (ch : Channel σ) (w : World σ) (stack : Buf)
    (mode : Int) (rpt : Nat)
    (h : (mode = CANBUS_LED_OFF ∧ rpt = 0xdd) ∨ (mode = CANBUS_LED_ON ∧ rpt = 0xde) ∨
      (mode = CANBUS_LED_NORMAL ∧ rpt = 0xdf)) :
    canctl_set_led ch w stack mode =
      if (sys_write ch w [rpt, 0]).1 ≠ 2 then (-1, (sys_write ch w [rpt, 0]).2)
      else if (reply ch w [rpt, 0] 64).1 < 0 then (-1, (reply ch w [rpt, 0] 64).2.2)
      else if replyBuf ch w [rpt, 0] 64 0 ≠ rpt then (-1, (reply ch w [rpt, 0] 64).2.2)
      else (0, (reply ch w [rpt, 0] 64).2.2) := by
  rcases h with ⟨hm, hr⟩ | ⟨hm, hr⟩ | ⟨hm, hr⟩ <;> subst hm <;> subst hr <;>
    simp [canctl_set_led, canctl_write, frameOf_setb_two, reply, replyBuf,
      CANBUS_LED_OFF, CANBUS_LED_ON, CANBUS_LED_NORMAL, CANBUS_OUT_LED_OFF,
      CANBUS_OUT_LED_ON, CANBUS_OUT_LED_NORMAL, CANBUS_MSG_SIZE]

theorem canctl_get_error_state_eq {σ : Type} (ch : Channel σ) (w : World σ) (stack : Buf) :
    canctl_get_error_state ch w stack =
      if (sys_write ch w [0xce, 0]).1 ≠ 2 then (none, (sys_write ch w [0xce, 0]).2)
      else if (reply ch w [0xce, 0] 64).1 < 0 then (none, (reply ch w [0xce, 0] 64).2.2)
      else if replyBuf ch w [0xce, 0] 64 0 ≠ 0xce then (none, (reply ch w [0xce, 0] 64).2.2)
      else (some [replyBuf ch w [0xce, 0] 64 1, replyBuf ch w [0xce, 0] 64 2,
              replyBuf ch w [0xce, 0] 64 3], (reply ch w [0xce, 0] 64).2.2) := by
  simp only [canctl_get_error_state, canctl_write, frameOf_setb_two, reply, replyBuf,
    CANBUS_OUT_ERROR_STATUS, CANBUS_IN_ERROR_STATUS, CANBUS_MSG_SIZE, CANBUS_ERROR_STATE_SIZE]
  simp [frameOf, List.range, List.range.loop]

/-- The report identifier of the GPIO pin commands: 0xB0 for `PIN_TYPE`, else 0xB1. -/
theorem gpio_set_pin_eq {σ : Type} (ch : Channel σ) (w : World σ) (stack : Buf)
    (op_type : Int) (v : Buf) (id : Nat) (f : List Nat)
    (hid : id = if op_type = PIN_TYPE then 0xb0 else 0xb1)
    (hf : f = [id, 0x02, v 0 % 256, v 1 % 256, v 2 % 256, v 3 % 256, v 4 % 256, v 5 % 256,
      v 6 % 256, v 7 % 256]) :
    gpio_set_pin ch w stack op_type v =
      if (sys_write ch w f).1 ≠ 10 then (-1, (sys_write ch w f).2)
      else if (reply ch w f 10).1 < 0 then (-1, (reply ch w f 10).2.2)
      else if replyBuf ch w f 10 0 ≠ id then (-1, (reply ch w f 10).2.2)
      else if replyBuf ch w f 10 1 ≠ 0x00 then (-1, (reply ch w f 10).2.2)
      else (0, (reply ch w f 10).2.2) := by
  subst hf
  subst hid
  by_cases h : op_type = PIN_TYPE <;>
    simp [gpio_set_pin, h, canctl_write, frameOf_setb_ten, reply, replyBuf,
      GPIO_OUT_SET_PIN_TYPE, GPIO_OUT_SET_PIN_DATA, GPIO_SET_PIN_TYPE_CMD, GPIO_SET_PIN_DATA_CMD,
      GPIO_IN_SET_PIN_TYPE, GPIO_IN_SET_PIN_DATA, GPIO_SET_PIN_TYPE_RESPONSE,
      GPIO_SET_PIN_DATA_RESPONSE, GPIO_PIN_COUNT]

theorem gpio_read_pin_eq {σ : Type} (ch : Channel σ) (w : World σ) (stack : Buf)
    (op_type : Int) (pins : Buf) (id : Nat)
    (hid : id = if op_type = PIN_TYPE then 0xb0 else 0xb1) :
    gpio_read_pin ch w stack op_type pins =
      if (sys_write ch w [id, 0x01]).1 ≠ 2 then (-1, pins, (sys_write ch w [id, 0x01]).2)
      else if (reply ch w [id, 0x01] 10).1 < 0 then (-1, pins, (reply ch w [id, 0x01] 10).2.2)
      else if replyBuf ch w [id, 0x01] 10 0 ≠ id then
        (-1, pins, (reply ch w [id, 0x01] 10).2.2)
      else if replyBuf ch w [id, 0x01] 10 1 ≠ 0x01 then
        (-1, pins, (reply ch w [id, 0x01] 10).2.2)
      else
        (0, setb (setb (setb (setb (setb (setb (setb (setb pins
            0 (replyBuf ch w [id, 0x01] 10 2)) 1 (replyBuf ch w [id, 0x01] 10 3))
            2 (replyBuf ch w [id, 0x01] 10 4)) 3 (replyBuf ch w [id, 0x01] 10 5))
            4 (replyBuf ch w [id, 0x01] 10 6)) 5 (replyBuf ch w [id, 0x01] 10 7))
            6 (replyBuf ch w [id, 0x01] 10 8)) 7 (replyBuf ch w [id, 0x01] 10 9),
          (reply ch w [id, 0x01] 10).2.2) := by
  subst hid
  by_cases h : op_type = PIN_TYPE <;>
    simp [gpio_read_pin, h, canctl_write, frameOf_setb_two, reply, replyBuf,
      GPIO_OUT_READ_PIN_TYPE, GPIO_OUT_READ_PIN_DATA, GPIO_READ_PIN_TYPE_CMD,
      GPIO_READ_PIN_DATA_CMD, GPIO_IN_READ_PIN_TYPE, GPIO_IN_READ_PIN_DATA,
      GPIO_READ_PIN_TYPE_RESPONSE, GPIO_PIN_COUNT]

theorem gpio_get_iom_or_sku_eq {σ : Type} (ch : Channel σ) (w : World σ) (stack : Buf)
    (op_select : Int) (out : Buf) (id : Nat)
    (hid : id = if op_select = GET_IOM then 0xb3 else 0xb2) :
    gpio_get_iom_or_sku ch w stack op_select out =
      if (sys_write ch w [id, 0]).1 ≠ 2 then (-1, out, (sys_write ch w [id, 0]).2)
      else if (reply ch w [id, 0] 64).1 < 0 then (-1, out, (reply ch w [id, 0] 64).2.2)
      else if replyBuf ch w [id, 0] 64 0 ≠ id then (-1, out, (reply ch w [id, 0] 64).2.2)
      else (0, setb out 0 (replyBuf ch w [id, 0] 64 1), (reply ch w [id, 0] 64).2.2) := by
  subst hid
  by_cases h : op_select = GET_IOM <;>
    simp [gpio_get_iom_or_sku, h, canctl_write, frameOf_setb_two, reply, replyBuf,
      GPIO_OUT_GET_IOM_SKU, GPIO_IN_GET_BOARD_ID, GPIO_IN_GET_IOM_SKU, CANBUS_MSG_SIZE]

/-! ## Claims about `canctl_get_config` -/

/-- C1 (as amended): `canctl_get_config` decoding is total but not closed.  When
the write is accepted, the read does not fail and response byte 0 is 0xCC, the
value returned is the raw response byte 1 itself, a value in 0..255 and never
the error value -1; it is one of the nine enumerators exactly when that byte is
at most 8, so a byte in 9..255 is returned as it is and not as
`CANBUS_CFG_UNKNOWN`. -/
theorem get_config_returns_raw_byte {σ : Type} (ch : Channel σ) (w : World σ) (stack : Buf)
    (hw : (sys_write ch w [0xcc, 0]).1 = 2)
    (hr : 0 ≤ (reply ch w [0xcc, 0] 64).1)
    (h0 : replyBuf ch w [0xcc, 0] 64 0 = 0xcc) :
    (canctl_get_config ch w stack).1 = (replyBuf ch w [0xcc, 0] 64 1 : Int) ∧
      replyBuf ch w [0xcc, 0] 64 1 < 256 ∧
      (canctl_get_config ch w stack).1 ≠ CANBUS_CFG_ERROR ∧
      ((canctl_get_config ch w stack).1 ∈ cfgEnumerators ↔ replyBuf ch w [0xcc, 0] 64 1 ≤ 8) ∧
      ((canctl_get_config ch w stack).1 = CANBUS_CFG_UNKNOWN ↔
        replyBuf ch w [0xcc, 0] 64 1 = 8) := by
  have hres : (canctl_get_config ch w stack).1 = (replyBuf ch w [0xcc, 0] 64 1 : Int) := by
    rw [canctl_get_config_eq]
    simp [hw, h0, not_lt.mpr hr]
  have hlt := replyBuf_lt ch w [0xcc, 0] 64 1
  refine ⟨hres, hlt, ?_, ?_, ?_⟩
  · rw [hres, CANBUS_CFG_ERROR]; omega
  · rw [hres]
    simp only [cfgEnumerators, CANBUS_CFG_NORMAL, CANBUS_CFG_DISABLE, CANBUS_CFG_LOOPBACK,
      CANBUS_CFG_LISTEN_ONLY, CANBUS_CFG_CONFIGURATION, CANBUS_CFG_RESERVED_1,
      CANBUS_CFG_RESERVED_2, CANBUS_CFG_LISTEN_ALL_MESSAGE, CANBUS_CFG_UNKNOWN,
      List.mem_cons, List.mem_singleton, List.not_mem_nil, or_false]
    omega
  · rw [hres, CANBUS_CFG_UNKNOWN]; omega

/-- The amended C1 at the response `[0xCC, 200]`: the value returned is 200. -/
theorem get_config_returns_raw_byte_witness :
    (canctl_get_config scripted (World.init [[0xcc, 200]]) zeroed).1 = 200 :=
  (get_config_returns_raw_byte scripted (World.init [[0xcc, 200]]) zeroed
    (by decide) (by decide) (by decide)).1

/-- C1 fails as stated: on the response `[0xCC, 200]` (byte 0 is 0xCC, byte 1 is
200) `canctl_get_config` returns 200, which is none of the nine enumerators and
is not `CANBUS_CFG_UNKNOWN`. -/
theorem get_config_not_closed :
    replyBuf scripted (World.init [[0xcc, 200]]) [0xcc, 0] 64 0 = 0xcc ∧
      replyBuf scripted (World.init [[0xcc, 200]]) [0xcc, 0] 64 1 = 200 ∧
      (canctl_get_config scripted (World.init [[0xcc, 200]]) zeroed).1 = 200 ∧
      (canctl_get_config scripted (World.init [[0xcc, 200]]) zeroed).1 ∉ cfgEnumerators ∧
      (canctl_get_config scripted (World.init [[0xcc, 200]]) zeroed).1 ≠ CANBUS_CFG_UNKNOWN := by
  decide

/-- C2: whenever byte 0 of the response differs from 0xCC, `canctl_get_config`
returns -1, whatever the other bytes of the response are (and whatever the
write and the read returned). -/
theorem get_config_rejects_other_report {σ : Type} (ch : Channel σ) (w : World σ)
    (stack : Buf) (h0 : replyBuf ch w [0xcc, 0] 64 0 ≠ 0xcc) :
    (canctl_get_config ch w stack).1 = -1 := by
  rw [canctl_get_config_eq]
  split
  · rfl
  · split
    · rfl
    · simp [h0]

/-- C2 at the response `[0x00, 0x02]`: the result is -1 although byte 1 is a
valid mode. -/
theorem get_config_rejects_other_report_witness :
    replyBuf scripted (World.init [[0x00, 0x02]]) [0xcc, 0] 64 1 = 2 ∧
      (canctl_get_config scripted (World.init [[0x00, 0x02]]) zeroed).1 = -1 :=
  ⟨by decide,
    get_config_rejects_other_report scripted (World.init [[0x00, 0x02]]) zeroed (by decide)⟩

/-! ## A silent channel fails every command -/

/-- C3: a single read timeout fails the whole command.  For each of the eight
commands: when the write of the command's frame is accepted whole and the
`canctl_read` that follows returns 0 (nothing is stored, so the zeroed array
stays zero), the command returns its error value, NULL (`none`) or -1. -/
theorem silent_read_fails_command {σ : Type} (ch : Channel σ) (w : World σ) (stack : Buf) :
    (Silent ch w [0xec, 0] 64 → (canctl_get_firmware_version ch w).1 = none) ∧
    (Silent ch w [0xcc, 0] 64 → (canctl_get_config ch w stack).1 = -1) ∧
    (∀ (cfg : Int) (speed : Nat), cfg ≠ CANBUS_CFG_CONFIGURATION →
      Silent ch w [0xcf, toByte cfg] 64 → (canctl_set_config ch w stack cfg speed).1 = -1) ∧
    (∀ speed : Nat,
      Silent ch w [0xcf, 0x04, (speed >>> 24) &&& 0xff, (speed >>> 16) &&& 0xff,
        (speed >>> 8) &&& 0xff, (speed >>> 0) &&& 0xff] 64 →
      (canctl_set_config ch w stack CANBUS_CFG_CONFIGURATION speed).1 = -1) ∧
    (Silent ch w [0xdd, 0] 64 → (canctl_set_led ch w stack CANBUS_LED_OFF).1 = -1) ∧
    (Silent ch w [0xde, 0] 64 → (canctl_set_led ch w stack CANBUS_LED_ON).1 = -1) ∧
    (Silent ch w [0xdf, 0] 64 → (canctl_set_led ch w stack CANBUS_LED_NORMAL).1 = -1) ∧
    (Silent ch w [0xce, 0] 64 → (canctl_get_error_state ch w stack).1 = none) ∧
    (∀ (op_type : Int) (v : Buf),
      Silent ch w [if op_type = PIN_TYPE then 0xb0 else 0xb1, 0x02, v 0 % 256, v 1 % 256,
        v 2 % 256, v 3 % 256, v 4 % 256, v 5 % 256, v 6 % 256, v 7 % 256] 10 →
      (gpio_set_pin ch w stack op_type v).1 = -1) ∧
    (∀ (op_type : Int) (pins : Buf),
      Silent ch w [if op_type = PIN_TYPE then 0xb0 else 0xb1, 0x01] 10 →
      (gpio_read_pin ch w stack op_type pins).1 = -1) ∧
    (∀ (op_select : Int) (out : Buf),
      Silent ch w [if op_select = GET_IOM then 0xb3 else 0xb2, 0] 64 →
      (gpio_get_iom_or_sku ch w stack op_select out).1 = -1) := by
  have key : ∀ (f : List Nat) (len : Nat), Silent ch w f len → replyBuf ch w f len 0 = 0 :=
    fun f len h => replyBuf_of_zero ch w f len h.2 0
  refine ⟨?_, ?_, ?_, ?_, ?_, ?_, ?_, ?_, ?_, ?_, ?_⟩
  · intro h
    have h0 := key _ _ h
    rw [canctl_get_firmware_version_eq]
    split_ifs <;> simp_all
  · intro h
    have h0 := key _ _ h
    rw [canctl_get_config_eq]
    split_ifs <;> simp_all
  · intro cfg speed hc h
    have h0 := key _ _ h
    have hb : toByte cfg % 256 = toByte cfg := by
      unfold toByte; omega
    rw [canctl_set_config_eq_other ch w stack cfg speed hc, hb]
    split_ifs <;> simp_all
  · intro speed h
    have h0 := key _ _ h
    have e : ∀ n : Nat, (n &&& 0xff) % 256 = n &&& 0xff := fun n =>
      Nat.mod_eq_of_lt (lt_of_le_of_lt Nat.and_le_right (by norm_num))
    rw [canctl_set_config_eq_configuration ch w stack speed _ rfl]
    simp only [e]
    split_ifs <;> simp_all
  · intro h
    have h0 := key _ _ h
    rw [canctl_set_led_eq ch w stack _ 0xdd (Or.inl ⟨rfl, rfl⟩)]
    split_ifs <;> simp_all
  · intro h
    have h0 := key _ _ h
    rw [canctl_set_led_eq ch w stack _ 0xde (Or.inr (Or.inl ⟨rfl, rfl⟩))]
    split_ifs <;> simp_all
  · intro h
    have h0 := key _ _ h
    rw [canctl_set_led_eq ch w stack _ 0xdf (Or.inr (Or.inr ⟨rfl, rfl⟩))]
    split_ifs <;> simp_all
  · intro h
    have h0 := key _ _ h
    rw [canctl_get_error_state_eq]
    split_ifs <;> simp_all
  · intro op_type v h
    have h0 := key _ _ h
    rw [gpio_set_pin_eq ch w stack op_type v _ _ rfl rfl]
    by_cases hp : op_type = PIN_TYPE <;> simp only [hp, if_true, if_false] at h0 ⊢ <;>
      split_ifs <;> simp_all
  · intro op_type pins h
    have h0 := key _ _ h
    rw [gpio_read_pin_eq ch w stack op_type pins _ rfl]
    by_cases hp : op_type = PIN_TYPE <;> simp only [hp, if_true, if_false] at h0 ⊢ <;>
      split_ifs <;> simp_all
  · intro op_select out h
    have h0 := key _ _ h
    rw [gpio_get_iom_or_sku_eq ch w stack op_select out _ rfl]
    by_cases hp : op_select = GET_IOM <;> simp only [hp, if_true, if_false] at h0 ⊢ <;>
      split_ifs <;> simp_all

/-- C3 on the scripted device with nothing queued (every wait times out). -/
theorem silent_read_fails_command_witness :
    (canctl_get_firmware_version scripted (World.init [])).1 = none ∧
    (canctl_get_config scripted (World.init []) zeroed).1 = -1 ∧
    (canctl_set_config scripted (World.init []) zeroed CANBUS_CFG_LOOPBACK 1000000).1 = -1 ∧
    (canctl_set_config scripted (World.init []) zeroed CANBUS_CFG_CONFIGURATION 1000000).1 = -1 ∧
    (canctl_set_led scripted (World.init []) zeroed CANBUS_LED_OFF).1 = -1 ∧
    (canctl_set_led scripted (World.init []) zeroed CANBUS_LED_ON).1 = -1 ∧
    (canctl_set_led scripted (World.init []) zeroed CANBUS_LED_NORMAL).1 = -1 ∧
    (canctl_get_error_state scripted (World.init []) zeroed).1 = none ∧
    (gpio_set_pin scripted (World.init []) zeroed PIN_TYPE zeroed).1 = -1 ∧
    (gpio_read_pin scripted (World.init []) zeroed PIN_DATA zeroed).1 = -1 ∧
    (gpio_get_iom_or_sku scripted (World.init []) zeroed GET_IOM zeroed).1 = -1 :=
  have t := silent_read_fails_command scripted (World.init []) zeroed
  ⟨t.1 (by unfold Silent; decide),
   t.2.1 (by unfold Silent; decide),
   t.2.2.1 CANBUS_CFG_LOOPBACK 1000000 (by decide) (by unfold Silent; decide),
   t.2.2.2.1 1000000 (by unfold Silent; decide),
   t.2.2.2.2.1 (by unfold Silent; decide),
   t.2.2.2.2.2.1 (by unfold Silent; decide),
   t.2.2.2.2.2.2.1 (by unfold Silent; decide),
   t.2.2.2.2.2.2.2.1 (by unfold Silent; decide),
   t.2.2.2.2.2.2.2.2.1 PIN_TYPE zeroed (by unfold Silent; decide),
   t.2.2.2.2.2.2.2.2.2.1 PIN_DATA zeroed (by unfold Silent; decide),
   t.2.2.2.2.2.2.2.2.2.2 GET_IOM zeroed (by unfold Silent; decide)⟩

/-! ## The frames a command writes -/

theorem framesWritten_sys_write {σ : Type} (ch : Channel σ) (w : World σ) (f : List Nat) :
    framesWritten (sys_write ch w f).2 = framesWritten w ++ [f] := by
  simp [framesWritten, sys_write, List.filterMap_append]

theorem framesWritten_canctl_read {σ : Type} (ch : Channel σ) (w : World σ) (b : Option Buf)
    (len : Nat) : framesWritten (canctl_read ch w b len).2.2 = framesWritten w := by
  unfold canctl_read
  dsimp only
  split
  · rfl
  · split
    · rfl
    · have hsel : ∀ tv, framesWritten (sys_select ch w tv).2 = framesWritten w := by
        intro tv
        simp [framesWritten, sys_select, List.filterMap_append]
      have hrd : ∀ w1 : World σ, framesWritten (sys_read ch w1 len).2 = framesWritten w1 := by
        intro w1
        simp [framesWritten, sys_read, List.filterMap_append]
      split
      · rename_i w1 hs
        rw [← hsel, hs]
      · rename_i w1 hs
        rw [← hsel, hs]
      · rename_i w1 hs
        split
        · rename_i w2 h2
          have := hrd w1
          rw [h2] at this
          rw [← hsel, hs]
          exact this
        · rename_i d w2 h2
          have := hrd w1
          rw [h2] at this
          rw [← hsel, hs]
          exact this
      · rename_i w1 hs
        rw [← hsel, hs]

theorem framesWritten_reply {σ : Type} (ch : Channel σ) (w : World σ) (f : List Nat)
    (len : Nat) : framesWritten (reply ch w f len).2.2 = framesWritten w ++ [f] := by
  unfold reply
  rw [framesWritten_canctl_read, framesWritten_sys_write]

theorem shiftRight_and_255 (n k : Nat) : (n >>> k) &&& 0xff = n / 2 ^ k % 256 := by
  rw [Nat.shiftRight_eq_div_pow]
  exact Nat.and_pow_two_sub_one_eq_mod (n / 2 ^ k) 8

theorem toByte_of_byte (cfg : Int) (h0 : 0 ≤ cfg) (h1 : cfg ≤ 255) : toByte cfg = cfg.toNat := by
  unfold toByte
  omega

/-- What `canctl_set_config` writes and returns in a mode other than
Configuration, whatever the speed. -/
theorem set_config_other {σ : Type} (ch : Channel σ) (w : World σ) (stack : Buf)
    (cfg : Int) (speed : Nat) (h : cfg ≠ CANBUS_CFG_CONFIGURATION) :
    framesWritten (canctl_set_config ch w stack cfg speed).2 =
      framesWritten w ++ [[0xcf, toByte cfg]] := by
  have hb : toByte cfg % 256 = toByte cfg := by
    unfold toByte; omega
  rw [canctl_set_config_eq_other ch w stack cfg speed h, hb]
  split_ifs <;> simp [framesWritten_sys_write, framesWritten_reply]

/-- What `canctl_set_config` writes and returns in Configuration mode. -/
theorem set_config_configuration {σ : Type} (ch : Channel σ) (w : World σ) (stack : Buf)
    (speed : Nat) (f : List Nat)
    (hf : f = [0xcf, 0x04, speed / 2 ^ 24 % 256, speed / 2 ^ 16 % 256, speed / 2 ^ 8 % 256,
      speed % 256]) :
    framesWritten (canctl_set_config ch w stack CANBUS_CFG_CONFIGURATION speed).2 =
        framesWritten w ++ [f] ∧
      ((canctl_set_config ch w stack CANBUS_CFG_CONFIGURATION speed).1 = 0 ↔
        (sys_write ch w f).1 = 6 ∧ 0 ≤ (reply ch w f 64).1 ∧ replyBuf ch w f 64 0 = 0xcf) ∧
      ((canctl_set_config ch w stack CANBUS_CFG_CONFIGURATION speed).1 = 0 ∨
        (canctl_set_config ch w stack CANBUS_CFG_CONFIGURATION speed).1 = -1) := by
  have hf2 : f = [0xcf, 0x04, ((speed >>> 24) &&& 0xff) % 256, ((speed >>> 16) &&& 0xff) % 256,
      ((speed >>> 8) &&& 0xff) % 256, ((speed >>> 0) &&& 0xff) % 256] := by
    rw [hf]
    simp only [shiftRight_and_255, Nat.mod_mod, pow_zero, Nat.div_one]
  rw [canctl_set_config_eq_configuration ch w stack speed f hf2]
  split_ifs with h1 h2 h3 <;>
    simp_all [framesWritten_sys_write, framesWritten_reply]

/-! ## Claims about `canctl_set_config` -/

/-- C4: the frame `canctl_set_config` writes.  For a mode `cfg` in 0..255 other
than Configuration it writes exactly the one 2-byte frame `[0xCF, cfg]`; for
Configuration and a 32-bit `speed` it writes exactly the one 6-byte frame
`[0xCF, 0x04, s3, s2, s1, s0]` whose bytes `s3..s0` are the big-endian digits of
`speed`: `s3*2^24 + s2*2^16 + s1*2^8 + s0 = speed`. -/
theorem set_config_frame_encoding {σ : Type} (ch : Channel σ) (w : World σ) (stack : Buf)
    (cfg : Int) (speed : Nat) (hc0 : 0 ≤ cfg) (hc1 : cfg ≤ 255) (hs : speed < 4294967296) :
    (cfg ≠ CANBUS_CFG_CONFIGURATION →
      framesWritten (canctl_set_config ch w stack cfg speed).2 =
        framesWritten w ++ [[0xcf, cfg.toNat]]) ∧
    (cfg = CANBUS_CFG_CONFIGURATION →
      ∃ s3 s2 s1 s0 : Nat, s3 < 256 ∧ s2 < 256 ∧ s1 < 256 ∧ s0 < 256 ∧
        s3 * 2 ^ 24 + s2 * 2 ^ 16 + s1 * 2 ^ 8 + s0 = speed ∧
        framesWritten (canctl_set_config ch w stack cfg speed).2 =
          framesWritten w ++ [[0xcf, 0x04, s3, s2, s1, s0]]) := by
  constructor
  · intro h
    rw [set_config_other ch w stack cfg speed h, toByte_of_byte cfg hc0 hc1]
  · intro h
    subst h
    refine ⟨speed / 2 ^ 24 % 256, speed / 2 ^ 16 % 256, speed / 2 ^ 8 % 256, speed % 256,
      Nat.mod_lt _ (by norm_num), Nat.mod_lt _ (by norm_num), Nat.mod_lt _ (by norm_num),
      Nat.mod_lt _ (by norm_num), ?_, (set_config_configuration ch w stack speed _ rfl).1⟩
    norm_num
    omega

/-- C4 at Loopback mode and at Configuration mode with speed 1000000 =
0x000F4240, on the scripted device. -/
theorem set_config_frame_encoding_witness :
    framesWritten (canctl_set_config scripted (World.init [[0xcf]]) zeroed
        CANBUS_CFG_LOOPBACK 1000000).2 = [[0xcf, 0x02]] ∧
      framesWritten (canctl_set_config scripted (World.init [[0xcf]]) zeroed
        CANBUS_CFG_CONFIGURATION 1000000).2 = [[0xcf, 0x04, 0x00, 0x0f, 0x42, 0x40]] :=
  ⟨(set_config_frame_encoding scripted (World.init [[0xcf]]) zeroed CANBUS_CFG_LOOPBACK 1000000
      (by decide) (by decide) (by decide)).1 (by decide),
    by decide⟩

/-- C5: outside Configuration mode the speed is not used.  For every mode other
than `CANBUS_CFG_CONFIGURATION`, every two speeds and the same channel and
state, `canctl_set_config` returns the same value, writes the same frames and
ends in the same state. -/
theorem set_config_speed_ignored {σ : Type} (ch : Channel σ) (w : World σ) (stack : Buf)
    (cfg : Int) (s1 s2 : Nat) (h : cfg ≠ CANBUS_CFG_CONFIGURATION) :
    (canctl_set_config ch w stack cfg s1).1 = (canctl_set_config ch w stack cfg s2).1 ∧
      framesWritten (canctl_set_config ch w stack cfg s1).2 =
        framesWritten (canctl_set_config ch w stack cfg s2).2 ∧
      canctl_set_config ch w stack cfg s1 = canctl_set_config ch w stack cfg s2 := by
  have e : canctl_set_config ch w stack cfg s1 = canctl_set_config ch w stack cfg s2 := by
    rw [canctl_set_config_eq_other ch w stack cfg s1 h,
      canctl_set_config_eq_other ch w stack cfg s2 h]
  exact ⟨by rw [e], by rw [e], e⟩

/-- C5 at Loopback mode with the speeds 136000 and 1000000. -/
theorem set_config_speed_ignored_witness :
    (canctl_set_config scripted (World.init [[0xcf]]) zeroed CANBUS_CFG_LOOPBACK 136000).1 =
        (canctl_set_config scripted (World.init [[0xcf]]) zeroed CANBUS_CFG_LOOPBACK 1000000).1 ∧
      framesWritten
          (canctl_set_config scripted (World.init [[0xcf]]) zeroed CANBUS_CFG_LOOPBACK 136000).2 =
        framesWritten
          (canctl_set_config scripted (World.init [[0xcf]]) zeroed CANBUS_CFG_LOOPBACK 1000000).2 :=
  ⟨(set_config_speed_ignored scripted (World.init [[0xcf]]) zeroed CANBUS_CFG_LOOPBACK
      136000 1000000 (by decide)).1,
    (set_config_speed_ignored scripted (World.init [[0xcf]]) zeroed CANBUS_CFG_LOOPBACK
      136000 1000000 (by decide)).2.1⟩

/-- C6 fails as stated: Configuration mode with speed 135999 is not rejected.
On a device that answers with an 0xCF report, `canctl_set_config` transmits the
frame `CF 04 00 02 13 3F` (0x0002133F = 135999) and returns 0, just as it does
for 136000 with the frame `CF 04 00 02 13 40`. -/
theorem set_config_accepts_135999 :
    framesWritten (canctl_set_config scripted (World.init [[0xcf]]) zeroed
        CANBUS_CFG_CONFIGURATION 135999).2 = [[0xcf, 0x04, 0x00, 0x02, 0x13, 0x3f]] ∧
      (canctl_set_config scripted (World.init [[0xcf]]) zeroed
        CANBUS_CFG_CONFIGURATION 135999).1 = 0 ∧
      framesWritten (canctl_set_config scripted (World.init [[0xcf]]) zeroed
        CANBUS_CFG_CONFIGURATION 136000).2 = [[0xcf, 0x04, 0x00, 0x02, 0x13, 0x40]] ∧
      (canctl_set_config scripted (World.init [[0xcf]]) zeroed
        CANBUS_CFG_CONFIGURATION 136000).1 = 0 := by
  decide

/-- C6 (as amended): `canctl_set_config` has no range check on the speed.  In
Configuration mode, for every speed (135999 as well as 136000), it writes the
6-byte frame that carries the speed, and it returns 0 exactly when that write
accepted 6 bytes, the read did not fail and response byte 0 is 0xCF; otherwise
it returns -1.  No value of the speed is rejected before transmission. -/
theorem set_config_transmits_any_speed {σ : Type} (ch : Channel σ) (w : World σ)
    (stack : Buf) (speed : Nat) :
    framesWritten (canctl_set_config ch w stack CANBUS_CFG_CONFIGURATION speed).2 =
        framesWritten w ++ [[0xcf, 0x04, speed / 2 ^ 24 % 256, speed / 2 ^ 16 % 256,
          speed / 2 ^ 8 % 256, speed % 256]] ∧
      ((canctl_set_config ch w stack CANBUS_CFG_CONFIGURATION speed).1 = 0 ↔
        (sys_write ch w [0xcf, 0x04, speed / 2 ^ 24 % 256, speed / 2 ^ 16 % 256,
          speed / 2 ^ 8 % 256, speed % 256]).1 = 6 ∧
        0 ≤ (reply ch w [0xcf, 0x04, speed / 2 ^ 24 % 256, speed / 2 ^ 16 % 256,
          speed / 2 ^ 8 % 256, speed % 256] 64).1 ∧
        replyBuf ch w [0xcf, 0x04, speed / 2 ^ 24 % 256, speed / 2 ^ 16 % 256,
          speed / 2 ^ 8 % 256, speed % 256] 64 0 = 0xcf) ∧
      ((canctl_set_config ch w stack CANBUS_CFG_CONFIGURATION speed).1 = 0 ∨
        (canctl_set_config ch w stack CANBUS_CFG_CONFIGURATION speed).1 = -1) :=
  set_config_configuration ch w stack speed _ rfl

/-! ## Round trips over the faithful fixtures -/

/-- On the faithful CAN fixture `canctl_set_config` succeeds and leaves the
byte it sent as the mode stored in the fixture. -/
theorem canFixture_set_config (w : World CanFixture) (stack : Buf) (cfg : Int) (speed : Nat) :
    (canctl_set_config canFixture w stack cfg speed).1 = 0 ∧
      (canctl_set_config canFixture w stack cfg speed).2.dev.mode = toByte cfg := by
  have hb : toByte cfg % 256 = toByte cfg := by
    unfold toByte; omega
  by_cases h : cfg = CANBUS_CFG_CONFIGURATION
  · subst h
    rw [canctl_set_config_eq_configuration canFixture w stack speed _ rfl]
    simp [reply, replyBuf, bufAfter, canctl_read, sys_select, sys_read, sys_write, canFixture,
      store, zeroed, toByte, CANBUS_MSG_SIZE, CANBUS_CFG_CONFIGURATION]
  · rw [canctl_set_config_eq_other canFixture w stack cfg speed h, hb]
    simp [reply, replyBuf, bufAfter, canctl_read, sys_select, sys_read, sys_write, canFixture,
      store, zeroed, CANBUS_MSG_SIZE]

/-- On the faithful CAN fixture `canctl_get_config` returns the stored mode
(as the byte it travels in). -/
theorem canFixture_get_config (w : World CanFixture) (stack : Buf) :
    (canctl_get_config canFixture w stack).1 = ((w.dev.mode % 256 : Nat) : Int) := by
  rw [canctl_get_config_eq]
  simp [reply, replyBuf, bufAfter, canctl_read, sys_select, sys_read, sys_write, canFixture,
    store, zeroed, CANBUS_MSG_SIZE]

/-- C7: set/get round trip of the bus mode over the faithful CAN fixture.  For
every valid mode and every speed (those in 136000..1000000 in particular), from
any state of the fixture, `canctl_set_config` returns 0 and the
`canctl_get_config` that follows returns that mode. -/
theorem set_then_get_config_round_trip (w : World CanFixture) (stack1 stack2 : Buf)
    (cfg : Int) (speed : Nat) (hv : validMode cfg) :
    (canctl_set_config canFixture w stack1 cfg speed).1 = 0 ∧
      (canctl_get_config canFixture
        (canctl_set_config canFixture w stack1 cfg speed).2 stack2).1 = cfg := by
  have hs := canFixture_set_config w stack1 cfg speed
  refine ⟨hs.1, ?_⟩
  rw [canFixture_get_config, hs.2]
  unfold toByte
  rcases hv with h | h | h | h | h | h <;> subst h <;> decide

/-- C7 at Listen All Messages and speed 136000, from the fixture in Normal mode
with nothing pending. -/
theorem set_then_get_config_round_trip_witness :
    (canctl_set_config canFixture (World.init { mode := 0, pending := none }) zeroed
        CANBUS_CFG_LISTEN_ALL_MESSAGE 136000).1 = 0 ∧
      (canctl_get_config canFixture
        (canctl_set_config canFixture (World.init { mode := 0, pending := none }) zeroed
          CANBUS_CFG_LISTEN_ALL_MESSAGE 136000).2 zeroed).1 = CANBUS_CFG_LISTEN_ALL_MESSAGE :=
  set_then_get_config_round_trip (World.init { mode := 0, pending := none }) zeroed zeroed
    CANBUS_CFG_LISTEN_ALL_MESSAGE 136000 (by unfold validMode; decide)

/-- On the faithful GPIO fixture `gpio_set_pin` succeeds and leaves the 8 bytes
it sent stored for the kind it addressed. -/
theorem gpioFixture_set_pin (w : World GpioFixture) (stack : Buf) (op_type : Int) (v : Buf) :
    (gpio_set_pin gpioFixture w stack op_type v).1 = 0 ∧
      (if op_type = PIN_TYPE then (gpio_set_pin gpioFixture w stack op_type v).2.dev.types
        else (gpio_set_pin gpioFixture w stack op_type v).2.dev.datas) =
        [v 0 % 256, v 1 % 256, v 2 % 256, v 3 % 256, v 4 % 256, v 5 % 256, v 6 % 256,
          v 7 % 256] := by
  rw [gpio_set_pin_eq gpioFixture w stack op_type v _ _ rfl rfl]
  by_cases h : op_type = PIN_TYPE <;>
    simp [h, reply, replyBuf, bufAfter, canctl_read, sys_select, sys_read, sys_write,
      gpioFixture, store, zeroed, CANBUS_MSG_SIZE]

/-- On the faithful GPIO fixture `gpio_read_pin` succeeds and hands out the 8
bytes stored for the kind it addressed. -/
theorem gpioFixture_read_pin (w : World GpioFixture) (stack : Buf) (op_type : Int)
    (pins : Buf) (a0 a1 a2 a3 a4 a5 a6 a7 : Nat)
    (hst : (if op_type = PIN_TYPE then w.dev.types else w.dev.datas) =
      [a0, a1, a2, a3, a4, a5, a6, a7]) :
    (gpio_read_pin gpioFixture w stack op_type pins).1 = 0 ∧
      frameOf (gpio_read_pin gpioFixture w stack op_type pins).2.1 8 =
        [a0 % 256, a1 % 256, a2 % 256, a3 % 256, a4 % 256, a5 % 256, a6 % 256, a7 % 256] := by
  rw [gpio_read_pin_eq gpioFixture w stack op_type pins _ rfl]
  by_cases h : op_type = PIN_TYPE <;> simp only [h, if_true, if_false] at hst ⊢ <;>
    simp [hst, reply, replyBuf, bufAfter, canctl_read, sys_select, sys_read, sys_write,
      gpioFixture, store, zeroed, setb, frameOf, List.range, List.range.loop, CANBUS_MSG_SIZE]

/-- C8: GPIO set/read round trip over the faithful GPIO fixture.  For each kind
(`PIN_TYPE`, or `PIN_DATA`, as any other `op_type` is taken for data) and every
array `v` of 8 bytes, from any state of the fixture,
`gpio_set_pin` returns 0 and the `gpio_read_pin` of the same kind that follows
returns 0 with exactly `v` in the caller's array, pin by pin in the same
order. -/
theorem gpio_set_then_read_round_trip (w : World GpioFixture) (stack1 stack2 : Buf)
    (op_type : Int) (v pins : Buf) (hv : ∀ k, k < 8 → v k < 256) :
    (gpio_set_pin gpioFixture w stack1 op_type v).1 = 0 ∧
      (gpio_read_pin gpioFixture (gpio_set_pin gpioFixture w stack1 op_type v).2 stack2
        op_type pins).1 = 0 ∧
      ∀ k, k < 8 →
        (gpio_read_pin gpioFixture (gpio_set_pin gpioFixture w stack1 op_type v).2 stack2
          op_type pins).2.1 k = v k := by
  have hs := gpioFixture_set_pin w stack1 op_type v
  have hr := gpioFixture_read_pin (gpio_set_pin gpioFixture w stack1 op_type v).2 stack2
    op_type pins _ _ _ _ _ _ _ _ hs.2
  refine ⟨hs.1, hr.1, ?_⟩
  intro k hk
  have hm : ∀ j, j < 8 → v j % 256 = v j := fun j hj => Nat.mod_eq_of_lt (hv j hj)
  have hf := hr.2
  simp only [frameOf, List.range, List.range.loop, List.map, Nat.mod_mod] at hf
  simp only [hm 0 (by norm_num), hm 1 (by norm_num), hm 2 (by norm_num), hm 3 (by norm_num),
    hm 4 (by norm_num), hm 5 (by norm_num), hm 6 (by norm_num), hm 7 (by norm_num)] at hf
  simp only [List.cons.injEq, and_true] at hf
  obtain ⟨h0, h1, h2, h3, h4, h5, h6, h7⟩ := hf
  interval_cases k <;> assumption

/-- C8 for the kind data with the pins `1,0,0,1,1,1,0,255`, from the fixture
with all pins zero. -/
theorem gpio_set_then_read_round_trip_witness :
    (gpio_set_pin gpioFixture
        (World.init { types := List.replicate 8 0, datas := List.replicate 8 0, pending := none })
        zeroed PIN_DATA (fun k => [1, 0, 0, 1, 1, 1, 0, 255].getD k 0)).1 = 0 ∧
      (gpio_read_pin gpioFixture (gpio_set_pin gpioFixture
        (World.init { types := List.replicate 8 0, datas := List.replicate 8 0, pending := none })
        zeroed PIN_DATA (fun k => [1, 0, 0, 1, 1, 1, 0, 255].getD k 0)).2 zeroed
          PIN_DATA zeroed).1 = 0 ∧
      (gpio_read_pin gpioFixture (gpio_set_pin gpioFixture
        (World.init { types := List.replicate 8 0, datas := List.replicate 8 0, pending := none })
        zeroed PIN_DATA (fun k => [1, 0, 0, 1, 1, 1, 0, 255].getD k 0)).2 zeroed
          PIN_DATA zeroed).2.1 7 = 255 :=
  have t := gpio_set_then_read_round_trip
    (World.init { types := List.replicate 8 0, datas := List.replicate 8 0, pending := none })
    zeroed zeroed PIN_DATA (fun k => [1, 0, 0, 1, 1, 1, 0, 255].getD k 0) zeroed
    (by intro k hk; interval_cases k <;> decide)
  ⟨t.1, t.2.1, t.2.2 7 (by decide)⟩

/-! ## Claims about the GPIO pin commands -/

/-- C9: `gpio_set_pin` writes exactly the one 10-byte frame
`[id, 0x02, v0, .., v7]`, with `id` 0xB0 for `PIN_TYPE` and 0xB1 for `PIN_DATA`
and the pin values in the order pin1..pin8, and it returns 0 if and only if
that write accepted 10 bytes, the read did not fail, response byte 0 equals
`id` and response byte 1 equals 0x00; otherwise it returns -1. -/
theorem gpio_set_pin_frame_and_result {σ : Type} (ch : Channel σ) (w : World σ) (stack : Buf)
    (op_type : Int) (id : Nat) (v : Buf)
    (hid : (op_type = PIN_TYPE ∧ id = 0xb0) ∨ (op_type = PIN_DATA ∧ id = 0xb1))
    (hv : ∀ k, k < 8 → v k < 256) :
    framesWritten (gpio_set_pin ch w stack op_type v).2 =
        framesWritten w ++ [[id, 0x02, v 0, v 1, v 2, v 3, v 4, v 5, v 6, v 7]] ∧
      ((gpio_set_pin ch w stack op_type v).1 = 0 ↔
        (sys_write ch w [id, 0x02, v 0, v 1, v 2, v 3, v 4, v 5, v 6, v 7]).1 = 10 ∧
        0 ≤ (reply ch w [id, 0x02, v 0, v 1, v 2, v 3, v 4, v 5, v 6, v 7] 10).1 ∧
        replyBuf ch w [id, 0x02, v 0, v 1, v 2, v 3, v 4, v 5, v 6, v 7] 10 0 = id ∧
        replyBuf ch w [id, 0x02, v 0, v 1, v 2, v 3, v 4, v 5, v 6, v 7] 10 1 = 0x00) ∧
      ((gpio_set_pin ch w stack op_type v).1 = 0 ∨
        (gpio_set_pin ch w stack op_type v).1 = -1) := by
  have hid2 : id = if op_type = PIN_TYPE then 0xb0 else 0xb1 := by
    rcases hid with ⟨h1, h2⟩ | ⟨h1, h2⟩ <;> subst h1 <;> subst h2 <;> decide
  have hm : ∀ k, k < 8 → v k % 256 = v k := fun k hk => Nat.mod_eq_of_lt (hv k hk)
  rw [gpio_set_pin_eq ch w stack op_type v id _ hid2 rfl]
  simp only [hm 0 (by norm_num), hm 1 (by norm_num), hm 2 (by norm_num), hm 3 (by norm_num),
    hm 4 (by norm_num), hm 5 (by norm_num), hm 6 (by norm_num), hm 7 (by norm_num)]
  split_ifs with h1 h2 h3 h4 <;>
    simp_all [framesWritten_sys_write, framesWritten_reply]

/-- C9 for the kind type with the pins `1,0,1,0,1,0,1,0`, on a device that
answers `[0xB0, 0x00]`. -/
theorem gpio_set_pin_frame_and_result_witness :
    framesWritten (gpio_set_pin scripted (World.init [[0xb0, 0x00]]) zeroed PIN_TYPE
        (fun k => (k + 1) % 2)).2 = [[0xb0, 0x02, 1, 0, 1, 0, 1, 0, 1, 0]] :=
  (gpio_set_pin_frame_and_result scripted (World.init [[0xb0, 0x00]]) zeroed PIN_TYPE 0xb0
    (fun k => (k + 1) % 2) (Or.inl ⟨rfl, rfl⟩)
    (fun k _ => lt_trans (Nat.mod_lt _ (by norm_num)) (by norm_num))).1

/-- C10: `gpio_read_pin` writes exactly the one 2-byte frame `[id, 0x01]`, with
`id` 0xB0 for `PIN_TYPE` and 0xB1 for `PIN_DATA`.  When the write accepted 2
bytes, the read did not fail, response byte 0 equals `id` and response byte 1
equals 0x01, it returns 0 with `output[k] = response[2+k]` for every k in 0..7.
When response byte 0 differs from `id` or response byte 1 from 0x01 it
returns -1. -/
theorem gpio_read_pin_frame_and_result {σ : Type} (ch : Channel σ) (w : World σ)
    (stack : Buf) (op_type : Int) (id : Nat) (pins : Buf)
    (hid : (op_type = PIN_TYPE ∧ id = 0xb0) ∨ (op_type = PIN_DATA ∧ id = 0xb1)) :
    framesWritten (gpio_read_pin ch w stack op_type pins).2.2 =
        framesWritten w ++ [[id, 0x01]] ∧
      ((sys_write ch w [id, 0x01]).1 = 2 → 0 ≤ (reply ch w [id, 0x01] 10).1 →
        replyBuf ch w [id, 0x01] 10 0 = id → replyBuf ch w [id, 0x01] 10 1 = 0x01 →
        (gpio_read_pin ch w stack op_type pins).1 = 0 ∧
          ∀ k, k < 8 →
            (gpio_read_pin ch w stack op_type pins).2.1 k = replyBuf ch w [id, 0x01] 10 (2 + k)) ∧
      ((replyBuf ch w [id, 0x01] 10 0 ≠ id ∨ replyBuf ch w [id, 0x01] 10 1 ≠ 0x01) →
        (gpio_read_pin ch w stack op_type pins).1 = -1) := by
  have hid2 : id = if op_type = PIN_TYPE then 0xb0 else 0xb1 := by
    rcases hid with ⟨h1, h2⟩ | ⟨h1, h2⟩ <;> subst h1 <;> subst h2 <;> decide
  rw [gpio_read_pin_eq ch w stack op_type pins id hid2]
  refine ⟨?_, ?_, ?_⟩
  · split_ifs <;> simp [framesWritten_sys_write, framesWritten_reply]
  · intro hw hr h0 h1
    have hm : ∀ j, replyBuf ch w [id, 0x01] 10 j % 256 = replyBuf ch w [id, 0x01] 10 j :=
      fun j => Nat.mod_eq_of_lt (replyBuf_lt ch w _ 10 j)
    simp only [hw, not_lt.mpr hr, h0, h1, ne_eq, not_true_eq_false, if_false, true_and]
    intro k hk
    interval_cases k <;> simp [setb, hm]
  · intro h
    split_ifs with a b c d
    · rfl
    · rfl
    · rfl
    · rfl
    · exfalso
      rcases h with h | h
      · exact h (not_not.mp c)
      · exact h (not_not.mp d)

/-- C10 for the kind data, on a device that answers
`[0xB1, 0x01, 1, 1, 0, 0, 1, 0, 1, 0]`. -/
theorem gpio_read_pin_frame_and_result_witness :
    framesWritten (gpio_read_pin scripted (World.init [[0xb1, 0x01, 1, 1, 0, 0, 1, 0, 1, 0]])
        zeroed PIN_DATA zeroed).2.2 = [[0xb1, 0x01]] ∧
      (gpio_read_pin scripted (World.init [[0xb1, 0x01, 1, 1, 0, 0, 1, 0, 1, 0]])
        zeroed PIN_DATA zeroed).1 = 0 ∧
      frameOf (gpio_read_pin scripted (World.init [[0xb1, 0x01, 1, 1, 0, 0, 1, 0, 1, 0]])
        zeroed PIN_DATA zeroed).2.1 8 = [1, 1, 0, 0, 1, 0, 1, 0] :=
  ⟨(gpio_read_pin_frame_and_result scripted (World.init [[0xb1, 0x01, 1, 1, 0, 0, 1, 0, 1, 0]])
      zeroed PIN_DATA 0xb1 zeroed (Or.inr ⟨rfl, rfl⟩)).1,
    ((gpio_read_pin_frame_and_result scripted (World.init [[0xb1, 0x01, 1, 1, 0, 0, 1, 0, 1, 0]])
      zeroed PIN_DATA 0xb1 zeroed (Or.inr ⟨rfl, rfl⟩)).2.1
        (by decide) (by decide) (by decide) (by decide)).1,
    by decide⟩

/-! ## Claims about the transport: `canctl_write`, `canctl_read`, the timeout -/

/-- The system calls `canctl_read` makes: none, the wait alone, or the wait and
one read.  `_timeout_ms` is not changed. -/
theorem canctl_read_world {σ : Type} (ch : Channel σ) (w : World σ) (b : Option Buf)
    (len : Nat) :
    (canctl_read ch w b len).2.2.timeout_ms = w.timeout_ms ∧
      ∃ evs : List Syscall, (canctl_read ch w b len).2.2.trace = w.trace ++ evs ∧
        (evs = [] ∨
          evs = [Syscall.select (if w.timeout_ms < 0 then none
            else some (0, int32 (w.timeout_ms * 1000)))] ∨
          evs = [Syscall.select (if w.timeout_ms < 0 then none
            else some (0, int32 (w.timeout_ms * 1000))), Syscall.read len]) := by
  unfold canctl_read
  dsimp only
  split
  · exact ⟨rfl, [], by simp, Or.inl rfl⟩
  · split
    · exact ⟨rfl, [], by simp, Or.inl rfl⟩
    · split
      · rename_i w1 hs
        have := congrArg Prod.snd hs
        simp only [sys_select] at this
        subst this
        exact ⟨rfl, _, rfl, Or.inr (Or.inl rfl)⟩
      · rename_i w1 hs
        have := congrArg Prod.snd hs
        simp only [sys_select] at this
        subst this
        exact ⟨rfl, _, rfl, Or.inr (Or.inl rfl)⟩
      · rename_i w1 hs
        have := congrArg Prod.snd hs
        simp only [sys_select] at this
        subst this
        split
        · rename_i w2 h2
          have := congrArg Prod.snd h2
          simp only [sys_read] at this
          subst this
          exact ⟨rfl, _, by simp, Or.inr (Or.inr rfl)⟩
        · rename_i d w2 h2
          have := congrArg Prod.snd h2
          simp only [sys_read] at this
          subst this
          exact ⟨rfl, _, by simp, Or.inr (Or.inr rfl)⟩
      · rename_i w1 hs
        have := congrArg Prod.snd hs
        simp only [sys_select] at this
        subst this
        exact ⟨rfl, _, rfl, Or.inr (Or.inl rfl)⟩

/-- C12 fails as stated: on a channel that accepts 1 byte of the 2 requested,
`canctl_write` returns the byte count 1, not an error. -/
theorem canctl_write_returns_short_count :
    (canctl_write (accepting 1) (World.init ()) (some (setb (setb zeroed 0 0xcc) 1 0)) 2).1 = 1 ∧
      (canctl_write (accepting 1) (World.init ()) (some (setb (setb zeroed 0 0xcc) 1 0)) 2).1
        ≠ -1 ∧
      framesWritten
        (canctl_write (accepting 1) (World.init ()) (some (setb (setb zeroed 0 0xcc) 1 0)) 2).2 =
        [[0xcc, 0]] := by
  decide

/-- C12 (as amended): `canctl_write` returns what `write(2)` returns.  With a
buffer it makes the one call `write(fd, buf, len)` and returns its value, the
number of bytes the channel accepted, also when that is less than `len`; so
its result is `len` exactly when the channel accepted `len` bytes.  With the
NULL buffer it returns -1 and leaves the channel untouched. -/
theorem canctl_write_returns_write_count {σ : Type} (ch : Channel σ) (w : World σ)
    (b : Buf) (len : Nat) :
    (canctl_write ch w (some b) len).1 = (ch.write w.dev (frameOf b len)).1 ∧
      (canctl_write ch w (some b) len).2.trace =
        w.trace ++ [Syscall.write (frameOf b len) (ch.write w.dev (frameOf b len)).1] ∧
      (canctl_write ch w (some b) len).2.dev = (ch.write w.dev (frameOf b len)).2 ∧
      ((canctl_write ch w (some b) len).1 = (len : Int) ↔
        (ch.write w.dev (frameOf b len)).1 = (len : Int)) ∧
      canctl_write ch w none len = (-1, w) := by
  simp [canctl_write, sys_write]

/-- C13: how `canctl_read` classifies.  With the NULL buffer, or with `len`
above 64, it returns -1 and makes no system call (the state is unchanged).
Otherwise it waits once, with the bound `tv`: a timeout gives 0 with the array
untouched and no read; a failed wait gives -1 and no read; a readable
descriptor gives what the one `read(2)` returns, the count of the bytes
delivered (now at the start of the array), or -1 when the read fails. -/
theorem canctl_read_classification {σ : Type} (ch : Channel σ) (w : World σ) (b : Buf)
    (len : Nat) (tv : Option (Int × Int))
    (htv : tv = if w.timeout_ms < 0 then none else some (0, int32 (w.timeout_ms * 1000))) :
    canctl_read ch w none len = (-1, none, w) ∧
    (CANBUS_MSG_SIZE < len → canctl_read ch w (some b) len = (-1, some b, w)) ∧
    (len ≤ CANBUS_MSG_SIZE → (ch.select w.dev tv).1 = SelectOutcome.timeout →
      (canctl_read ch w (some b) len).1 = 0 ∧ (canctl_read ch w (some b) len).2.1 = some b ∧
        (canctl_read ch w (some b) len).2.2.trace = w.trace ++ [Syscall.select tv]) ∧
    (len ≤ CANBUS_MSG_SIZE → (ch.select w.dev tv).1 = SelectOutcome.error →
      (canctl_read ch w (some b) len).1 = -1 ∧
        (canctl_read ch w (some b) len).2.2.trace = w.trace ++ [Syscall.select tv]) ∧
    (len ≤ CANBUS_MSG_SIZE → (ch.select w.dev tv).1 = SelectOutcome.ready true →
      (canctl_read ch w (some b) len).2.2.trace =
          w.trace ++ [Syscall.select tv, Syscall.read len] ∧
        (∀ d : List Nat, (ch.read (ch.select w.dev tv).2 len).1 = some d →
          (canctl_read ch w (some b) len).1 = ((min d.length len : Nat) : Int) ∧
            (canctl_read ch w (some b) len).2.1 = some (store b (d.take len))) ∧
        ((ch.read (ch.select w.dev tv).2 len).1 = none →
          (canctl_read ch w (some b) len).1 = -1)) := by
  subst htv
  refine ⟨rfl, ?_, ?_, ?_, ?_⟩
  · intro h
    simp [canctl_read, h]
  · intro h hs
    simp [canctl_read, sys_select, not_lt.mpr h, hs]
  · intro h hs
    simp [canctl_read, sys_select, not_lt.mpr h, hs]
  · intro h hs
    refine ⟨?_, ?_, ?_⟩
    · rcases hr : (ch.read (ch.select w.dev (if w.timeout_ms < 0 then none
          else some (0, int32 (w.timeout_ms * 1000)))).2 len).1 with _ | d <;>
        simp [canctl_read, sys_select, sys_read, not_lt.mpr h, hs, hr]
    · intro d hr
      simp [canctl_read, sys_select, sys_read, not_lt.mpr h, hs, hr, min_comm]
    · intro hr
      simp [canctl_read, sys_select, sys_read, not_lt.mpr h, hs, hr]

/-- C13 on the scripted device: with nothing queued the wait times out and the
result is 0; with the report `[1, 2, 3]` queued the result is the count 3; with
the NULL buffer the result is -1. -/
theorem canctl_read_classification_witness :
    (canctl_read scripted (World.init []) (some zeroed) 64).1 = 0 ∧
      (canctl_read scripted (World.init [[1, 2, 3]]) (some zeroed) 64).1 = 3 ∧
      canctl_read scripted (World.init [[1, 2, 3]]) none 64 =
        (-1, none, World.init [[1, 2, 3]]) :=
  ⟨((canctl_read_classification scripted (World.init []) zeroed 64
      (some (0, 10000000)) (by decide)).2.2.1 (by decide) (by decide)).1,
    (((canctl_read_classification scripted (World.init [[1, 2, 3]]) zeroed 64
      (some (0, 10000000)) (by decide)).2.2.2.2 (by decide) (by decide)).2.1
        [1, 2, 3] (by decide)).1,
    (canctl_read_classification scripted (World.init [[1, 2, 3]]) zeroed 64
      (some (0, 10000000)) (by decide)).1⟩

/-- With a buffer and `len ≤ 64`, `canctl_read` waits exactly once, with the
bound computed from `_timeout_ms`, and reads at most once after it. -/
theorem canctl_read_trace_some {σ : Type} (ch : Channel σ) (w : World σ) (b : Buf)
    (len : Nat) (hlen : len ≤ CANBUS_MSG_SIZE) :
    (canctl_read ch w (some b) len).2.2.trace =
        w.trace ++ [Syscall.select (if w.timeout_ms < 0 then none
          else some (0, int32 (w.timeout_ms * 1000)))] ∨
      (canctl_read ch w (some b) len).2.2.trace =
        w.trace ++ [Syscall.select (if w.timeout_ms < 0 then none
          else some (0, int32 (w.timeout_ms * 1000))), Syscall.read len] := by
  have hl : ¬ len > CANBUS_MSG_SIZE := not_lt.mpr hlen
  rcases hs : (ch.select w.dev (if w.timeout_ms < 0 then none
      else some (0, int32 (w.timeout_ms * 1000)))).1 with _ | _ | (_ | _)
  · simp [canctl_read, sys_select, hl, hs]
  · simp [canctl_read, sys_select, hl, hs]
  · simp [canctl_read, sys_select, hl, hs]
  · rcases hr : (ch.read (ch.select w.dev (if w.timeout_ms < 0 then none
        else some (0, int32 (w.timeout_ms * 1000)))).2 len).1 with _ | d <;>
      simp [canctl_read, sys_select, sys_read, hl, hs, hr]

/-- The wait bound of `canctl_read` while the product `_timeout_ms * 1000`
fits an `int`: no bound for a negative timeout, and `t` milliseconds for
`0 ≤ t ≤ 2147483`. -/
theorem read_bound_in_range {σ : Type} (ch : Channel σ) (w : World σ) (b : Buf) (len : Nat)
    (hlen : len ≤ CANBUS_MSG_SIZE) :
    (w.timeout_ms < 0 →
      ∃ rest, (canctl_read ch w (some b) len).2.2.trace =
        w.trace ++ Syscall.select none :: rest) ∧
    (0 ≤ w.timeout_ms → w.timeout_ms ≤ 2147483 →
      ∃ tv_sec tv_usec rest, (canctl_read ch w (some b) len).2.2.trace =
          w.trace ++ Syscall.select (some (tv_sec, tv_usec)) :: rest ∧
        tv_sec * 1000000 + tv_usec = 1000 * w.timeout_ms) := by
  have ht := canctl_read_trace_some ch w b len hlen
  constructor
  · intro hneg
    simp only [hneg, if_true] at ht
    rcases ht with h | h
    · exact ⟨[], h⟩
    · exact ⟨[Syscall.read len], h⟩
  · intro h0 h1
    have hi : int32 (w.timeout_ms * 1000) = w.timeout_ms * 1000 := by
      unfold int32
      omega
    simp only [not_lt.mpr h0, if_false, hi] at ht
    rcases ht with h | h
    · exact ⟨0, w.timeout_ms * 1000, [], h, by ring⟩
    · exact ⟨0, w.timeout_ms * 1000, [Syscall.read len], h, by ring⟩

/-- C14 fails on the code at the timeout 2147484 ms: `_timeout_ms * 1000`
does not fit an `int`, and the bound handed to `select` is `tv_sec = 0`,
`tv_usec = -2147483296`, which is not 2147484 ms; at 10000 ms the bound is
`tv_usec = 10000000`, as claimed. -/
theorem read_bound_overflows :
    (canctl_read scripted (canctl_set_timeout_ms (World.init []) 2147484) (some zeroed) 64).2.2.trace
        = [Syscall.select (some (0, -2147483296))] ∧
      (0 : Int) * 1000000 + -2147483296 ≠ 1000 * 2147484 ∧
      (canctl_read scripted (canctl_set_timeout_ms (World.init []) 10000) (some zeroed) 64).2.2.trace
        = [Syscall.select (some (0, 10000000))] := by
  decide

theorem timeout_sys_write {σ : Type} (ch : Channel σ) (w : World σ) (f : List Nat) :
    (sys_write ch w f).2.timeout_ms = w.timeout_ms := rfl

theorem timeout_reply {σ : Type} (ch : Channel σ) (w : World σ) (f : List Nat) (len : Nat) :
    (reply ch w f len).2.2.timeout_ms = w.timeout_ms := by
  unfold reply
  rw [(canctl_read_world ch _ _ len).1, timeout_sys_write]

/-- A mode other than Off, On and Normal: `canctl_set_led` returns -1 at once,
in the state it was called in. -/
theorem canctl_set_led_other {σ : Type} (ch : Channel σ) (w : World σ) (stack : Buf)
    (mode : Int) (h0 : mode ≠ CANBUS_LED_OFF) (h1 : mode ≠ CANBUS_LED_ON)
    (h2 : mode ≠ CANBUS_LED_NORMAL) : canctl_set_led ch w stack mode = (-1, w) := by
  simp [canctl_set_led, h0, h1, h2]

/-- C15: the read timeout is changed only by its setter.
`canctl_get_timeout_ms` returns 10000 in the initial state and `v` after
`canctl_set_timeout_ms(v)`, for every `v`; and `canctl_write`, `canctl_read`
and each of the eight commands leave the value as it was. -/
theorem timeout_changed_only_by_setter {σ : Type} (ch : Channel σ) (w : World σ)
    (stack : Buf) :
    (∀ d : σ, canctl_get_timeout_ms (World.init d) = 10000) ∧
    (∀ v : Int, canctl_get_timeout_ms (canctl_set_timeout_ms w v) = v) ∧
    (∀ (b : Option Buf) (len : Nat),
      canctl_get_timeout_ms (canctl_write ch w b len).2 = canctl_get_timeout_ms w) ∧
    (∀ (b : Option Buf) (len : Nat),
      canctl_get_timeout_ms (canctl_read ch w b len).2.2 = canctl_get_timeout_ms w) ∧
    canctl_get_timeout_ms (canctl_get_firmware_version ch w).2 = canctl_get_timeout_ms w ∧
    canctl_get_timeout_ms (canctl_get_config ch w stack).2 = canctl_get_timeout_ms w ∧
    (∀ (cfg : Int) (speed : Nat),
      canctl_get_timeout_ms (canctl_set_config ch w stack cfg speed).2 =
        canctl_get_timeout_ms w) ∧
    (∀ mode : Int,
      canctl_get_timeout_ms (canctl_set_led ch w stack mode).2 = canctl_get_timeout_ms w) ∧
    canctl_get_timeout_ms (canctl_get_error_state ch w stack).2 = canctl_get_timeout_ms w ∧
    (∀ (op_type : Int) (v : Buf),
      canctl_get_timeout_ms (gpio_set_pin ch w stack op_type v).2 = canctl_get_timeout_ms w) ∧
    (∀ (op_type : Int) (pins : Buf),
      canctl_get_timeout_ms (gpio_read_pin ch w stack op_type pins).2.2 =
        canctl_get_timeout_ms w) ∧
    (∀ (op_select : Int) (out : Buf),
      canctl_get_timeout_ms (gpio_get_iom_or_sku ch w stack op_select out).2.2 =
        canctl_get_timeout_ms w) := by
  unfold canctl_get_timeout_ms
  refine ⟨fun _ => rfl, fun _ => rfl, ?_, ?_, ?_, ?_, ?_, ?_, ?_, ?_, ?_, ?_⟩
  · intro b len
    cases b <;> rfl
  · intro b len
    exact (canctl_read_world ch w b len).1
  · rw [canctl_get_firmware_version_eq]
    split_ifs <;> simp [timeout_sys_write, timeout_reply]
  · rw [canctl_get_config_eq]
    split_ifs <;> simp [timeout_sys_write, timeout_reply]
  · intro cfg speed
    by_cases h : cfg = CANBUS_CFG_CONFIGURATION
    · subst h
      rw [canctl_set_config_eq_configuration ch w stack speed _ rfl]
      split_ifs <;> simp [timeout_sys_write, timeout_reply]
    · rw [canctl_set_config_eq_other ch w stack cfg speed h]
      split_ifs <;> simp [timeout_sys_write, timeout_reply]
  · intro mode
    by_cases h0 : mode = CANBUS_LED_OFF
    · rw [canctl_set_led_eq ch w stack mode 0xdd (Or.inl ⟨h0, rfl⟩)]
      split_ifs <;> simp [timeout_sys_write, timeout_reply]
    · by_cases h1 : mode = CANBUS_LED_ON
      · rw [canctl_set_led_eq ch w stack mode 0xde (Or.inr (Or.inl ⟨h1, rfl⟩))]
        split_ifs <;> simp [timeout_sys_write, timeout_reply]
      · by_cases h2 : mode = CANBUS_LED_NORMAL
        · rw [canctl_set_led_eq ch w stack mode 0xdf (Or.inr (Or.inr ⟨h2, rfl⟩))]
          split_ifs <;> simp [timeout_sys_write, timeout_reply]
        · rw [canctl_set_led_other ch w stack mode h0 h1 h2]
  · rw [canctl_get_error_state_eq]
    split_ifs <;> simp [timeout_sys_write, timeout_reply]
  · intro op_type v
    rw [gpio_set_pin_eq ch w stack op_type v _ _ rfl rfl]
    split_ifs <;> simp [timeout_sys_write, timeout_reply]
  · intro op_type pins
    rw [gpio_read_pin_eq ch w stack op_type pins _ rfl]
    split_ifs <;> simp [timeout_sys_write, timeout_reply]
  · intro op_select out
    rw [gpio_get_iom_or_sku_eq ch w stack op_select out _ rfl]
    split_ifs <;> simp [timeout_sys_write, timeout_reply]

/-! ## Claims about `gpio_get_iom_or_sku` and `canctl_set_led` -/

/-- The system calls of one exchange: the write, then at most one wait and at
most one read. -/
theorem trace_reply {σ : Type} (ch : Channel σ) (w : World σ) (f : List Nat) (len : Nat) :
    ∃ evs : List Syscall,
      (reply ch w f len).2.2.trace = w.trace ++ Syscall.write f (ch.write w.dev f).1 :: evs ∧
        (evs = [] ∨
          evs = [Syscall.select (if w.timeout_ms < 0 then none
            else some (0, int32 (w.timeout_ms * 1000)))] ∨
          evs = [Syscall.select (if w.timeout_ms < 0 then none
            else some (0, int32 (w.timeout_ms * 1000))), Syscall.read len]) := by
  obtain ⟨evs, he, hc⟩ := (canctl_read_world ch (sys_write ch w f).2 (some zeroed) len).2
  refine ⟨evs, ?_, hc⟩
  unfold reply
  rw [he]
  simp [sys_write]

/-- C11: `gpio_get_iom_or_sku` performs a single send/receive.  It writes
exactly the one frame `[id, 0]`, with `id` 0xB3 for `GET_IOM` and 0xB2 for
`GET_BOARD_ID`.  When the write accepted 2 bytes, the read did not fail and
response byte 0 equals `id`, it returns 0 with `outbuf[0]` equal to response
byte 1; when response byte 0 differs from `id` it returns -1.  Its system
calls are that one write, then at most one wait and at most one read. -/
theorem gpio_get_iom_or_sku_exchange {σ : Type} (ch : Channel σ) (w : World σ) (stack : Buf)
    (op_select : Int) (id : Nat) (out : Buf)
    (hid : (op_select = GET_IOM ∧ id = 0xb3) ∨ (op_select = GET_BOARD_ID ∧ id = 0xb2)) :
    framesWritten (gpio_get_iom_or_sku ch w stack op_select out).2.2 =
        framesWritten w ++ [[id, 0]] ∧
      ((sys_write ch w [id, 0]).1 = 2 → 0 ≤ (reply ch w [id, 0] 64).1 →
        replyBuf ch w [id, 0] 64 0 = id →
        (gpio_get_iom_or_sku ch w stack op_select out).1 = 0 ∧
          (gpio_get_iom_or_sku ch w stack op_select out).2.1 0 = replyBuf ch w [id, 0] 64 1) ∧
      (replyBuf ch w [id, 0] 64 0 ≠ id →
        (gpio_get_iom_or_sku ch w stack op_select out).1 = -1) ∧
      ∃ evs : List Syscall,
        (gpio_get_iom_or_sku ch w stack op_select out).2.2.trace =
            w.trace ++ Syscall.write [id, 0] (ch.write w.dev [id, 0]).1 :: evs ∧
          (evs = [] ∨
            evs = [Syscall.select (if w.timeout_ms < 0 then none
              else some (0, int32 (w.timeout_ms * 1000)))] ∨
            evs = [Syscall.select (if w.timeout_ms < 0 then none
              else some (0, int32 (w.timeout_ms * 1000))), Syscall.read 64]) := by
  have hid2 : id = if op_select = GET_IOM then 0xb3 else 0xb2 := by
    rcases hid with ⟨h1, h2⟩ | ⟨h1, h2⟩ <;> subst h1 <;> subst h2 <;> decide
  have hP : ∀ P : World σ → Prop, P (sys_write ch w [id, 0]).2 →
      P (reply ch w [id, 0] 64).2.2 →
      P (gpio_get_iom_or_sku ch w stack op_select out).2.2 := by
    intro P h1 h2
    rw [gpio_get_iom_or_sku_eq ch w stack op_select out id hid2]
    split_ifs <;> assumption
  have htr := hP
    (fun wf => ∃ evs : List Syscall,
      wf.trace = w.trace ++ Syscall.write [id, 0] (ch.write w.dev [id, 0]).1 :: evs ∧
        (evs = [] ∨
          evs = [Syscall.select (if w.timeout_ms < 0 then none
            else some (0, int32 (w.timeout_ms * 1000)))] ∨
          evs = [Syscall.select (if w.timeout_ms < 0 then none
            else some (0, int32 (w.timeout_ms * 1000))), Syscall.read 64]))
    ⟨[], by simp [sys_write], Or.inl rfl⟩ (trace_reply ch w [id, 0] 64)
  refine ⟨?_, ?_, ?_, htr⟩
  all_goals rw [gpio_get_iom_or_sku_eq ch w stack op_select out id hid2]
  · split_ifs <;> simp [framesWritten_sys_write, framesWritten_reply]
  · intro hw hr h0
    have hm : replyBuf ch w [id, 0] 64 1 % 256 = replyBuf ch w [id, 0] 64 1 :=
      Nat.mod_eq_of_lt (replyBuf_lt ch w _ 64 1)
    simp [hw, not_lt.mpr hr, h0, setb, hm]
  · intro h
    split_ifs <;> simp_all

/-- C11 for the IO-module SKU on a device that answers `[0xB3, 0x2A]`. -/
theorem gpio_get_iom_or_sku_exchange_witness :
    framesWritten (gpio_get_iom_or_sku scripted (World.init [[0xb3, 0x2a]]) zeroed GET_IOM
        zeroed).2.2 = [[0xb3, 0]] ∧
      (gpio_get_iom_or_sku scripted (World.init [[0xb3, 0x2a]]) zeroed GET_IOM zeroed).1 = 0 ∧
      (gpio_get_iom_or_sku scripted (World.init [[0xb3, 0x2a]]) zeroed GET_IOM zeroed).2.1 0
        = 0x2a :=
  ⟨(gpio_get_iom_or_sku_exchange scripted (World.init [[0xb3, 0x2a]]) zeroed GET_IOM 0xb3
      zeroed (Or.inl ⟨rfl, rfl⟩)).1,
    ((gpio_get_iom_or_sku_exchange scripted (World.init [[0xb3, 0x2a]]) zeroed GET_IOM 0xb3
      zeroed (Or.inl ⟨rfl, rfl⟩)).2.1 (by decide) (by decide) (by decide)).1,
    by decide⟩

/-- C20: `canctl_set_led` maps Off to 0xDD, On to 0xDE and Normal to 0xDF, writes
exactly the one frame `[id, 0]`, and returns 0 if and only if that write
accepted 2 bytes, the read did not fail and response byte 0 equals `id`
(otherwise -1).  For any other mode it returns -1 and makes no system call. -/
theorem set_led_frame_and_result {σ : Type} (ch : Channel σ) (w : World σ) (stack : Buf) :
    (∀ (mode : Int) (id : Nat),
      ((mode = CANBUS_LED_OFF ∧ id = 0xdd) ∨ (mode = CANBUS_LED_ON ∧ id = 0xde) ∨
        (mode = CANBUS_LED_NORMAL ∧ id = 0xdf)) →
      framesWritten (canctl_set_led ch w stack mode).2 = framesWritten w ++ [[id, 0]] ∧
        ((canctl_set_led ch w stack mode).1 = 0 ↔
          (sys_write ch w [id, 0]).1 = 2 ∧ 0 ≤ (reply ch w [id, 0] 64).1 ∧
            replyBuf ch w [id, 0] 64 0 = id) ∧
        ((canctl_set_led ch w stack mode).1 = 0 ∨ (canctl_set_led ch w stack mode).1 = -1)) ∧
    (∀ mode : Int, mode ≠ CANBUS_LED_OFF → mode ≠ CANBUS_LED_ON → mode ≠ CANBUS_LED_NORMAL →
      canctl_set_led ch w stack mode = (-1, w)) := by
  refine ⟨?_, fun mode h0 h1 h2 => canctl_set_led_other ch w stack mode h0 h1 h2⟩
  intro mode id h
  rw [canctl_set_led_eq ch w stack mode id h]
  split_ifs with a b c <;> simp_all [framesWritten_sys_write, framesWritten_reply]

/-- C20 for On on a device that answers `[0xDE]`, and for `CANBUS_LED_UNKNOWN`. -/
theorem set_led_frame_and_result_witness :
    framesWritten (canctl_set_led scripted (World.init [[0xde]]) zeroed CANBUS_LED_ON).2 =
        [[0xde, 0]] ∧
      (canctl_set_led scripted (World.init [[0xde]]) zeroed CANBUS_LED_ON).1 = 0 ∧
      canctl_set_led scripted (World.init [[0xde]]) zeroed CANBUS_LED_UNKNOWN =
        (-1, World.init [[0xde]]) :=
  ⟨((set_led_frame_and_result scripted (World.init [[0xde]]) zeroed).1 CANBUS_LED_ON 0xde
      (Or.inr (Or.inl ⟨rfl, rfl⟩))).1,
    (((set_led_frame_and_result scripted (World.init [[0xde]]) zeroed).1 CANBUS_LED_ON 0xde
      (Or.inr (Or.inl ⟨rfl, rfl⟩))).2.1).2 ⟨by decide, by decide, by decide⟩,
    (set_led_frame_and_result scripted (World.init [[0xde]]) zeroed).2 CANBUS_LED_UNKNOWN
      (by decide) (by decide) (by decide)⟩

/-! ## Claims about the USB self-test -/

theorem bin_size_pos (RAND_MAX : Nat) (h : 255 ≤ RAND_MAX) : 0 < bin_size RAND_MAX := by
  unfold bin_size num_rand num_bins
  omega

theorem accept_bound (RAND_MAX : Nat) :
    num_rand RAND_MAX - defect RAND_MAX = 256 * bin_size RAND_MAX := by
  unfold bin_size defect num_rand num_bins
  omega

/-- C16: the byte sampler of the USB self-test is exactly uniform on 0..255.
For every `RAND_MAX ≥ 255`: a sample `x` ends the rejection loop exactly when
`x < num_rand - defect`; every such `x` gives `x / bin_size` in 0..255, which is
the byte stored; and for each byte value `b` exactly `bin_size` of the samples
`0 ≤ x < num_rand` are accepted and give `b`. -/
theorem usb_sampler_uniform (RAND_MAX : Nat) (h : 255 ≤ RAND_MAX) :
    (∀ (x : Nat) (rest : List Nat),
      usb_draw RAND_MAX (x :: rest) =
        if x < num_rand RAND_MAX - defect RAND_MAX then some (x, rest)
        else usb_draw RAND_MAX rest) ∧
    (∀ x : Nat, x < num_rand RAND_MAX - defect RAND_MAX → x / bin_size RAND_MAX < 256) ∧
    (∀ (x i : Nat) (buf : Buf), x < num_rand RAND_MAX - defect RAND_MAX →
      setb buf i (x / bin_size RAND_MAX) i = x / bin_size RAND_MAX) ∧
    (∀ b : Nat, b < 256 →
      (Finset.filter
        (fun x => x < num_rand RAND_MAX - defect RAND_MAX ∧ x / bin_size RAND_MAX = b)
        (Finset.range (num_rand RAND_MAX))).card = bin_size RAND_MAX) := by
  have hpos := bin_size_pos RAND_MAX h
  have hacc := accept_bound RAND_MAX
  have hlt : ∀ x : Nat, x < num_rand RAND_MAX - defect RAND_MAX →
      x / bin_size RAND_MAX < 256 := by
    intro x hx
    rw [hacc] at hx
    exact (Nat.div_lt_iff_lt_mul hpos).mpr hx
  refine ⟨?_, hlt, ?_, ?_⟩
  · intro x rest
    by_cases hx : x < num_rand RAND_MAX - defect RAND_MAX
    · rw [usb_draw, if_neg (not_le.mpr hx), if_pos hx]
    · rw [usb_draw, if_pos (not_lt.mp hx), if_neg hx]
  · intro x i buf hx
    simp [setb, Nat.mod_eq_of_lt (hlt x hx)]
  · intro b hb
    have hset : Finset.filter
        (fun x => x < num_rand RAND_MAX - defect RAND_MAX ∧ x / bin_size RAND_MAX = b)
        (Finset.range (num_rand RAND_MAX)) =
        Finset.Ico (b * bin_size RAND_MAX) ((b + 1) * bin_size RAND_MAX) := by
      ext x
      simp only [Finset.mem_filter, Finset.mem_range, Finset.mem_Ico]
      have hle : 256 * bin_size RAND_MAX ≤ num_rand RAND_MAX := by
        rw [← hacc]; exact Nat.sub_le _ _
      have hb1 : (b + 1) * bin_size RAND_MAX ≤ 256 * bin_size RAND_MAX :=
        Nat.mul_le_mul_right _ hb
      constructor
      · rintro ⟨_, _, hd⟩
        have h1 : b ≤ x / bin_size RAND_MAX := by omega
        have h2 : x / bin_size RAND_MAX < b + 1 := by omega
        exact ⟨(Nat.le_div_iff_mul_le hpos).mp h1, (Nat.div_lt_iff_lt_mul hpos).mp h2⟩
      · rintro ⟨h1, h2⟩
        have h3 : b ≤ x / bin_size RAND_MAX := (Nat.le_div_iff_mul_le hpos).mpr h1
        have h4 : x / bin_size RAND_MAX < b + 1 := (Nat.div_lt_iff_lt_mul hpos).mpr h2
        refine ⟨by omega, by omega, by omega⟩
    rw [hset, Nat.card_Ico, Nat.add_mul, Nat.one_mul, Nat.add_sub_cancel_left]

/-- C16 at `RAND_MAX = 1000`: `bin_size` is 3 and `defect` 233, the samples below
768 are accepted, and exactly 3 of them give the byte 7. -/
theorem usb_sampler_uniform_witness :
    bin_size 1000 = 3 ∧ defect 1000 = 233 ∧
      (Finset.filter (fun x => x < num_rand 1000 - defect 1000 ∧ x / bin_size 1000 = 7)
        (Finset.range (num_rand 1000))).card = bin_size 1000 :=
  ⟨by decide, by decide, (usb_sampler_uniform 1000 (by decide)).2.2.2 7 (by decide)⟩

/-- The comparison loop runs to its end exactly when the two arrays agree on
the indices it visits. -/
theorem compareLoop_eq_none (tx rx : Buf) (k i : Nat) :
    compareLoop tx rx k i = none ↔ ∀ j, i ≤ j → j < i + k → tx j = rx j := by
  induction k generalizing i with
  | zero =>
    simp only [compareLoop, true_iff]
    intro j h1 h2
    omega
  | succ k ih =>
    rw [compareLoop]
    by_cases h : tx i = rx i
    · simp only [h, ne_eq, not_true_eq_false, if_false, ih]
      constructor
      · intro hall j h1 h2
        rcases Nat.eq_or_lt_of_le h1 with e | l
        · rw [← e]; exact h
        · exact hall j l (by omega)
      · intro hall j h1 h2
        exact hall j (by omega) (by omega)
    · simp only [ne_eq, h, not_false_eq_true, if_true]
      constructor
      · intro hc; cases hc
      · intro hall
        exact absurd (hall i (le_refl i) (by omega)) h

/-- The comparison loop reports the least index at which the arrays differ. -/
theorem compareLoop_eq_some (tx rx : Buf) (k i m : Nat) :
    compareLoop tx rx k i = some m ↔
      i ≤ m ∧ m < i + k ∧ tx m ≠ rx m ∧ ∀ j, i ≤ j → j < m → tx j = rx j := by
  induction k generalizing i with
  | zero =>
    simp only [compareLoop]
    constructor
    · intro hc; cases hc
    · rintro ⟨h1, h2, _⟩
      omega
  | succ k ih =>
    rw [compareLoop]
    by_cases h : tx i = rx i
    · simp only [h, ne_eq, not_true_eq_false, if_false, ih]
      constructor
      · rintro ⟨h1, h2, h3, h4⟩
        refine ⟨by omega, by omega, h3, ?_⟩
        intro j hj1 hj2
        rcases Nat.eq_or_lt_of_le hj1 with e | l
        · rw [← e]; exact h
        · exact h4 j l hj2
      · rintro ⟨h1, h2, h3, h4⟩
        have hne : i ≠ m := by
          intro e
          rw [← e] at h3
          exact h3 h
        exact ⟨by omega, by omega, h3, fun j hj1 hj2 => h4 j (by omega) hj2⟩
    · simp only [ne_eq, h, not_false_eq_true, if_true, Option.some.injEq]
      constructor
      · intro e
        subst e
        exact ⟨le_refl _, by omega, h, fun j h1 h2 => by omega⟩
      · rintro ⟨h1, h2, h3, h4⟩
        by_contra hne
        exact h (h4 i (le_refl i) (by omega))

theorem usb_self_test_exchange_eq {σ : Type} (ch : Channel σ) (w : World σ) (buf_tx : Buf)
    (sent : List Nat) (hs : sent = frameOf buf_tx 64) :
    usb_self_test_exchange ch w buf_tx =
      if (sys_write ch w sent).1 < 0 then ([Msg.problem], (sys_write ch w sent).2)
      else if (sys_write ch w sent).1 ≠ 64 then
        ([Msg.wroteUnexpected 64 (sys_write ch w sent).1], (sys_write ch w sent).2)
      else if (reply ch w sent 64).1 < 0 then ([Msg.problem], (reply ch w sent 64).2.2)
      else if (reply ch w sent 64).1 ≠ 64 then
        ([Msg.readUnexpected 64 (reply ch w sent 64).1], (reply ch w sent 64).2.2)
      else
        match compareLoop buf_tx (replyBuf ch w sent 64) (reply ch w sent 64).1.toNat 0 with
        | some i => ([Msg.mismatch i (buf_tx i) (replyBuf ch w sent 64 i)],
            (reply ch w sent 64).2.2)
        | none => ([Msg.success], (reply ch w sent 64).2.2) := by
  subst hs
  simp only [usb_self_test_exchange, canctl_write, reply, replyBuf, CANBUS_MSG_SIZE]
  rfl

theorem frameOf_getD (buf : Buf) (n i : Nat) (h : i < n) : (frameOf buf n).getD i 0 = buf i := by
  simp [frameOf, List.getD_eq_getElem?_getD, List.getElem?_map, List.getElem?_range h]

theorem frameOf_length (buf : Buf) (n : Nat) : (frameOf buf n).length = n := by
  simp [frameOf]

/-- What the echoing device answers to a 64-byte frame. -/
theorem echo_reply (we : World (Option (List Nat))) (sent : List Nat) (hl : sent.length = 64) :
    (sys_write echoFixture we sent).1 = 64 ∧ (reply echoFixture we sent 64).1 = 64 ∧
      ∀ i, i < 64 → replyBuf echoFixture we sent 64 i = sent.getD i 0 % 256 := by
  refine ⟨?_, ?_, ?_⟩
  · simp [sys_write, echoFixture, hl]
  · simp [reply, canctl_read, sys_select, sys_read, sys_write, echoFixture, CANBUS_MSG_SIZE, hl]
  · intro i hi
    simp [replyBuf, bufAfter, reply, canctl_read, sys_select, sys_read, sys_write, echoFixture,
      CANBUS_MSG_SIZE, hl, store, hi]

/-- The rejection loop ends when an accepted value is among the draws. -/
theorem usb_draw_some (RAND_MAX : Nat) (draws : List Nat)
    (h : 0 < (draws.filter fun x => decide (x < num_rand RAND_MAX - defect RAND_MAX)).length) :
    ∃ x rest, usb_draw RAND_MAX draws = some (x, rest) ∧
      (rest.filter fun x => decide (x < num_rand RAND_MAX - defect RAND_MAX)).length + 1 =
        (draws.filter fun x => decide (x < num_rand RAND_MAX - defect RAND_MAX)).length := by
  induction draws with
  | nil => simp at h
  | cons x rest ih =>
    by_cases hx : x < num_rand RAND_MAX - defect RAND_MAX
    · refine ⟨x, rest, ?_, ?_⟩
      · rw [usb_draw, if_neg (not_le.mpr hx)]
      · simp [List.filter_cons, hx]
    · have hf : (List.filter (fun x => decide (x < num_rand RAND_MAX - defect RAND_MAX))
          (x :: rest)) =
          List.filter (fun x => decide (x < num_rand RAND_MAX - defect RAND_MAX)) rest := by
        simp [List.filter_cons, hx]
      rw [hf] at h ⊢
      obtain ⟨y, r, h1, h2⟩ := ih h
      exact ⟨y, r, by rw [usb_draw, if_pos (not_lt.mp hx)]; exact h1, h2⟩

/-- The fill loop ends when the draws hold enough accepted values; it leaves
bytes in the array and does not touch the indices below its start. -/
theorem usb_fill_some (RAND_MAX : Nat) (k : Nat) :
    ∀ (i : Nat) (buf : Buf) (draws : List Nat),
      k ≤ (draws.filter fun x => decide (x < num_rand RAND_MAX - defect RAND_MAX)).length →
      (∀ j, buf j < 256) →
      ∃ buf2 rest, usb_fill RAND_MAX k i buf draws = some (buf2, rest) ∧
        (∀ j, buf2 j < 256) ∧ ∀ j, j < i → buf2 j = buf j := by
  induction k with
  | zero =>
    intro i buf draws _ hb
    exact ⟨buf, draws, rfl, hb, fun _ _ => rfl⟩
  | succ k ih =>
    intro i buf draws hk hb
    obtain ⟨x, rest, hd, hl⟩ := usb_draw_some RAND_MAX draws (by omega)
    have hb2 : ∀ j, setb buf i (x / bin_size RAND_MAX) j < 256 := by
      intro j
      unfold setb
      split
      · exact Nat.mod_lt _ (by norm_num)
      · exact hb j
    obtain ⟨buf2, rest2, hf, hbytes, hlow⟩ :=
      ih (i + 1) (setb buf i (x / bin_size RAND_MAX)) rest (by omega) hb2
    refine ⟨buf2, rest2, ?_, hbytes, ?_⟩
    · rw [usb_fill, hd]
      exact hf
    · intro j hj
      rw [hlow j (by omega)]
      simp [setb, Nat.ne_of_lt hj]

/-- The verdict of `usb_self_test_exchange` over any channel. -/
theorem usb_self_test_exchange_spec {σ : Type} (ch : Channel σ) (w : World σ) (buf_tx : Buf)
    (sent : List Nat) (hs : sent = frameOf buf_tx 64) :
    framesWritten (usb_self_test_exchange ch w buf_tx).2 = framesWritten w ++ [sent] ∧
    ((usb_self_test_exchange ch w buf_tx).1 = [Msg.success] ↔
      (sys_write ch w sent).1 = 64 ∧ (reply ch w sent 64).1 = 64 ∧
        ∀ i, i < 64 → replyBuf ch w sent 64 i = buf_tx i) ∧
    (∀ i, (sys_write ch w sent).1 = 64 → (reply ch w sent 64).1 = 64 → i < 64 →
      replyBuf ch w sent 64 i ≠ buf_tx i →
      (∀ j, j < i → replyBuf ch w sent 64 j = buf_tx j) →
      (usb_self_test_exchange ch w buf_tx).1 =
        [Msg.mismatch i (buf_tx i) (replyBuf ch w sent 64 i)]) ∧
    (0 ≤ (sys_write ch w sent).1 → (sys_write ch w sent).1 ≠ 64 →
      (usb_self_test_exchange ch w buf_tx).1 =
        [Msg.wroteUnexpected 64 (sys_write ch w sent).1]) ∧
    ((sys_write ch w sent).1 = 64 → 0 ≤ (reply ch w sent 64).1 →
      (reply ch w sent 64).1 ≠ 64 →
      (usb_self_test_exchange ch w buf_tx).1 =
        [Msg.readUnexpected 64 (reply ch w sent 64).1]) := by
  rw [usb_self_test_exchange_eq ch w buf_tx sent hs]
  refine ⟨?_, ?_, ?_, ?_, ?_⟩
  · split_ifs
    · simp [framesWritten_sys_write]
    · simp [framesWritten_sys_write]
    · simp [framesWritten_reply]
    · simp [framesWritten_reply]
    · split <;> simp [framesWritten_reply]
  · split_ifs with h1 h2 h3 h4
    · simp; intro hw; omega
    · simp; intro hw; exact absurd hw h2
    · simp; intro _ hr; omega
    · simp; intro _ hr; exact absurd hr h4
    · have hw : (sys_write ch w sent).1 = 64 := not_not.mp h2
      have hr : (reply ch w sent 64).1 = 64 := not_not.mp h4
      simp only [hw, hr, true_and]
      rcases hc : compareLoop buf_tx (replyBuf ch w sent 64) (64 : Int).toNat 0 with _ | m
      · simp only [true_iff]
        have := (compareLoop_eq_none _ _ _ _).mp hc
        intro i hi
        exact (this i (Nat.zero_le _) (by simpa using hi)).symm
      · simp only [List.cons.injEq, and_true, false_iff, reduceCtorEq]
        have := (compareLoop_eq_some _ _ _ _ _).mp hc
        intro hall
        exact this.2.2.1 (hall m (by simpa using this.2.1)).symm
  · intro i hw hr hi hne hbefore
    have hc : compareLoop buf_tx (replyBuf ch w sent 64) 64 0 = some i :=
      (compareLoop_eq_some _ _ _ _ _).mpr
        ⟨Nat.zero_le _, by simpa using hi, fun e => hne e.symm,
          fun j _ hj => (hbefore j hj).symm⟩
    simp [hw, hr, hc]
  · intro h0 hne
    simp [not_lt.mpr h0, hne]
  · intro hw h0 hne
    simp [hw, not_lt.mpr h0, hne]

/-- With enough accepted draws `mnu_usb_self_test` fills an array of bytes that
starts with 0xDA and goes on with the exchange. -/
theorem mnu_usb_self_test_eq {σ : Type} (ch : Channel σ) (w : World σ) (RAND_MAX : Nat)
    (draws : List Nat)
    (h : 63 ≤ (draws.filter fun x => decide (x < num_rand RAND_MAX - defect RAND_MAX)).length) :
    ∃ buf_tx : Buf, (∀ j, buf_tx j < 256) ∧ buf_tx 0 = 0xda ∧
      mnu_usb_self_test ch w RAND_MAX draws = some (usb_self_test_exchange ch w buf_tx) := by
  have hz : ∀ j, setb zeroed 0 CANBUS_OUT_USB_TEST j < 256 := by
    intro j
    unfold setb zeroed CANBUS_OUT_USB_TEST
    split <;> norm_num
  obtain ⟨buf2, rest, hf, hbytes, hlow⟩ :=
    usb_fill_some RAND_MAX 63 1 (setb zeroed 0 CANBUS_OUT_USB_TEST) draws h hz
  refine ⟨buf2, hbytes, ?_, ?_⟩
  · rw [hlow 0 (by norm_num)]
    simp [setb, CANBUS_OUT_USB_TEST]
  · simp only [mnu_usb_self_test, CANBUS_MSG_SIZE]
    rw [show (64 - 1 : Nat) = 63 from rfl, hf]

/-- Over the echoing device the exchange succeeds for every array of bytes. -/
theorem usb_self_test_echo (we : World (Option (List Nat))) (buf_tx : Buf)
    (hb : ∀ j, j < 64 → buf_tx j < 256) :
    (usb_self_test_exchange echoFixture we buf_tx).1 = [Msg.success] := by
  have he := echo_reply we (frameOf buf_tx 64) (frameOf_length buf_tx 64)
  refine ((usb_self_test_exchange_spec echoFixture we buf_tx _ rfl).2.1).mpr
    ⟨he.1, he.2.1, ?_⟩
  intro i hi
  rw [he.2.2 i hi, frameOf_getD buf_tx 64 i hi, Nat.mod_eq_of_lt (hb i hi)]

/-- C17: the verdict of the USB self-test, for the 64 bytes `buf_tx` sent.  It
prints the success line if and only if the write accepted 64 bytes, the read
returned exactly 64 bytes and `received[i] = sent[i]` for every i in 0..63.
When the lengths are right and the arrays differ, it reports the least index
`i` with `received[i] ≠ sent[i]`, with `sent[i]` and `received[i]`.  Any other
length written, or read, is reported as a length error. -/
theorem usb_self_test_verdict {σ : Type} (ch : Channel σ) (w : World σ) (buf_tx : Buf)
    (sent : List Nat) (hs : sent = frameOf buf_tx 64) :
    framesWritten (usb_self_test_exchange ch w buf_tx).2 = framesWritten w ++ [sent] ∧
    ((usb_self_test_exchange ch w buf_tx).1 = [Msg.success] ↔
      (sys_write ch w sent).1 = 64 ∧ (reply ch w sent 64).1 = 64 ∧
        ∀ i, i < 64 → replyBuf ch w sent 64 i = buf_tx i) ∧
    (∀ i, (sys_write ch w sent).1 = 64 → (reply ch w sent 64).1 = 64 → i < 64 →
      replyBuf ch w sent 64 i ≠ buf_tx i →
      (∀ j, j < i → replyBuf ch w sent 64 j = buf_tx j) →
      (usb_self_test_exchange ch w buf_tx).1 =
        [Msg.mismatch i (buf_tx i) (replyBuf ch w sent 64 i)]) ∧
    (0 ≤ (sys_write ch w sent).1 → (sys_write ch w sent).1 ≠ 64 →
      (usb_self_test_exchange ch w buf_tx).1 =
        [Msg.wroteUnexpected 64 (sys_write ch w sent).1]) ∧
    ((sys_write ch w sent).1 = 64 → 0 ≤ (reply ch w sent 64).1 →
      (reply ch w sent 64).1 ≠ 64 →
      (usb_self_test_exchange ch w buf_tx).1 =
        [Msg.readUnexpected 64 (reply ch w sent 64).1]) ∧
    (∀ (RAND_MAX : Nat) (draws : List Nat),
      63 ≤ (draws.filter fun x => decide (x < num_rand RAND_MAX - defect RAND_MAX)).length →
      ∃ payload : Buf, payload 0 = 0xda ∧
        mnu_usb_self_test ch w RAND_MAX draws = some (usb_self_test_exchange ch w payload)) ∧
    (∀ (we : World (Option (List Nat))) (RAND_MAX : Nat) (draws : List Nat),
      63 ≤ (draws.filter fun x => decide (x < num_rand RAND_MAX - defect RAND_MAX)).length →
      ∃ r, mnu_usb_self_test echoFixture we RAND_MAX draws = some r ∧
        r.1 = [Msg.success]) := by
  have hspec := usb_self_test_exchange_spec ch w buf_tx sent hs
  refine ⟨hspec.1, hspec.2.1, hspec.2.2.1, hspec.2.2.2.1, hspec.2.2.2.2, ?_, ?_⟩
  · intro RAND_MAX draws hd
    obtain ⟨p, _, h0, he⟩ := mnu_usb_self_test_eq ch w RAND_MAX draws hd
    exact ⟨p, h0, he⟩
  · intro we RAND_MAX draws hd
    obtain ⟨p, hb, _, he⟩ := mnu_usb_self_test_eq echoFixture we RAND_MAX draws hd
    exact ⟨_, he, usb_self_test_echo we p (fun j _ => hb j)⟩

/-- C17 on the echoing device, with `RAND_MAX = 2147483647` and 63 draws of
8388608 (each gives the byte 1): the frame sent is 0xDA followed by 63 bytes
1, and the test prints the success line. -/
theorem usb_self_test_verdict_witness :
    framesWritten (usb_self_test_exchange echoFixture (World.init none)
        (fun j => if j = 0 then 0xda else if j < 64 then 1 else 0)).2 =
      [0xda :: List.replicate 63 1] ∧
    (mnu_usb_self_test echoFixture (World.init none) 2147483647
      (List.replicate 63 8388608)).map (fun r => r.1) = some [Msg.success] :=
  ⟨(usb_self_test_verdict echoFixture (World.init none)
      (fun j => if j = 0 then 0xda else if j < 64 then 1 else 0)
      (0xda :: List.replicate 63 1) (by decide)).1,
    by decide⟩

/-! ## Claims about the CAN loopback test -/

theorem loopback_frame :
    frameOf loopback_buf_tx 16 =
      [0xca, 0x01, 0x1d, 0x1f, 0xff, 0xff, 0xff, 0x08, 0x08, 0x07, 0x06, 0x05, 0x04, 0x03,
        0x02, 0x01] := by
  decide

theorem loopback_data_check_eq {σ : Type} (ch : Channel σ) (w : World σ) (sent : List Nat)
    (hs : sent = frameOf loopback_buf_tx 16) :
    loopback_data_check ch w =
      if (sys_write ch w sent).1 < 0 then (Msg.problem, (sys_write ch w sent).2)
      else if (sys_write ch w sent).1 ≠ 16 then
        (Msg.wroteUnexpected 16 (sys_write ch w sent).1, (sys_write ch w sent).2)
      else if (reply ch w sent 64).1 < 0 then (Msg.problem, (reply ch w sent 64).2.2)
      else if (reply ch w sent 64).1 < 16 then
        (Msg.readUnexpected 16 (reply ch w sent 64).1, (reply ch w sent 64).2.2)
      else
        match compareLoop loopback_buf_tx (replyBuf ch w sent 64) 16 0 with
        | some i => (Msg.mismatch i (loopback_buf_tx i) (replyBuf ch w sent 64 i),
            (reply ch w sent 64).2.2)
        | none => (Msg.success, (reply ch w sent 64).2.2) := by
  subst hs
  simp only [loopback_data_check, canctl_write, reply, replyBuf, CANBUS_MSG_SIZE]
  rfl

/-- The one frame the data check writes. -/
theorem framesWritten_loopback_data_check {σ : Type} (ch : Channel σ) (w : World σ) :
    framesWritten (loopback_data_check ch w).2 =
      framesWritten w ++ [frameOf loopback_buf_tx 16] := by
  rw [loopback_data_check_eq ch w _ rfl]
  split_ifs
  · simp [framesWritten_sys_write]
  · simp [framesWritten_sys_write]
  · simp [framesWritten_reply]
  · simp [framesWritten_reply]
  · split <;> simp [framesWritten_reply]

/-- C19: the loopback data check compares only the first 16 received bytes.
With the 16 bytes `sent` written: a read of `rc ≥ 16` bytes whose first 16 bytes
equal `sent` passes, whatever the bytes 16..63 are (the check passes if and only
if the write accepted 16 bytes, `rc ≥ 16` and those 16 bytes agree); a read
with `0 ≤ rc < 16` fails with the length error; and when a byte below 16
differs, the check fails reporting the least such index. -/
theorem loopback_check_first_16 {σ : Type} (ch : Channel σ) (w : World σ) (sent : List Nat)
    (hs : sent = [0xca, 0x01, 0x1d, 0x1f, 0xff, 0xff, 0xff, 0x08, 0x08, 0x07, 0x06, 0x05,
      0x04, 0x03, 0x02, 0x01]) :
    framesWritten (loopback_data_check ch w).2 = framesWritten w ++ [sent] ∧
    ((loopback_data_check ch w).1 = Msg.success ↔
      (sys_write ch w sent).1 = 16 ∧ 16 ≤ (reply ch w sent 64).1 ∧
        ∀ i, i < 16 → replyBuf ch w sent 64 i = sent.getD i 0) ∧
    ((sys_write ch w sent).1 = 16 → 0 ≤ (reply ch w sent 64).1 →
      (reply ch w sent 64).1 < 16 →
      (loopback_data_check ch w).1 = Msg.readUnexpected 16 (reply ch w sent 64).1) ∧
    (∀ i, (sys_write ch w sent).1 = 16 → 16 ≤ (reply ch w sent 64).1 → i < 16 →
      replyBuf ch w sent 64 i ≠ sent.getD i 0 →
      (∀ j, j < i → replyBuf ch w sent 64 j = sent.getD j 0) →
      (loopback_data_check ch w).1 =
        Msg.mismatch i (sent.getD i 0) (replyBuf ch w sent 64 i)) := by
  have hf : sent = frameOf loopback_buf_tx 16 := by rw [hs, loopback_frame]
  have hg : ∀ i, i < 16 → sent.getD i 0 = loopback_buf_tx i := by
    intro i hi
    rw [hf, frameOf_getD _ _ _ hi]
  refine ⟨?_, ?_, ?_, ?_⟩
  · rw [framesWritten_loopback_data_check, ← hf]
  · rw [loopback_data_check_eq ch w sent hf]
    split_ifs with h1 h2 h3 h4
    · simp; intro hw; omega
    · simp; intro hw; exact absurd hw h2
    · simp; intro _ hr; omega
    · simp; intro _ hr; omega
    · have hw : (sys_write ch w sent).1 = 16 := not_not.mp h2
      have hr : 16 ≤ (reply ch w sent 64).1 := not_lt.mp h4
      simp only [hw, hr, true_and]
      rcases hc : compareLoop loopback_buf_tx (replyBuf ch w sent 64) 16 0 with _ | m
      · simp only [true_iff]
        have := (compareLoop_eq_none _ _ _ _).mp hc
        intro i hi
        rw [hg i hi]
        exact (this i (Nat.zero_le _) (by simpa using hi)).symm
      · simp only [false_iff, reduceCtorEq]
        have := (compareLoop_eq_some _ _ _ _ _).mp hc
        intro hall
        have hm : m < 16 := by simpa using this.2.1
        exact this.2.2.1 ((hall m hm).trans (hg m hm)).symm
  · intro hw h0 hlt
    rw [loopback_data_check_eq ch w sent hf]
    simp [hw, not_lt.mpr h0, hlt]
  · intro i hw hr hi hne hbefore
    rw [loopback_data_check_eq ch w sent hf]
    have hc : compareLoop loopback_buf_tx (replyBuf ch w sent 64) 16 0 = some i :=
      (compareLoop_eq_some _ _ _ _ _).mpr
        ⟨Nat.zero_le _, by simpa using hi, fun e => hne (by rw [hg i hi]; exact e.symm),
          fun j _ hj => by rw [← hg j (by omega)]; exact (hbefore j hj).symm⟩
    have h0 : ¬ (reply ch w sent 64).1 < 0 := by omega
    rw [hg i hi]
    simp [hw, not_lt.mpr hr, h0, hc]

/-- C19 on the scripted device: an answer of the 16 bytes sent followed by 48
bytes 0xFF passes the check; a 15-byte answer fails with the length error. -/
theorem loopback_check_first_16_witness :
    (loopback_data_check scripted
        (World.init [[0xca, 0x01, 0x1d, 0x1f, 0xff, 0xff, 0xff, 0x08, 0x08, 0x07, 0x06, 0x05,
          0x04, 0x03, 0x02, 0x01] ++ List.replicate 48 0xff])).1 = Msg.success ∧
      (loopback_data_check scripted
        (World.init [[0xca, 0x01, 0x1d, 0x1f, 0xff, 0xff, 0xff, 0x08, 0x08, 0x07, 0x06, 0x05,
          0x04, 0x03, 0x02]])).1 = Msg.readUnexpected 16 15 :=
  ⟨((loopback_check_first_16 scripted
      (World.init [[0xca, 0x01, 0x1d, 0x1f, 0xff, 0xff, 0xff, 0x08, 0x08, 0x07, 0x06, 0x05,
        0x04, 0x03, 0x02, 0x01] ++ List.replicate 48 0xff]) _ rfl).2.1).mpr
      ⟨by decide, by decide, by decide⟩,
    (loopback_check_first_16 scripted
      (World.init [[0xca, 0x01, 0x1d, 0x1f, 0xff, 0xff, 0xff, 0x08, 0x08, 0x07, 0x06, 0x05,
        0x04, 0x03, 0x02]]) _ rfl).2.2.1 (by decide) (by decide) (by decide)⟩

/-- On the loopback fixture `canctl_set_config` succeeds and leaves the byte it
sent as the stored mode, with nothing pending. -/
theorem loopbackFixture_set_config (w : World CanFixture) (stack : Buf) (cfg : Int)
    (speed : Nat) :
    (canctl_set_config loopbackFixture w stack cfg speed).1 = 0 ∧
      (canctl_set_config loopbackFixture w stack cfg speed).2.dev =
        { mode := toByte cfg, pending := none } := by
  have hb : toByte cfg % 256 = toByte cfg := by
    unfold toByte; omega
  by_cases h : cfg = CANBUS_CFG_CONFIGURATION
  · subst h
    rw [canctl_set_config_eq_configuration loopbackFixture w stack speed _ rfl]
    simp [reply, replyBuf, bufAfter, canctl_read, sys_select, sys_read, sys_write,
      loopbackFixture, store, zeroed, toByte, CANBUS_MSG_SIZE, CANBUS_CFG_CONFIGURATION]
  · rw [canctl_set_config_eq_other loopbackFixture w stack cfg speed h, hb]
    simp [reply, replyBuf, bufAfter, canctl_read, sys_select, sys_read, sys_write,
      loopbackFixture, store, zeroed, CANBUS_MSG_SIZE]

/-- On the loopback fixture in Loopback mode the data check passes and leaves
the fixture in Loopback mode. -/
theorem loopbackFixture_data_check (w : World CanFixture) (h : w.dev.mode = 2) :
    (loopback_data_check loopbackFixture w).1 = Msg.success ∧
      (loopback_data_check loopbackFixture w).2.dev = { mode := 2, pending := none } := by
  have hrd : reply loopbackFixture w (frameOf loopback_buf_tx 16) 64 =
      (16, some (store zeroed (frameOf loopback_buf_tx 16)),
        (reply loopbackFixture w (frameOf loopback_buf_tx 16) 64).2.2) ∧
      (reply loopbackFixture w (frameOf loopback_buf_tx 16) 64).2.2.dev =
        { mode := 2, pending := none } := by
    rw [loopback_frame]
    simp [reply, canctl_read, sys_select, sys_read, sys_write, loopbackFixture, h,
      CANBUS_MSG_SIZE]
  have hw : (sys_write loopbackFixture w (frameOf loopback_buf_tx 16)).1 = 16 := by
    rw [loopback_frame]
    simp [sys_write, loopbackFixture, h]
  have hcmp : compareLoop loopback_buf_tx (store zeroed (frameOf loopback_buf_tx 16)) 16 0 =
      none := by
    decide
  rw [loopback_data_check_eq loopbackFixture w _ rfl]
  have hb : replyBuf loopbackFixture w (frameOf loopback_buf_tx 16) 64 =
      store zeroed (frameOf loopback_buf_tx 16) := by
    unfold replyBuf bufAfter
    rw [hrd.1]
    rfl
  have h1 : (reply loopbackFixture w (frameOf loopback_buf_tx 16) 64).1 = 16 := by
    rw [hrd.1]
  simp only [hw, h1, hb, hcmp]
  exact ⟨by simp, by simpa using hrd.2⟩

/-- C18: the CAN loopback test over the faithful fixture with loopback.  From
any state of the fixture the test writes exactly the five frames
`CF 04 00 0F 42 40`, `CF 02`, `CA 01 1D 1F FF FF FF 08 08 07 06 05 04 03 02 01`,
`CF 04 00 0F 42 40`, `CF 00`, in this order; the fixture echoes the 16 data
bytes, the test prints the success line and nothing else, and the mode stored
in the fixture at the end is Normal. -/
theorem loopback_test_on_fixture (w : World CanFixture) (stack : Nat → Buf) :
    (mnu_can_loopback_test loopbackFixture w stack).1 = [Msg.success] ∧
      framesWritten (mnu_can_loopback_test loopbackFixture w stack).2 =
        framesWritten w ++
          [[0xcf, 0x04, 0x00, 0x0f, 0x42, 0x40], [0xcf, 0x02],
           [0xca, 0x01, 0x1d, 0x1f, 0xff, 0xff, 0xff, 0x08, 0x08, 0x07, 0x06, 0x05, 0x04, 0x03,
             0x02, 0x01],
           [0xcf, 0x04, 0x00, 0x0f, 0x42, 0x40], [0xcf, 0x00]] ∧
      ((mnu_can_loopback_test loopbackFixture w stack).2.dev.mode : Int) = CANBUS_CFG_NORMAL ∧
      (1000000 : Nat) = 0x000f4240 := by
  have a1 := loopbackFixture_set_config w (stack 0) CANBUS_CFG_CONFIGURATION CANBUS_MAX_BPS
  have f1 := (set_config_configuration loopbackFixture w (stack 0) CANBUS_MAX_BPS _ rfl).1
  have a2 := loopbackFixture_set_config
    (canctl_set_config loopbackFixture w (stack 0) CANBUS_CFG_CONFIGURATION CANBUS_MAX_BPS).2
    (stack 1) CANBUS_CFG_LOOPBACK CANBUS_MAX_BPS
  have f2 := set_config_other loopbackFixture
    (canctl_set_config loopbackFixture w (stack 0) CANBUS_CFG_CONFIGURATION CANBUS_MAX_BPS).2
    (stack 1) CANBUS_CFG_LOOPBACK CANBUS_MAX_BPS (by decide)
  have a3 := loopbackFixture_data_check _ (show _ = 2 by rw [a2.2]; rfl)
  have f3 := framesWritten_loopback_data_check loopbackFixture
    (canctl_set_config loopbackFixture
      (canctl_set_config loopbackFixture w (stack 0) CANBUS_CFG_CONFIGURATION CANBUS_MAX_BPS).2
      (stack 1) CANBUS_CFG_LOOPBACK CANBUS_MAX_BPS).2
  have a4 := loopbackFixture_set_config
    (loopback_data_check loopbackFixture
      (canctl_set_config loopbackFixture
        (canctl_set_config loopbackFixture w (stack 0) CANBUS_CFG_CONFIGURATION CANBUS_MAX_BPS).2
        (stack 1) CANBUS_CFG_LOOPBACK CANBUS_MAX_BPS).2).2
    (stack 2) CANBUS_CFG_CONFIGURATION CANBUS_MAX_BPS
  have f4 := (set_config_configuration loopbackFixture
    (loopback_data_check loopbackFixture
      (canctl_set_config loopbackFixture
        (canctl_set_config loopbackFixture w (stack 0) CANBUS_CFG_CONFIGURATION CANBUS_MAX_BPS).2
        (stack 1) CANBUS_CFG_LOOPBACK CANBUS_MAX_BPS).2).2
    (stack 2) CANBUS_MAX_BPS _ rfl).1
  have a5 := loopbackFixture_set_config
    (canctl_set_config loopbackFixture
      (loopback_data_check loopbackFixture
        (canctl_set_config loopbackFixture
          (canctl_set_config loopbackFixture w (stack 0) CANBUS_CFG_CONFIGURATION
            CANBUS_MAX_BPS).2
          (stack 1) CANBUS_CFG_LOOPBACK CANBUS_MAX_BPS).2).2
      (stack 2) CANBUS_CFG_CONFIGURATION CANBUS_MAX_BPS).2
    (stack 3) CANBUS_CFG_NORMAL CANBUS_MAX_BPS
  have f5 := set_config_other loopbackFixture
    (canctl_set_config loopbackFixture
      (loopback_data_check loopbackFixture
        (canctl_set_config loopbackFixture
          (canctl_set_config loopbackFixture w (stack 0) CANBUS_CFG_CONFIGURATION
            CANBUS_MAX_BPS).2
          (stack 1) CANBUS_CFG_LOOPBACK CANBUS_MAX_BPS).2).2
      (stack 2) CANBUS_CFG_CONFIGURATION CANBUS_MAX_BPS).2
    (stack 3) CANBUS_CFG_NORMAL CANBUS_MAX_BPS (by decide)
  have e : mnu_can_loopback_test loopbackFixture w stack =
      ([Msg.success],
        (canctl_set_config loopbackFixture
          (canctl_set_config loopbackFixture
            (loopback_data_check loopbackFixture
              (canctl_set_config loopbackFixture
                (canctl_set_config loopbackFixture w (stack 0) CANBUS_CFG_CONFIGURATION
                  CANBUS_MAX_BPS).2
                (stack 1) CANBUS_CFG_LOOPBACK CANBUS_MAX_BPS).2).2
            (stack 2) CANBUS_CFG_CONFIGURATION CANBUS_MAX_BPS).2
          (stack 3) CANBUS_CFG_NORMAL CANBUS_MAX_BPS).2) := by
    unfold mnu_can_loopback_test
    simp [a1.1, a2.1, a3.1, a4.1, a5.1]
  rw [e]
  refine ⟨rfl, ?_, ?_, by norm_num⟩
  · simp only []
    rw [f5, f4, f3, f2, f1, loopback_frame]
    simp [toByte, CANBUS_MAX_BPS, CANBUS_CFG_LOOPBACK, CANBUS_CFG_NORMAL]
  · simp only []
    rw [a5.2]
    rfl

/-! ## Claims about the firmware version and the error state -/

/-- C21: `canctl_get_firmware_version` writes exactly the one frame `[0xEC, 0]`.
When the write accepted 2 bytes, the read did not fail and response byte 0 is
0xEC, it returns the 3 bytes at response positions 1..3.  It returns NULL when
the write does not accept 2 bytes, when the read fails, and when response byte
0 is not 0xEC. -/
theorem get_firmware_version_exchange {σ : Type} (ch : Channel σ) (w : World σ) :
    framesWritten (canctl_get_firmware_version ch w).2 = framesWritten w ++ [[0xec, 0]] ∧
    ((sys_write ch w [0xec, 0]).1 = 2 → 0 ≤ (reply ch w [0xec, 0] 64).1 →
      replyBuf ch w [0xec, 0] 64 0 = 0xec →
      (canctl_get_firmware_version ch w).1 =
        some [replyBuf ch w [0xec, 0] 64 1, replyBuf ch w [0xec, 0] 64 2,
          replyBuf ch w [0xec, 0] 64 3]) ∧
    ((sys_write ch w [0xec, 0]).1 ≠ 2 → (canctl_get_firmware_version ch w).1 = none) ∧
    ((reply ch w [0xec, 0] 64).1 < 0 → (canctl_get_firmware_version ch w).1 = none) ∧
    (replyBuf ch w [0xec, 0] 64 0 ≠ 0xec → (canctl_get_firmware_version ch w).1 = none) := by
  rw [canctl_get_firmware_version_eq]
  refine ⟨?_, ?_, ?_, ?_, ?_⟩
  · split_ifs <;> simp [framesWritten_sys_write, framesWritten_reply]
  · intro hw hr h0
    simp [hw, not_lt.mpr hr, h0]
  · intro hw
    simp [hw]
  · intro hr
    split_ifs <;> simp_all
  · intro h0
    split_ifs <;> simp_all

/-- C21 on a device that answers `[0xEC, 1, 2, 3]`: the version is `1, 2, 3`. -/
theorem get_firmware_version_exchange_witness :
    (canctl_get_firmware_version scripted (World.init [[0xec, 1, 2, 3]])).1 = some [1, 2, 3] ∧
      (canctl_get_firmware_version scripted (World.init [[0xed, 1, 2, 3]])).1 = none :=
  ⟨(get_firmware_version_exchange scripted (World.init [[0xec, 1, 2, 3]])).2.1
      (by decide) (by decide) (by decide),
    (get_firmware_version_exchange scripted (World.init [[0xed, 1, 2, 3]])).2.2.2.2
      (by decide)⟩

/-- A flag that is one bit: `byte & 2^k` equals `2^k` exactly when bit `k` of
`byte` is set. -/
theorem and_two_pow_eq_iff (b k : Nat) : b &&& 2 ^ k = 2 ^ k ↔ b.testBit k = true := by
  constructor
  · intro h
    have := congrArg (fun n => Nat.testBit n k) h
    simpa [Nat.testBit_and, Nat.testBit_two_pow_self] using this
  · intro h
    apply Nat.eq_of_testBit_eq
    intro i
    rw [Nat.testBit_and, Nat.testBit_two_pow]
    by_cases hki : k = i
    · subst hki
      simp [h]
    · simp [hki]

theorem GET_ESTATE_STR_two_pow (b k : Nat) :
    GET_ESTATE_STR b (2 ^ k) = "yes" ↔ b.testBit k = true := by
  unfold GET_ESTATE_STR
  rw [← and_two_pow_eq_iff]
  split_ifs with h
  · simp [h]
  · simp only [h, iff_false]
    decide

/-- C22: `canctl_get_error_state` writes exactly the one frame `[0xCE, 0]` and,
when the write accepted 2 bytes, the read did not fail and response byte 0 is
0xCE, returns the 3 bytes `{tx_errors, rx_errors, flags}` at response positions
1, 2, 3.  For every flags byte, `GET_ESTATE_STR` gives "yes" for a flag if and
only if the bit of that flag is set (TXRX_WARN bit 0, RX_WARN bit 1, TX_WARN
bit 2, RX_PASSIVE bit 3, TX_PASSIVE bit 4, TX_OFF bit 5), so the answer for one
flag does not depend on the other bits; otherwise it gives "no". -/
theorem get_error_state_and_flags {σ : Type} (ch : Channel σ) (w : World σ) (stack : Buf) :
    framesWritten (canctl_get_error_state ch w stack).2 = framesWritten w ++ [[0xce, 0]] ∧
    ((sys_write ch w [0xce, 0]).1 = 2 → 0 ≤ (reply ch w [0xce, 0] 64).1 →
      replyBuf ch w [0xce, 0] 64 0 = 0xce →
      (canctl_get_error_state ch w stack).1 =
        some [replyBuf ch w [0xce, 0] 64 1, replyBuf ch w [0xce, 0] 64 2,
          replyBuf ch w [0xce, 0] 64 3]) ∧
    (CANBUS_ESTATE_TXRX_WARN = 0x01 ∧ CANBUS_ESTATE_RX_WARN = 0x02 ∧
      CANBUS_ESTATE_TX_WARN = 0x04 ∧ CANBUS_ESTATE_RX_PASSIVE = 0x08 ∧
      CANBUS_ESTATE_TX_PASSIVE = 0x10 ∧ CANBUS_ESTATE_TX_OFF = 0x20) ∧
    (∀ flags : Nat,
      (GET_ESTATE_STR flags CANBUS_ESTATE_TXRX_WARN = "yes" ↔ flags.testBit 0 = true) ∧
      (GET_ESTATE_STR flags CANBUS_ESTATE_RX_WARN = "yes" ↔ flags.testBit 1 = true) ∧
      (GET_ESTATE_STR flags CANBUS_ESTATE_TX_WARN = "yes" ↔ flags.testBit 2 = true) ∧
      (GET_ESTATE_STR flags CANBUS_ESTATE_RX_PASSIVE = "yes" ↔ flags.testBit 3 = true) ∧
      (GET_ESTATE_STR flags CANBUS_ESTATE_TX_PASSIVE = "yes" ↔ flags.testBit 4 = true) ∧
      (GET_ESTATE_STR flags CANBUS_ESTATE_TX_OFF = "yes" ↔ flags.testBit 5 = true)) ∧
    (∀ flags flag : Nat,
      GET_ESTATE_STR flags flag = "yes" ∨ GET_ESTATE_STR flags flag = "no") := by
  refine ⟨?_, ?_, ⟨rfl, rfl, rfl, rfl, rfl, rfl⟩, ?_, ?_⟩
  · rw [canctl_get_error_state_eq]
    split_ifs <;> simp [framesWritten_sys_write, framesWritten_reply]
  · intro hw hr h0
    rw [canctl_get_error_state_eq]
    simp [hw, not_lt.mpr hr, h0]
  · intro flags
    exact ⟨GET_ESTATE_STR_two_pow flags 0, GET_ESTATE_STR_two_pow flags 1,
      GET_ESTATE_STR_two_pow flags 2, GET_ESTATE_STR_two_pow flags 3,
      GET_ESTATE_STR_two_pow flags 4, GET_ESTATE_STR_two_pow flags 5⟩
  · intro flags flag
    unfold GET_ESTATE_STR
    split_ifs <;> simp

/-- C22 on a device that answers `[0xCE, 3, 7, 0x21]`: 3 transmit errors, 7
receive errors, and the flags TXRX_WARN and TX_OFF. -/
theorem get_error_state_and_flags_witness :
    (canctl_get_error_state scripted (World.init [[0xce, 3, 7, 0x21]]) zeroed).1 =
      some [3, 7, 0x21] :=
  (get_error_state_and_flags scripted (World.init [[0xce, 3, 7, 0x21]]) zeroed).2.1
    (by decide) (by decide) (by decide)

/-! ## The received length is not looked at; the output on failure -/

/-- C28: the commands do not check how many bytes were received.  Whenever the
write was accepted and `canctl_read` returned any count `rc ≥ 0`, the result is
a function of the array contents alone (the array was zeroed, so the bytes
beyond `rc` are 0): `canctl_get_config` returns byte 1 if byte 0 is 0xCC and -1
otherwise, and `gpio_read_pin` returns 0 with the bytes 2..9 as pins if bytes 0
and 1 are `id` and 0x01, and -1 otherwise.  So the 1-byte response `[0xCC]`
makes `canctl_get_config` return Normal (0), and the 2-byte response
`[0xB0, 0x01]` makes `gpio_read_pin` for the kind type succeed with all 8 pins
reported as 0. -/
theorem received_length_not_checked {σ : Type} (ch : Channel σ) (w : World σ) (stack : Buf) :
    ((sys_write ch w [0xcc, 0]).1 = 2 → 0 ≤ (reply ch w [0xcc, 0] 64).1 →
      (canctl_get_config ch w stack).1 =
        if replyBuf ch w [0xcc, 0] 64 0 = 0xcc then (replyBuf ch w [0xcc, 0] 64 1 : Int)
        else -1) ∧
    (∀ (op_type : Int) (id : Nat) (pins : Buf),
      ((op_type = PIN_TYPE ∧ id = 0xb0) ∨ (op_type = PIN_DATA ∧ id = 0xb1)) →
      (sys_write ch w [id, 0x01]).1 = 2 → 0 ≤ (reply ch w [id, 0x01] 10).1 →
      ((gpio_read_pin ch w stack op_type pins).1 =
          if replyBuf ch w [id, 0x01] 10 0 = id ∧ replyBuf ch w [id, 0x01] 10 1 = 0x01 then 0
          else -1) ∧
        (replyBuf ch w [id, 0x01] 10 0 = id → replyBuf ch w [id, 0x01] 10 1 = 0x01 →
          ∀ k, k < 8 →
            (gpio_read_pin ch w stack op_type pins).2.1 k =
              replyBuf ch w [id, 0x01] 10 (2 + k))) ∧
    ((reply scripted (World.init [[0xcc]]) [0xcc, 0] 64).1 = 1 ∧
      (canctl_get_config scripted (World.init [[0xcc]]) zeroed).1 = CANBUS_CFG_NORMAL) ∧
    ((reply scripted (World.init [[0xb0, 0x01]]) [0xb0, 0x01] 10).1 = 2 ∧
      (gpio_read_pin scripted (World.init [[0xb0, 0x01]]) zeroed PIN_TYPE
        (fun _ => 0xff)).1 = 0 ∧
      frameOf (gpio_read_pin scripted (World.init [[0xb0, 0x01]]) zeroed PIN_TYPE
        (fun _ => 0xff)).2.1 8 = [0, 0, 0, 0, 0, 0, 0, 0]) := by
  refine ⟨?_, ?_, by decide, by decide⟩
  · intro hw hr
    rw [canctl_get_config_eq]
    simp only [hw, not_lt.mpr hr, ne_eq, not_true_eq_false, if_false]
    split_ifs <;> simp_all
  · intro op_type id pins hid hw hr
    have hid2 : id = if op_type = PIN_TYPE then 0xb0 else 0xb1 := by
      rcases hid with ⟨h1, h2⟩ | ⟨h1, h2⟩ <;> subst h1 <;> subst h2 <;> decide
    rw [gpio_read_pin_eq ch w stack op_type pins id hid2]
    simp only [hw, not_lt.mpr hr, ne_eq, not_true_eq_false, if_false]
    constructor
    · split_ifs <;> simp_all
    · intro h0 h1 k hk
      have hm : ∀ j, replyBuf ch w [id, 0x01] 10 j % 256 = replyBuf ch w [id, 0x01] 10 j :=
        fun j => Nat.mod_eq_of_lt (replyBuf_lt ch w _ 10 j)
      simp only [h0, h1, not_true_eq_false, if_false]
      interval_cases k <;> simp [setb, hm]

/-- C29: failure leaves the caller's output untouched.  Whenever `gpio_read_pin`
returns -1 the caller's pin array is the one passed in, and whenever
`gpio_get_iom_or_sku` returns -1 the caller's `outbuf` is the one passed in;
both return only 0 or -1, and the output is assigned only when 0 is returned. -/
theorem output_untouched_on_failure {σ : Type} (ch : Channel σ) (w : World σ) (stack : Buf) :
    (∀ (op_type : Int) (pins : Buf),
      ((gpio_read_pin ch w stack op_type pins).1 = -1 →
        (gpio_read_pin ch w stack op_type pins).2.1 = pins) ∧
      ((gpio_read_pin ch w stack op_type pins).1 = 0 ∨
        (gpio_read_pin ch w stack op_type pins).1 = -1)) ∧
    (∀ (op_select : Int) (out : Buf),
      ((gpio_get_iom_or_sku ch w stack op_select out).1 = -1 →
        (gpio_get_iom_or_sku ch w stack op_select out).2.1 = out) ∧
      ((gpio_get_iom_or_sku ch w stack op_select out).1 = 0 ∨
        (gpio_get_iom_or_sku ch w stack op_select out).1 = -1)) := by
  constructor
  · intro op_type pins
    rw [gpio_read_pin_eq ch w stack op_type pins _ rfl]
    split_ifs <;> simp
  · intro op_select out
    rw [gpio_get_iom_or_sku_eq ch w stack op_select out _ rfl]
    split_ifs <;> simp

/-- C29 on a device that answers the type read with the wrong subcommand echo
`[0xB0, 0x02, ..]`: the result is -1 and the caller's pins, all 0xFF before,
are all 0xFF after. -/
theorem output_untouched_on_failure_witness :
    (gpio_read_pin scripted (World.init [[0xb0, 0x02, 1, 1, 1, 1, 1, 1, 1, 1]]) zeroed PIN_TYPE
        (fun _ => 0xff)).1 = -1 ∧
      (gpio_read_pin scripted (World.init [[0xb0, 0x02, 1, 1, 1, 1, 1, 1, 1, 1]]) zeroed PIN_TYPE
        (fun _ => 0xff)).2.1 = fun _ => 0xff :=
  ⟨by decide,
    ((output_untouched_on_failure scripted (World.init [[0xb0, 0x02, 1, 1, 1, 1, 1, 1, 1, 1]])
      zeroed).1 PIN_TYPE (fun _ => 0xff)).1 (by decide)⟩

/-- C28 at the 1-byte response `[0xCC]`. -/
theorem received_length_not_checked_witness :
    (canctl_get_config scripted (World.init [[0xcc]]) zeroed).1 =
      if replyBuf scripted (World.init [[0xcc]]) [0xcc, 0] 64 0 = 0xcc then
        (replyBuf scripted (World.init [[0xcc]]) [0xcc, 0] 64 1 : Int)
      else -1 :=
  (received_length_not_checked scripted (World.init [[0xcc]]) zeroed).1 (by decide) (by decide)

/-! ## The steps of the CAN loopback test -/

theorem framesWritten_set_config_max {σ : Type} (ch : Channel σ) (w : World σ) (stack : Buf) :
    framesWritten (canctl_set_config ch w stack CANBUS_CFG_CONFIGURATION CANBUS_MAX_BPS).2 =
      framesWritten w ++ [[0xcf, 0x04, 0x00, 0x0f, 0x42, 0x40]] :=
  (set_config_configuration ch w stack CANBUS_MAX_BPS _ (by decide)).1

theorem framesWritten_set_config_loopback {σ : Type} (ch : Channel σ) (w : World σ)
    (stack : Buf) (speed : Nat) :
    framesWritten (canctl_set_config ch w stack CANBUS_CFG_LOOPBACK speed).2 =
      framesWritten w ++ [[0xcf, 0x02]] :=
  set_config_other ch w stack CANBUS_CFG_LOOPBACK speed (by decide)

theorem framesWritten_set_config_normal {σ : Type} (ch : Channel σ) (w : World σ)
    (stack : Buf) (speed : Nat) :
    framesWritten (canctl_set_config ch w stack CANBUS_CFG_NORMAL speed).2 =
      framesWritten w ++ [[0xcf, 0x00]] :=
  set_config_other ch w stack CANBUS_CFG_NORMAL speed (by decide)

/-- The loopback test as its five steps `r1, r2, d, r3, r4`, and the frames
written up to the end of each step. -/
theorem loopback_test_steps {σ : Type} (ch : Channel σ) (w : World σ) (stack : Nat → Buf)
    (r1 r2 r3 r4 : Int × World σ) (d : Msg × World σ)
    (h1 : r1 = canctl_set_config ch w (stack 0) CANBUS_CFG_CONFIGURATION CANBUS_MAX_BPS)
    (h2 : r2 = canctl_set_config ch r1.2 (stack 1) CANBUS_CFG_LOOPBACK CANBUS_MAX_BPS)
    (hd : d = loopback_data_check ch r2.2)
    (h3 : r3 = canctl_set_config ch d.2 (stack 2) CANBUS_CFG_CONFIGURATION CANBUS_MAX_BPS)
    (h4 : r4 = canctl_set_config ch r3.2 (stack 3) CANBUS_CFG_NORMAL CANBUS_MAX_BPS) :
    mnu_can_loopback_test ch w stack =
      (if r1.1 < 0 then
        ([Msg.configProblem (canctl_config_to_string CANBUS_CFG_CONFIGURATION)], r1.2)
      else if r2.1 < 0 then
        ([Msg.configProblem (canctl_config_to_string CANBUS_CFG_LOOPBACK)], r2.2)
      else if d.1 ≠ Msg.success then ([d.1], d.2)
      else if r3.1 < 0 then
        ([Msg.success, Msg.configProblem (canctl_config_to_string CANBUS_CFG_CONFIGURATION)],
          r3.2)
      else if r4.1 < 0 then
        ([Msg.success, Msg.configProblem (canctl_config_to_string CANBUS_CFG_NORMAL)], r4.2)
      else ([Msg.success], r4.2)) ∧
    framesWritten r1.2 = framesWritten w ++ [[0xcf, 0x04, 0x00, 0x0f, 0x42, 0x40]] ∧
    framesWritten r2.2 =
      framesWritten w ++ [[0xcf, 0x04, 0x00, 0x0f, 0x42, 0x40], [0xcf, 0x02]] ∧
    framesWritten d.2 =
      framesWritten w ++ [[0xcf, 0x04, 0x00, 0x0f, 0x42, 0x40], [0xcf, 0x02],
        [0xca, 0x01, 0x1d, 0x1f, 0xff, 0xff, 0xff, 0x08, 0x08, 0x07, 0x06, 0x05, 0x04, 0x03,
          0x02, 0x01]] ∧
    framesWritten r3.2 =
      framesWritten w ++ [[0xcf, 0x04, 0x00, 0x0f, 0x42, 0x40], [0xcf, 0x02],
        [0xca, 0x01, 0x1d, 0x1f, 0xff, 0xff, 0xff, 0x08, 0x08, 0x07, 0x06, 0x05, 0x04, 0x03,
          0x02, 0x01], [0xcf, 0x04, 0x00, 0x0f, 0x42, 0x40]] ∧
    framesWritten r4.2 =
      framesWritten w ++ [[0xcf, 0x04, 0x00, 0x0f, 0x42, 0x40], [0xcf, 0x02],
        [0xca, 0x01, 0x1d, 0x1f, 0xff, 0xff, 0xff, 0x08, 0x08, 0x07, 0x06, 0x05, 0x04, 0x03,
          0x02, 0x01], [0xcf, 0x04, 0x00, 0x0f, 0x42, 0x40], [0xcf, 0x00]] := by
  have f1 : framesWritten r1.2 = framesWritten w ++ [[0xcf, 0x04, 0x00, 0x0f, 0x42, 0x40]] := by
    rw [h1, framesWritten_set_config_max]
  have f2 : framesWritten r2.2 =
      framesWritten w ++ [[0xcf, 0x04, 0x00, 0x0f, 0x42, 0x40], [0xcf, 0x02]] := by
    rw [h2, framesWritten_set_config_loopback, f1, List.append_assoc]
    rfl
  have f3 : framesWritten d.2 =
      framesWritten w ++ [[0xcf, 0x04, 0x00, 0x0f, 0x42, 0x40], [0xcf, 0x02],
        [0xca, 0x01, 0x1d, 0x1f, 0xff, 0xff, 0xff, 0x08, 0x08, 0x07, 0x06, 0x05, 0x04, 0x03,
          0x02, 0x01]] := by
    rw [hd, framesWritten_loopback_data_check, f2, loopback_frame, List.append_assoc]
    rfl
  have f4 : framesWritten r3.2 =
      framesWritten w ++ [[0xcf, 0x04, 0x00, 0x0f, 0x42, 0x40], [0xcf, 0x02],
        [0xca, 0x01, 0x1d, 0x1f, 0xff, 0xff, 0xff, 0x08, 0x08, 0x07, 0x06, 0x05, 0x04, 0x03,
          0x02, 0x01], [0xcf, 0x04, 0x00, 0x0f, 0x42, 0x40]] := by
    rw [h3, framesWritten_set_config_max, f3, List.append_assoc]
    rfl
  have f5 : framesWritten r4.2 =
      framesWritten w ++ [[0xcf, 0x04, 0x00, 0x0f, 0x42, 0x40], [0xcf, 0x02],
        [0xca, 0x01, 0x1d, 0x1f, 0xff, 0xff, 0xff, 0x08, 0x08, 0x07, 0x06, 0x05, 0x04, 0x03,
          0x02, 0x01], [0xcf, 0x04, 0x00, 0x0f, 0x42, 0x40], [0xcf, 0x00]] := by
    rw [h4, framesWritten_set_config_normal, f4, List.append_assoc]
    rfl
  refine ⟨?_, f1, f2, f3, f4, f5⟩
  subst h1 h2 hd h3 h4
  rfl

/-- A property of the device that the wait and the read preserve holds after
`canctl_read`. -/
theorem canctl_read_dev_inv {σ : Type} (ch : Channel σ) (P : σ → Prop)
    (hsel : ∀ s tv, P s → P (ch.select s tv).2) (hrd : ∀ s len, P s → P (ch.read s len).2)
    (w : World σ) (b : Option Buf) (len : Nat) (h : P w.dev) :
    P (canctl_read ch w b len).2.2.dev := by
  cases b with
  | none => exact h
  | some b =>
    by_cases hl : len > CANBUS_MSG_SIZE
    · simpa [canctl_read, hl] using h
    · have hs1 := hsel w.dev (if w.timeout_ms < 0 then none
        else some (0, int32 (w.timeout_ms * 1000))) h
      rcases hs : (ch.select w.dev (if w.timeout_ms < 0 then none
          else some (0, int32 (w.timeout_ms * 1000)))).1 with _ | _ | (_ | _)
      · simpa [canctl_read, sys_select, hl, hs] using hs1
      · simpa [canctl_read, sys_select, hl, hs] using hs1
      · simpa [canctl_read, sys_select, hl, hs] using hs1
      · have hr1 := hrd _ len hs1
        rcases hr : (ch.read (ch.select w.dev (if w.timeout_ms < 0 then none
            else some (0, int32 (w.timeout_ms * 1000)))).2 len).1 with _ | d <;>
          simpa [canctl_read, sys_select, sys_read, hl, hs, hr] using hr1

/-- The state after the data check is the state after its write or the state
after its read. -/
theorem loopback_data_check_world {σ : Type} (ch : Channel σ) (w : World σ)
    (P : World σ → Prop) (hw : P (sys_write ch w (frameOf loopback_buf_tx 16)).2)
    (hr : P (reply ch w (frameOf loopback_buf_tx 16) 64).2.2) :
    P (loopback_data_check ch w).2 := by
  rw [loopback_data_check_eq ch w _ rfl]
  split_ifs
  · exact hw
  · exact hw
  · exact hr
  · exact hr
  · split <;> exact hr

/-- On the fixture with any echo `canctl_set_config` succeeds and leaves the
byte it sent as the stored mode. -/
theorem loopbackFixtureWith_set_config (g : List Nat → List Nat) (w : World CanFixture)
    (stack : Buf) (cfg : Int) (speed : Nat) :
    (canctl_set_config (loopbackFixtureWith g) w stack cfg speed).1 = 0 ∧
      (canctl_set_config (loopbackFixtureWith g) w stack cfg speed).2.dev.mode = toByte cfg := by
  have hb : toByte cfg % 256 = toByte cfg := by
    unfold toByte; omega
  by_cases h : cfg = CANBUS_CFG_CONFIGURATION
  · subst h
    rw [canctl_set_config_eq_configuration (loopbackFixtureWith g) w stack speed _ rfl]
    simp [reply, replyBuf, bufAfter, canctl_read, sys_select, sys_read, sys_write,
      loopbackFixtureWith, store, zeroed, toByte, CANBUS_MSG_SIZE, CANBUS_CFG_CONFIGURATION]
  · rw [canctl_set_config_eq_other (loopbackFixtureWith g) w stack cfg speed h, hb]
    simp [reply, replyBuf, bufAfter, canctl_read, sys_select, sys_read, sys_write,
      loopbackFixtureWith, store, zeroed, CANBUS_MSG_SIZE]

/-- On the fixture with any echo the data check leaves the stored mode as it
was. -/
theorem loopbackFixtureWith_data_check_mode (g : List Nat → List Nat) (w : World CanFixture) :
    (loopback_data_check (loopbackFixtureWith g) w).2.dev.mode = w.dev.mode := by
  have hwr : (sys_write (loopbackFixtureWith g) w (frameOf loopback_buf_tx 16)).2.dev.mode =
      w.dev.mode := by
    rw [loopback_frame]
    simp only [sys_write, loopbackFixtureWith]
    split_ifs <;> simp_all
  apply loopback_data_check_world (loopbackFixtureWith g) w (fun wf => wf.dev.mode = w.dev.mode)
  · exact hwr
  · unfold reply
    exact canctl_read_dev_inv (loopbackFixtureWith g) (fun s => s.mode = w.dev.mode)
      (fun s tv hs => by simpa [loopbackFixtureWith] using hs)
      (fun s len hs => by simpa [loopbackFixtureWith] using hs) _ _ _ hwr

/-- On the fixture with any echo, a loopback test that does not print exactly
the success line stopped at the data check: three frames were written and the
fixture is in Loopback mode. -/
theorem loopbackFixtureWith_failure (g : List Nat → List Nat) (w : World CanFixture)
    (stack : Nat → Buf)
    (hf : (mnu_can_loopback_test (loopbackFixtureWith g) w stack).1 ≠ [Msg.success]) :
    framesWritten (mnu_can_loopback_test (loopbackFixtureWith g) w stack).2 =
        framesWritten w ++ [[0xcf, 0x04, 0x00, 0x0f, 0x42, 0x40], [0xcf, 0x02],
          [0xca, 0x01, 0x1d, 0x1f, 0xff, 0xff, 0xff, 0x08, 0x08, 0x07, 0x06, 0x05, 0x04, 0x03,
            0x02, 0x01]] ∧
      (mnu_can_loopback_test (loopbackFixtureWith g) w stack).2.dev.mode = 2 := by
  obtain ⟨e, -, -, f3, -, -⟩ := loopback_test_steps (loopbackFixtureWith g) w stack _ _ _ _ _
    rfl rfl rfl rfl rfl
  have a1 := (loopbackFixtureWith_set_config g w (stack 0) CANBUS_CFG_CONFIGURATION
    CANBUS_MAX_BPS).1
  have a2 := loopbackFixtureWith_set_config g
    (canctl_set_config (loopbackFixtureWith g) w (stack 0) CANBUS_CFG_CONFIGURATION
      CANBUS_MAX_BPS).2 (stack 1) CANBUS_CFG_LOOPBACK CANBUS_MAX_BPS
  have a3 := (loopbackFixtureWith_set_config g
    (loopback_data_check (loopbackFixtureWith g)
      (canctl_set_config (loopbackFixtureWith g)
        (canctl_set_config (loopbackFixtureWith g) w (stack 0) CANBUS_CFG_CONFIGURATION
          CANBUS_MAX_BPS).2 (stack 1) CANBUS_CFG_LOOPBACK CANBUS_MAX_BPS).2).2
    (stack 2) CANBUS_CFG_CONFIGURATION CANBUS_MAX_BPS).1
  have a4 := (loopbackFixtureWith_set_config g
    (canctl_set_config (loopbackFixtureWith g)
      (loopback_data_check (loopbackFixtureWith g)
        (canctl_set_config (loopbackFixtureWith g)
          (canctl_set_config (loopbackFixtureWith g) w (stack 0) CANBUS_CFG_CONFIGURATION
            CANBUS_MAX_BPS).2 (stack 1) CANBUS_CFG_LOOPBACK CANBUS_MAX_BPS).2).2
      (stack 2) CANBUS_CFG_CONFIGURATION CANBUS_MAX_BPS).2
    (stack 3) CANBUS_CFG_NORMAL CANBUS_MAX_BPS).1
  have hm := loopbackFixtureWith_data_check_mode g
    (canctl_set_config (loopbackFixtureWith g)
      (canctl_set_config (loopbackFixtureWith g) w (stack 0) CANBUS_CFG_CONFIGURATION
        CANBUS_MAX_BPS).2 (stack 1) CANBUS_CFG_LOOPBACK CANBUS_MAX_BPS).2
  rw [a2.2] at hm
  simp only [a1, a2.1, a3, a4, lt_self_iff_false, if_false] at e
  rw [e] at hf ⊢
  split_ifs at hf ⊢ with hd
  · exact ⟨f3, hm⟩
  · exact absurd rfl hf

/-- C25: the loopback test aborts at the first failing step and rolls nothing
back.  With its five steps `r1` (Configuration), `r2` (Loopback), `d` (data
check), `r3` (Configuration), `r4` (Normal): when a step fails, the test prints
that step's line and the frames written are those up to and including that
step, none after it.  In particular a failed data check leaves the two
restoring frames unsent; and on the faithful fixture, whatever it echoes, a
test that does not end in plain success wrote exactly the first three frames
and leaves the fixture in Loopback mode. -/
theorem loopback_aborts_without_rollback {σ : Type} (ch : Channel σ) (w : World σ)
    (stack : Nat → Buf) (r1 r2 r3 r4 : Int × World σ) (d : Msg × World σ)
    (h1 : r1 = canctl_set_config ch w (stack 0) CANBUS_CFG_CONFIGURATION CANBUS_MAX_BPS)
    (h2 : r2 = canctl_set_config ch r1.2 (stack 1) CANBUS_CFG_LOOPBACK CANBUS_MAX_BPS)
    (hd : d = loopback_data_check ch r2.2)
    (h3 : r3 = canctl_set_config ch d.2 (stack 2) CANBUS_CFG_CONFIGURATION CANBUS_MAX_BPS)
    (h4 : r4 = canctl_set_config ch r3.2 (stack 3) CANBUS_CFG_NORMAL CANBUS_MAX_BPS) :
    (r1.1 < 0 →
      (mnu_can_loopback_test ch w stack).1 =
          [Msg.configProblem (canctl_config_to_string CANBUS_CFG_CONFIGURATION)] ∧
        framesWritten (mnu_can_loopback_test ch w stack).2 =
          framesWritten w ++ [[0xcf, 0x04, 0x00, 0x0f, 0x42, 0x40]]) ∧
    (0 ≤ r1.1 → r2.1 < 0 →
      (mnu_can_loopback_test ch w stack).1 =
          [Msg.configProblem (canctl_config_to_string CANBUS_CFG_LOOPBACK)] ∧
        framesWritten (mnu_can_loopback_test ch w stack).2 =
          framesWritten w ++ [[0xcf, 0x04, 0x00, 0x0f, 0x42, 0x40], [0xcf, 0x02]]) ∧
    (0 ≤ r1.1 → 0 ≤ r2.1 → d.1 ≠ Msg.success →
      (mnu_can_loopback_test ch w stack).1 = [d.1] ∧
        framesWritten (mnu_can_loopback_test ch w stack).2 =
          framesWritten w ++ [[0xcf, 0x04, 0x00, 0x0f, 0x42, 0x40], [0xcf, 0x02],
            [0xca, 0x01, 0x1d, 0x1f, 0xff, 0xff, 0xff, 0x08, 0x08, 0x07, 0x06, 0x05, 0x04,
              0x03, 0x02, 0x01]]) ∧
    (0 ≤ r1.1 → 0 ≤ r2.1 → d.1 = Msg.success → r3.1 < 0 →
      (mnu_can_loopback_test ch w stack).1 =
          [Msg.success, Msg.configProblem (canctl_config_to_string CANBUS_CFG_CONFIGURATION)] ∧
        framesWritten (mnu_can_loopback_test ch w stack).2 =
          framesWritten w ++ [[0xcf, 0x04, 0x00, 0x0f, 0x42, 0x40], [0xcf, 0x02],
            [0xca, 0x01, 0x1d, 0x1f, 0xff, 0xff, 0xff, 0x08, 0x08, 0x07, 0x06, 0x05, 0x04,
              0x03, 0x02, 0x01], [0xcf, 0x04, 0x00, 0x0f, 0x42, 0x40]]) ∧
    (0 ≤ r1.1 → 0 ≤ r2.1 → d.1 = Msg.success → 0 ≤ r3.1 → r4.1 < 0 →
      (mnu_can_loopback_test ch w stack).1 =
        [Msg.success, Msg.configProblem (canctl_config_to_string CANBUS_CFG_NORMAL)]) ∧
    (∀ (g : List Nat → List Nat) (wf : World CanFixture),
      (mnu_can_loopback_test (loopbackFixtureWith g) wf stack).1 ≠ [Msg.success] →
      framesWritten (mnu_can_loopback_test (loopbackFixtureWith g) wf stack).2 =
          framesWritten wf ++ [[0xcf, 0x04, 0x00, 0x0f, 0x42, 0x40], [0xcf, 0x02],
            [0xca, 0x01, 0x1d, 0x1f, 0xff, 0xff, 0xff, 0x08, 0x08, 0x07, 0x06, 0x05, 0x04,
              0x03, 0x02, 0x01]] ∧
        ((mnu_can_loopback_test (loopbackFixtureWith g) wf stack).2.dev.mode : Int) =
          CANBUS_CFG_LOOPBACK) := by
  obtain ⟨e, f1, f2, f3, f4, -⟩ := loopback_test_steps ch w stack r1 r2 r3 r4 d h1 h2 hd h3 h4
  rw [e]
  refine ⟨?_, ?_, ?_, ?_, ?_, ?_⟩
  · intro a
    simp [a, f1]
  · intro a b
    simp [not_lt.mpr a, b, f2]
  · intro a b c
    simp [not_lt.mpr a, not_lt.mpr b, c, f3]
  · intro a b c x
    simp [not_lt.mpr a, not_lt.mpr b, c, x, f4]
  · intro a b c x y
    simp [not_lt.mpr a, not_lt.mpr b, c, not_lt.mpr x, y]
  · intro g wf hf
    have := loopbackFixtureWith_failure g wf stack hf
    refine ⟨this.1, ?_⟩
    rw [this.2]
    rfl

/-- C25 on the faithful fixture that echoes only the first 15 bytes: the test
prints the length error, the frames written are the first three, and the
fixture stays in Loopback mode. -/
theorem loopback_aborts_without_rollback_witness :
    (mnu_can_loopback_test (loopbackFixtureWith (List.take 15))
        (World.init { mode := 0, pending := none }) (fun _ => zeroed)).1 =
      [Msg.readUnexpected 16 15] ∧
    framesWritten (mnu_can_loopback_test (loopbackFixtureWith (List.take 15))
        (World.init { mode := 0, pending := none }) (fun _ => zeroed)).2 =
      [[0xcf, 0x04, 0x00, 0x0f, 0x42, 0x40], [0xcf, 0x02],
        [0xca, 0x01, 0x1d, 0x1f, 0xff, 0xff, 0xff, 0x08, 0x08, 0x07, 0x06, 0x05, 0x04, 0x03,
          0x02, 0x01]] ∧
    ((mnu_can_loopback_test (loopbackFixtureWith (List.take 15))
        (World.init { mode := 0, pending := none }) (fun _ => zeroed)).2.dev.mode : Int) =
      CANBUS_CFG_LOOPBACK :=
  have t := (loopback_aborts_without_rollback (loopbackFixtureWith (List.take 15))
    (World.init { mode := 0, pending := none }) (fun _ => zeroed) _ _ _ _ _
    rfl rfl rfl rfl rfl).2.2.2.2.2 (List.take 15) (World.init { mode := 0, pending := none })
    (by decide)
  ⟨by decide, t.1, t.2⟩

/-- C24 fails on the code: the loopback test never sends an 0xCC request.  Over
any channel every frame it writes is one of the five frames of the test, none
of which begins with 0xCC.  On a device that acknowledges 0xCF frames without
changing its mode (here Disabled), each set step is taken as done: the test
prints the success line, and the `canctl_get_config` after it still returns
Disabled. -/
theorem loopback_test_does_not_verify {σ : Type} (ch : Channel σ) (w : World σ)
    (stack : Nat → Buf) :
    (∃ fs : List (List Nat),
      framesWritten (mnu_can_loopback_test ch w stack).2 = framesWritten w ++ fs ∧
        ∀ f, f ∈ fs → f.head? ≠ some 0xcc) ∧
    (mnu_can_loopback_test ackOnlyFixture (World.init { mode := 1, pending := none })
      (fun _ => zeroed)).1 = [Msg.success] ∧
    framesWritten (mnu_can_loopback_test ackOnlyFixture
      (World.init { mode := 1, pending := none }) (fun _ => zeroed)).2 =
      [[0xcf, 0x04, 0x00, 0x0f, 0x42, 0x40], [0xcf, 0x02],
        [0xca, 0x01, 0x1d, 0x1f, 0xff, 0xff, 0xff, 0x08, 0x08, 0x07, 0x06, 0x05, 0x04, 0x03,
          0x02, 0x01], [0xcf, 0x04, 0x00, 0x0f, 0x42, 0x40], [0xcf, 0x00]] ∧
    (canctl_get_config ackOnlyFixture
      (mnu_can_loopback_test ackOnlyFixture (World.init { mode := 1, pending := none })
        (fun _ => zeroed)).2 zeroed).1 = CANBUS_CFG_DISABLE := by
  refine ⟨?_, by decide, by decide, by decide⟩
  obtain ⟨e, f1, f2, f3, f4, f5⟩ := loopback_test_steps ch w stack _ _ _ _ _
    rfl rfl rfl rfl rfl
  rw [e]
  split_ifs
  · exact ⟨_, f1, by decide⟩
  · exact ⟨_, f2, by decide⟩
  · exact ⟨_, f3, by decide⟩
  · exact ⟨_, f4, by decide⟩
  · exact ⟨_, f5, by decide⟩
  · exact ⟨_, f5, by decide⟩

/-! ## Every frame sent is at most 64 bytes -/

theorem sendsOnly_one {σ : Type} (w w2 : World σ) (f : List Nat) (lens : List Nat)
    (h : framesWritten w2 = framesWritten w ++ [f]) (hl : f.length ∈ lens) :
    SendsOnly lens w w2 :=
  ⟨[f], h, fun g hg => by rw [List.mem_singleton.mp hg]; exact hl⟩

theorem sendsOnly_none {σ : Type} (w : World σ) (lens : List Nat) : SendsOnly lens w w :=
  ⟨[], by simp, fun g hg => by cases hg⟩

/-- The parsing loop of `mnu_write` ends with `i` at most the start index plus
the iterations it was given. -/
theorem mnu_write_parse_le (strtol16 : List Char → Int × Nat) (k : Nat) :
    ∀ (i : Nat) (msg : Buf) (toks : List (List Char)),
      (mnu_write_parse strtol16 k i msg toks).1 ≤ i + k := by
  induction k with
  | zero =>
    intro i msg toks
    simp [mnu_write_parse]
  | succ k ih =>
    intro i msg toks
    cases toks with
    | nil => simp [mnu_write_parse]
    | cons tok rest =>
      rw [mnu_write_parse]
      split_ifs
      · exact Nat.le_add_right _ _
      · exact (ih _ _ _).trans (by omega)

theorem framesWritten_gpio_set_pin {σ : Type} (ch : Channel σ) (w : World σ) (stack : Buf)
    (op_type : Int) (v : Buf) :
    ∃ f : List Nat, f.length = 10 ∧
      framesWritten (gpio_set_pin ch w stack op_type v).2 = framesWritten w ++ [f] := by
  refine ⟨[if op_type = PIN_TYPE then 0xb0 else 0xb1, 0x02, v 0 % 256, v 1 % 256, v 2 % 256,
    v 3 % 256, v 4 % 256, v 5 % 256, v 6 % 256, v 7 % 256], rfl, ?_⟩
  rw [gpio_set_pin_eq ch w stack op_type v _ _ rfl rfl]
  split_ifs <;> simp [framesWritten_sys_write, framesWritten_reply]

theorem framesWritten_set_led {σ : Type} (ch : Channel σ) (w : World σ) (stack : Buf)
    (mode : Int) : SendsOnly [2] w (canctl_set_led ch w stack mode).2 := by
  by_cases h0 : mode = CANBUS_LED_OFF
  · refine sendsOnly_one _ _ [0xdd, 0] _ ?_ (by decide)
    rw [canctl_set_led_eq ch w stack mode 0xdd (Or.inl ⟨h0, rfl⟩)]
    split_ifs <;> simp [framesWritten_sys_write, framesWritten_reply]
  · by_cases h1 : mode = CANBUS_LED_ON
    · refine sendsOnly_one _ _ [0xde, 0] _ ?_ (by decide)
      rw [canctl_set_led_eq ch w stack mode 0xde (Or.inr (Or.inl ⟨h1, rfl⟩))]
      split_ifs <;> simp [framesWritten_sys_write, framesWritten_reply]
    · by_cases h2 : mode = CANBUS_LED_NORMAL
      · refine sendsOnly_one _ _ [0xdf, 0] _ ?_ (by decide)
        rw [canctl_set_led_eq ch w stack mode 0xdf (Or.inr (Or.inr ⟨h2, rfl⟩))]
        split_ifs <;> simp [framesWritten_sys_write, framesWritten_reply]
      · rw [canctl_set_led_other ch w stack mode h0 h1 h2]
        exact sendsOnly_none w _

theorem sendsOnly_loopback_test {σ : Type} (ch : Channel σ) (w : World σ) (stack : Nat → Buf) :
    SendsOnly [6, 2, 16] w (mnu_can_loopback_test ch w stack).2 := by
  obtain ⟨e, f1, f2, f3, f4, f5⟩ := loopback_test_steps ch w stack _ _ _ _ _
    rfl rfl rfl rfl rfl
  rw [e]
  split_ifs
  · exact ⟨_, f1, by decide⟩
  · exact ⟨_, f2, by decide⟩
  · exact ⟨_, f3, by decide⟩
  · exact ⟨_, f4, by decide⟩
  · exact ⟨_, f5, by decide⟩
  · exact ⟨_, f5, by decide⟩

theorem sendsOnly_usb_exchange {σ : Type} (ch : Channel σ) (w : World σ) (buf_tx : Buf) :
    SendsOnly [64] w (usb_self_test_exchange ch w buf_tx).2 :=
  sendsOnly_one _ _ (frameOf buf_tx 64) _
    (usb_self_test_exchange_spec ch w buf_tx _ rfl).1 (by simp [frameOf_length])

theorem sendsOnly_mnu_write_turn {σ : Type} (ch : Channel σ) (w : World σ)
    (strtol16 : List Char → Int × Nat) (input : List Char) :
    ∃ n, n ≤ 64 ∧ SendsOnly [n] w (mnu_write_turn ch w strtol16 input).2 := by
  unfold mnu_write_turn
  dsimp only
  split_ifs
  · exact ⟨0, by norm_num, sendsOnly_none w _⟩
  · have hle := mnu_write_parse_le strtol16 CANBUS_MSG_SIZE 0 zeroed
      (strtokLoop ((input.take (CANBUS_MSG_SIZE * 2 - 1)).takeWhile
        fun c => c ≠ Char.ofNat 0) [])
    refine ⟨(mnu_write_parse strtol16 CANBUS_MSG_SIZE 0 zeroed
      (strtokLoop ((input.take (CANBUS_MSG_SIZE * 2 - 1)).takeWhile
        fun c => c ≠ Char.ofNat 0) [])).1, by simpa [CANBUS_MSG_SIZE] using hle,
      sendsOnly_one _ _ _ _ (framesWritten_sys_write ch w _) ?_⟩
    rw [frameOf_length]
    exact List.mem_singleton.mpr rfl

/-- C23: every report frame the program sends is at most 64 bytes.  Each call
site of `canctl_write` is covered: the commands of `canctl.c` write frames of
2, 6 or 10 bytes (and `canctl_read` writes nothing), the USB self-test one of
64, the loopback test frames of 6, 2 and 16, and a turn of the interactive write
mode, for every input line and whatever `strtol` returns, one frame of `n ≤ 64`
bytes (or none).  So if all frames written so far have at most 64 bytes, this
still holds after any of these operations. -/
theorem every_frame_at_most_64 {σ : Type} (ch : Channel σ) (w : World σ) (stack : Buf) :
    (∀ (b : Option Buf) (len : Nat), SendsOnly [] w (canctl_read ch w b len).2.2) ∧
    SendsOnly [2] w (canctl_get_firmware_version ch w).2 ∧
    SendsOnly [2] w (canctl_get_config ch w stack).2 ∧
    (∀ (cfg : Int) (speed : Nat),
      SendsOnly [2, 6] w (canctl_set_config ch w stack cfg speed).2) ∧
    (∀ mode : Int, SendsOnly [2] w (canctl_set_led ch w stack mode).2) ∧
    SendsOnly [2] w (canctl_get_error_state ch w stack).2 ∧
    (∀ (op_type : Int) (v : Buf), SendsOnly [10] w (gpio_set_pin ch w stack op_type v).2) ∧
    (∀ (op_type : Int) (pins : Buf),
      SendsOnly [2] w (gpio_read_pin ch w stack op_type pins).2.2) ∧
    (∀ (op_select : Int) (out : Buf),
      SendsOnly [2] w (gpio_get_iom_or_sku ch w stack op_select out).2.2) ∧
    (∀ (RAND_MAX : Nat) (draws : List Nat) (r : List Msg × World σ),
      mnu_usb_self_test ch w RAND_MAX draws = some r → SendsOnly [64] w r.2) ∧
    (∀ stk : Nat → Buf, SendsOnly [6, 2, 16] w (mnu_can_loopback_test ch w stk).2) ∧
    (∀ (strtol16 : List Char → Int × Nat) (input : List Char),
      ∃ n, n ≤ 64 ∧ SendsOnly [n] w (mnu_write_turn ch w strtol16 input).2) ∧
    (∀ (lens : List Nat) (w2 : World σ), SendsOnly lens w w2 → (∀ n, n ∈ lens → n ≤ 64) →
      (∀ f, f ∈ framesWritten w → f.length ≤ 64) →
      ∀ f, f ∈ framesWritten w2 → f.length ≤ 64) := by
  refine ⟨?_, ?_, ?_, ?_, ?_, ?_, ?_, ?_, ?_, ?_, ?_, ?_, ?_⟩
  · intro b len
    exact ⟨[], by rw [framesWritten_canctl_read, List.append_nil], fun f hf => by cases hf⟩
  · refine sendsOnly_one _ _ [0xec, 0] _ ?_ (by decide)
    rw [canctl_get_firmware_version_eq]
    split_ifs <;> simp [framesWritten_sys_write, framesWritten_reply]
  · refine sendsOnly_one _ _ [0xcc, 0] _ ?_ (by decide)
    rw [canctl_get_config_eq]
    split_ifs <;> simp [framesWritten_sys_write, framesWritten_reply]
  · intro cfg speed
    by_cases h : cfg = CANBUS_CFG_CONFIGURATION
    · subst h
      exact sendsOnly_one _ _ _ _ (set_config_configuration ch w stack speed _ rfl).1
        (by simp)
    · exact sendsOnly_one _ _ _ _ (set_config_other ch w stack cfg speed h) (by simp)
  · exact framesWritten_set_led ch w stack
  · refine sendsOnly_one _ _ [0xce, 0] _ ?_ (by decide)
    rw [canctl_get_error_state_eq]
    split_ifs <;> simp [framesWritten_sys_write, framesWritten_reply]
  · intro op_type v
    obtain ⟨f, hl, hf⟩ := framesWritten_gpio_set_pin ch w stack op_type v
    exact sendsOnly_one _ _ f _ hf (by rw [hl]; decide)
  · intro op_type pins
    refine sendsOnly_one _ _ [if op_type = PIN_TYPE then 0xb0 else 0xb1, 0x01] _ ?_ (by simp)
    rw [gpio_read_pin_eq ch w stack op_type pins _ rfl]
    split_ifs <;> simp [framesWritten_sys_write, framesWritten_reply]
  · intro op_select out
    refine sendsOnly_one _ _ [if op_select = GET_IOM then 0xb3 else 0xb2, 0] _ ?_ (by simp)
    rw [gpio_get_iom_or_sku_eq ch w stack op_select out _ rfl]
    split_ifs <;> simp [framesWritten_sys_write, framesWritten_reply]
  · intro RAND_MAX draws r hr
    unfold mnu_usb_self_test at hr
    dsimp only at hr
    split at hr
    · cases hr
    · rw [← Option.some.inj hr]
      exact sendsOnly_usb_exchange ch w _
  · exact sendsOnly_loopback_test ch w
  · exact sendsOnly_mnu_write_turn ch w
  · rintro lens w2 ⟨fs, hfs, hlen⟩ hle hw f hf
    rw [hfs, List.mem_append] at hf
    rcases hf with h | h
    · exact hw f h
    · exact hle _ (hlen f h)

/-! ## The `--timeout` option and the choice of the device -/

/-- C26 fails on the code: `--timeout 500`, for which `strtol` returns 500 with
`endptr` past the digits, leaves `cfg.timeout_ms = 10000`, not 500, and `main`
sets the read timeout to 10000.  The assignment of the default after
`if (arg == endptr)` is not in the body of that `if`, so it runs for every
argument: the value left is 10000 whatever `strtol` returned. -/
theorem timeout_option_is_ignored :
    (parser_timeout 500 false).1 = 10000 ∧ (parser_timeout 500 false).1 ≠ 500 ∧
      (parser_timeout 500 false).2 = [] ∧
      canctl_get_timeout_ms (main_set_timeout (World.init ()) 500 false) = 10000 ∧
      LONG_MIN < 500 ∧ 500 < LONG_MAX ∧
      ∀ (num : Int) (arg_eq_endptr : Bool),
        (parser_timeout num arg_eq_endptr).1 = CANBUS_DEFAULT_TIMEOUT_MS := by
  refine ⟨by decide, by decide, by decide, by decide, by decide, by decide, ?_⟩
  intro num arg_eq_endptr
  rfl

/-- C27 fails on the code: with `--path` and the answer '1' (code 49) the
switch falls through from `case '1'` to `case '2'`, so the one descriptor `fd`
(here 3) is assigned to `fd_can` and to `fd_gpio`: both are set and they are
the same descriptor.  With the answer '2' (code 50) only `fd_gpio` is
assigned. -/
theorem path_choice_shares_descriptor :
    choose_device 3 49 (-1) (-1) =
        (3, 3, [ChoiceLine.canChosen, ChoiceLine.gpioChosen, ChoiceLine.pleaseChoose]) ∧
      (choose_device 3 49 (-1) (-1)).2.1 ≠ -1 ∧
      (choose_device 3 49 (-1) (-1)).1 = (choose_device 3 49 (-1) (-1)).2.1 ∧
      choose_device 3 50 (-1) (-1) =
        (-1, 3, [ChoiceLine.gpioChosen, ChoiceLine.pleaseChoose]) ∧
      ∀ fd : Int, (choose_device fd 49 (-1) (-1)).1 = fd ∧
        (choose_device fd 49 (-1) (-1)).2.1 = fd := by
  refine ⟨by decide, by decide, by decide, by decide, ?_⟩
  intro fd
  exact ⟨rfl, rfl⟩

end CanCtl
